import Mathlib

/-!
# wxExplorerBrowser: a model of the adapter between IExplorerBrowser and wxWidgets

Shallow embedding of `wxExplorerBrowser.h` / `wxExplorerBrowser.cpp`.

* C++ objects with mutable members become structures; a method that mutates
  `this` or writes through a reference parameter returns the new value.
* COM calls into the shell are inputs of the model: a COM object is a
  structure whose fields give, for each method, the `HRESULT` and the value
  written through the out pointer.
* `HRESULT` is a signed 32-bit code (`Int`), `SFGAOF` / `wxUint32` values are
  `Nat`, `ULONGLONG` tick counts are `Nat` with arithmetic modulo `2 ^ 64`.
* Events handed to the host window are recorded in a trace (a list), in the
  order in which `ProcessWindowEvent` is called.
-/

namespace wxExplorerBrowser

/-! ## Windows SDK constants -/

/-- COM status code, a signed 32-bit integer. -/
abbrev HRESULT := Int

/-- Success (`0x00000000`). -/
def S_OK : HRESULT := 0

/-- Success with a negative answer (`0x00000001`). -/
def S_FALSE : HRESULT := 1

/-- Unspecified failure (`0x80004005` read as a signed 32-bit integer). -/
def E_FAIL : HRESULT := -2147467259

/-- The `FAILED` macro of the SDK: the severity bit is set. -/
def FAILED (hr : HRESULT) : Bool := decide (hr < 0)

/-- The `SUCCEEDED` macro of the SDK. -/
def SUCCEEDED (hr : HRESULT) : Bool := decide (0 ≤ hr)

/-- Value of `SFGAO_LINK` (also spelled out in `wxExplorerBrowserItem::IsShortcut`). -/
def SFGAO_LINK : Nat := 0x00010000

/-- Value of `SFGAO_STREAM`. -/
def SFGAO_STREAM : Nat := 0x00400000

/-- Value of `SFGAO_FOLDER` (also spelled out in `wxExplorerBrowserItem::IsFolder`). -/
def SFGAO_FOLDER : Nat := 0x20000000

/-- Value of `SFGAO_FILESYSTEM`. -/
def SFGAO_FILESYSTEM : Nat := 0x40000000

/-- Value of `CDBOSC_SELCHANGE`, the selection-changed sub-type of `OnStateChange`. -/
def CDBOSC_SELCHANGE : Nat := 2

/-- No such interface (`0x80004002` read as a signed 32-bit integer). -/
def E_NOINTERFACE : HRESULT := -2147467262

/-- Invalid argument (`0x80070057` read as a signed 32-bit integer). -/
def E_INVALIDARG : HRESULT := -2147024809

/-- Value of `CDB2GVF_NOSELECTVERB`. -/
def CDB2GVF_NOSELECTVERB : Nat := 0x00000008

/-- Value of `CDB2GVF_NOINCLUDEITEM`. -/
def CDB2GVF_NOINCLUDEITEM : Nat := 0x00000010

/-- Value of `SVGIO_ALLVIEW`. -/
def SVGIO_ALLVIEW : Nat := 0x00000002

/-- Value of `SVGIO_FLAG_VIEWORDER`. -/
def SVGIO_FLAG_VIEWORDER : Nat := 0x80000000

/-- Value of `SVSI_SELECT`. -/
def SVSI_SELECT : Nat := 0x00000001

/-- Value of `SVSI_NOTAKEFOCUS`. -/
def SVSI_NOTAKEFOCUS : Nat := 0x40000000

/-- Value of `SBSP_KEEPWORDWHEELTEXT`. -/
def SBSP_KEEPWORDWHEELTEXT : Nat := 0x00040000

/-- Interface identifiers as `QueryInterface` tells them apart: the eight it
compares `riid` with, and `other` for every further GUID. -/
inductive IID where
  | IID_IUnknown
  | IID_IServiceProvider
  | IID_ICommDlgBrowser
  | IID_ICommDlgBrowser2
  | IID_ICommDlgBrowser3
  | IID_IExplorerBrowserEvents
  | IID_IFolderFilter
  | IID_IExplorerPaneVisibility
  | other (guid : Nat)
  deriving DecidableEq, Repr

/-- Service identifiers as `QueryService` tells them apart: the two it compares
`guidService` with, and `other` for every further GUID. -/
inductive SID where
  | SID_SExplorerBrowserFrame
  | SID_ExplorerPaneVisibility
  | other (guid : Nat)
  deriving DecidableEq, Repr

/-- Pane identifiers of the shell (`REFEXPLORERPANE`) as `GetPaneState` tells
them apart: the ten it compares `ep` with, and `other` for every further GUID. -/
inductive EXPLORERPANE where
  | EP_NavPane
  | EP_Commands
  | EP_Commands_Organize
  | EP_Commands_View
  | EP_DetailsPane
  | EP_PreviewPane
  | EP_QueryPane
  | EP_AdvQueryPane
  | EP_StatusBar
  | EP_Ribbon
  | other (guid : Nat)
  deriving DecidableEq, Repr

/-! ## wxExplorerBrowserItem -/

/-- The enum `wxExplorerBrowserItem::Type`. -/
inductive wxExplorerBrowserItemType where
  | Unknown
  | File
  | Directory
  | Other
  deriving DecidableEq, Repr

namespace wxExplorerBrowserItemType

/-- Enumerator values: `Unknown = 0`, `File = 0x01`, `Directory = 0x02`, `Other = 0x08`. -/
def toNat : wxExplorerBrowserItemType → Nat
  | Unknown => 0
  | File => 0x01
  | Directory => 0x02
  | Other => 0x08

end wxExplorerBrowserItemType

/-- The class `wxExplorerBrowserItem`; the defaults are those of its constructor. -/
structure wxExplorerBrowserItem where
  m_type : wxExplorerBrowserItemType := wxExplorerBrowserItemType.Unknown
  m_path : String := ""
  m_displayName : String := ""
  m_SFGAO : Nat := 0
  deriving DecidableEq, Repr

namespace wxExplorerBrowserItem

def GetType (i : wxExplorerBrowserItem) : wxExplorerBrowserItemType := i.m_type

def GetPath (i : wxExplorerBrowserItem) : String := i.m_path

def GetDisplayName (i : wxExplorerBrowserItem) : String := i.m_displayName

def GetSFGAO (i : wxExplorerBrowserItem) : Nat := i.m_SFGAO

def SetType (i : wxExplorerBrowserItem) (type : wxExplorerBrowserItemType) :
    wxExplorerBrowserItem :=
  { i with m_type := type }

def SetPath (i : wxExplorerBrowserItem) (path : String) : wxExplorerBrowserItem :=
  { i with m_path := path }

def SetDisplayName (i : wxExplorerBrowserItem) (name : String) : wxExplorerBrowserItem :=
  { i with m_displayName := name }

def SetSFGAO (i : wxExplorerBrowserItem) (attr : Nat) : wxExplorerBrowserItem :=
  { i with m_SFGAO := attr }

end wxExplorerBrowserItem

/-! ## Kind classification -/

/-- The three attribute bits `_SFGAO2wxExplorerBrowserItemType` looks at. -/
def trackedBits : Nat := SFGAO_FILESYSTEM ||| SFGAO_FOLDER ||| SFGAO_STREAM

/-- The static method `wxExplorerBrowserImplHelper::_SFGAO2wxExplorerBrowserItemType`. -/
def _SFGAO2wxExplorerBrowserItemType (attr : Nat) : wxExplorerBrowserItemType :=
  let FileSystemFile := SFGAO_FILESYSTEM ||| SFGAO_STREAM
  let FileSystemDirectory := SFGAO_FILESYSTEM ||| SFGAO_FOLDER
  let VirtualZipDirectory := SFGAO_FILESYSTEM ||| SFGAO_FOLDER ||| SFGAO_STREAM
  -- remove the attributes we are not interested in
  let attr := attr &&& (SFGAO_FILESYSTEM ||| SFGAO_FOLDER ||| SFGAO_STREAM)
  if attr = 0 then wxExplorerBrowserItemType.Unknown
  else if attr = FileSystemFile ∨ attr = VirtualZipDirectory then wxExplorerBrowserItemType.File
  else if attr = FileSystemDirectory then wxExplorerBrowserItemType.Directory
  else wxExplorerBrowserItemType.Other

/-- Whether `attr & flag` is non-zero, as in `IsFolder` and `IsShortcut`. -/
def hasAttr (attr flag : Nat) : Bool := decide (attr &&& flag ≠ 0)

/-! ## wxWidgets library functions used by the filter

These functions belong to wxWidgets, not to this repository; they are modelled
here after their documented behaviour.
-/

/-- Model of `wxString::Upper` / `wxString::MakeUpper`: every character is
replaced by its upper-case counterpart (the letters `a`..`z` in this model). -/
def Upper (s : String) : String := String.mk (s.data.map Char.toUpper)

/-- Where a `*` of the pattern may stop: `k` is tried on every suffix of the text. -/
def wxMatchWildStar (k : List Char → Bool) : List Char → Bool
  | [] => k []
  | c :: t => k (c :: t) || wxMatchWildStar k t

/-- Pattern matching of `wxMatchWild` on character lists: `*` stands for any run
of characters, `?` for any one character, a backslash quotes the character that
follows it, and every other character stands for itself. -/
def wxMatchWildChars : List Char → List Char → Bool
  | [], t => t.isEmpty
  | p :: ps, t =>
    if p = '*' then wxMatchWildStar (wxMatchWildChars ps) t
    else if p = '?' then
      match t with
      | [] => false
      | _ :: t' => wxMatchWildChars ps t'
    else if p = '\\' then
      match ps, t with
      | [], _ => false
      | _ :: _, [] => false
      | q :: ps', c :: t' => decide (q = c) && wxMatchWildChars ps' t'
    else
      match t with
      | [] => false
      | c :: t' => decide (p = c) && wxMatchWildChars ps t'

/-- Model of `wxMatchWild(pat, text, dot_special)`: an empty text is matched by
the empty pattern only; with `dot_special` a text starting with a dot never
matches. -/
def wxMatchWild (pat text : String) (dot_special : Bool) : Bool :=
  if text.data.isEmpty then pat.data.isEmpty
  else if dot_special && text.data.head? = some '.' then false
  else wxMatchWildChars pat.data text.data

/-- The characters after the last path separator (`\` or `/`) of `cs`;
`acc` holds the characters seen since the last separator. -/
def lastComponent (acc : List Char) : List Char → List Char
  | [] => acc
  | c :: cs =>
    if c = '\\' ∨ c = '/' then lastComponent [] cs else lastComponent (acc ++ [c]) cs

/-- The path without its volume: what follows the first `:`, or the whole
path when it has none; a colon at the very start of the path is not a volume
separator. -/
def stripVolume (cs : List Char) : List Char :=
  if cs.head? = some ':' then cs
  else
    match cs.dropWhile (fun c => c != ':') with
    | [] => cs
    | _ :: rest => rest

/-- Model of `wxFileName(path).GetFullName()` for native (DOS format) paths:
name and extension of the last path component. -/
def wxFileName_GetFullName (path : String) : String :=
  String.mk (lastComponent [] (stripVolume path.data))

/-! ## The shell, as seen through COM -/

/-- The two name forms `_IShellItem2wxExplorerBrowserItem` asks for. -/
inductive SIGDN where
  | SIGDN_NORMALDISPLAY
  | SIGDN_FILESYSPATH
  deriving DecidableEq, Repr

/-- An `IShellItem`: for each method the status and the value written on success. -/
structure IShellItem where
  GetAttributes : Nat → HRESULT × Nat
  GetDisplayName : SIGDN → HRESULT × String

/-- A child item id relative to its folder. -/
abbrev PCUITEMID_CHILD := Nat

/-- An `IShellFolder`, as far as `SHCreateItemWithParent` uses it: the status
and the item pointer (possibly null) obtained for a child id. -/
structure IShellFolder where
  children : PCUITEMID_CHILD → HRESULT × Option IShellItem
  /-- the status and the item id list of `ParseDisplayName` for a name -/
  ParseDisplayName : String → HRESULT × Nat := fun _ => (E_FAIL, 0)

/-- The call `::SHCreateItemWithParent(nullptr, psf, pidlItem, IID_IShellItem, &si)`. -/
def SHCreateItemWithParent (psf : IShellFolder) (pidlItem : PCUITEMID_CHILD) :
    HRESULT × Option IShellItem :=
  psf.children pidlItem

/-- An `IShellItemArray`: the status and value of `GetCount`, and for each index
the status and item pointer (possibly null) of `GetItemAt`. -/
structure IShellItemArray where
  GetCount : HRESULT × Nat := (S_OK, 0)
  GetItemAt : Nat → HRESULT × Option IShellItem := fun _ => (E_FAIL, none)

/-- An `IFolderView2`, as far as the code uses it: `GetSelectedItem(iStart)`,
`GetItem(index)`, `GetSelection(fNoneImpliesFolder)` and `Items(uFlags)`; an
array is only looked at when its status is a success. -/
structure IFolderView2 where
  GetSelectedItem : Int → HRESULT × Int
  GetItem : Int → HRESULT × Option IShellItem
  GetSelection : Bool → HRESULT × IShellItemArray := fun _ => (E_FAIL, {})
  Items : Nat → HRESULT × IShellItemArray := fun _ => (E_FAIL, {})
  /-- the status and folder of `GetFolder(IID_IShellFolder)` -/
  GetFolder : HRESULT × IShellFolder := (E_FAIL, { children := fun _ => (E_FAIL, none) })

/-- An `IShellView`, as far as `SelectItems` uses it: the status of
`SelectItem(pidl, flags)`; `none` is the null item id list. -/
structure IShellView where
  SelectItem : Option Nat → Nat → HRESULT := fun _ _ => E_FAIL

/-- An `IFolderFilterSite`: the status of `SetFilter(punk)`, the argument telling
whether `punk` is the helper (`true`) or `nullptr` (`false`). -/
structure IFolderFilterSite where
  SetFilter : Bool → HRESULT := fun _ => E_FAIL

/-- An `IExplorerBrowser`, as far as the code uses it. `GetCurrentView` is the
call asking for `IFolderView2` and `GetCurrentView_IShellView` the one asking
for `IShellView`; an object that comes with a status is only looked at when the
status is a success. `Initialize` is given the view mode and the folder flags,
`Advise` answers with a status and the cookie it writes. -/
structure IExplorerBrowser where
  GetCurrentView : HRESULT × IFolderView2
  GetCurrentView_IShellView : HRESULT × IShellView := (E_FAIL, {})
  SetOptions : Nat → HRESULT := fun _ => E_FAIL
  QueryInterface_IFolderFilterSite : HRESULT × IFolderFilterSite := (E_FAIL, {})
  Initialize : Nat → Nat → HRESULT := fun _ _ => E_FAIL
  Advise : HRESULT × Nat := (E_FAIL, 0)
  Unadvise : Nat → HRESULT := fun _ => E_FAIL
  BrowseToIDList : Option Nat → Nat → HRESULT := fun _ _ => E_FAIL
  Destroy : HRESULT := E_FAIL

/-- The functions of the operating system the code calls: the status of
`::CoCreateInstance(CLSID_ExplorerBrowser, ...)`; the entry point
`IUnknown_SetSite` of `shlwapi.dll`, `none` when it cannot be loaded, its
argument telling whether the site is the helper (`true`) or `nullptr`
(`false`); the status and item id list of `::SHParseDisplayName` for a name. -/
structure OperatingSystem where
  CoCreateInstance : HRESULT := E_FAIL
  IUnknown_SetSite : Option (Bool → HRESULT) := none
  SHParseDisplayName : String → HRESULT × Nat := fun _ => (E_FAIL, 0)

/-- The calls into the operating system and the shell that `Create`, `BrowseTo`,
`SelectItems` and the destructor of `wxExplorerBrowserImpl` make, with the
arguments that matter. -/
inductive EngineCall where
  | CoCreateInstance
  | SetOptions (options : Nat)
  | IUnknown_SetSite (site : Bool)
  | QueryInterface_IFolderFilterSite
  | SetFilter (filter : Bool)
  | Initialize (viewMode flags : Nat)
  | Advise
  | Unadvise (cookie : Nat)
  | SHParseDisplayName (item : String)
  | BrowseToIDList (pidl : Option Nat) (flags : Nat)
  | Destroy
  | GetCurrentView_IShellView
  | GetCurrentView_IFolderView2
  | GetFolder
  | ParseDisplayName (name : String)
  | SelectItem (pidl : Option Nat) (flags : Nat)
  deriving DecidableEq, Repr

/-- The function `Call_IUnknown_SetSite(m_explorerBrowser, punkSite)`: the entry
point is called when it can be loaded, otherwise the answer is `E_FAIL`. -/
def Call_IUnknown_SetSite (os : OperatingSystem) (punkSite : Bool) :
    HRESULT × List EngineCall :=
  match os.IUnknown_SetSite with
  | some s_pfnIUnknown_SetSite =>
    (s_pfnIUnknown_SetSite punkSite, [EngineCall.IUnknown_SetSite punkSite])
  | none => (E_FAIL, [])

/-- An absolute item id list, as far as `SHCreateItemFromIDList` uses it: the
status and the item pointer (possibly null) obtained for it. -/
structure ITEMIDLIST_ABSOLUTE where
  item : HRESULT × Option IShellItem

/-- A pointer to an absolute item id list; `none` is the null pointer. -/
abbrev PCIDLIST_ABSOLUTE := Option ITEMIDLIST_ABSOLUTE

/-- The call `::SHCreateItemFromIDList(pidl, IID_IShellItem, &si)`. -/
def SHCreateItemFromIDList (pidl : ITEMIDLIST_ABSOLUTE) : HRESULT × Option IShellItem :=
  pidl.item

/-! ## Pane settings -/

/-- The enum `wxExplorerBrowser::PaneID`, with values 0 to 9. -/
inductive PaneID where
  | EP_NavPane
  | EP_Commands
  | EP_Commands_Organize
  | EP_Commands_View
  | EP_DetailsPane
  | EP_PreviewPane
  | EP_QueryPane
  | EP_AdvQueryPane
  | EP_StatusBar
  | EP_Ribbon
  deriving DecidableEq, Repr, Fintype

/-- The ten pane identifiers, in the order of the enum. -/
def PaneID.all : List PaneID :=
  [PaneID.EP_NavPane, PaneID.EP_Commands, PaneID.EP_Commands_Organize,
   PaneID.EP_Commands_View, PaneID.EP_DetailsPane, PaneID.EP_PreviewPane,
   PaneID.EP_QueryPane, PaneID.EP_AdvQueryPane, PaneID.EP_StatusBar, PaneID.EP_Ribbon]

/-- Value of `EPS_DONTCARE` of the enum `wxExplorerBrowser::PaneState`. -/
def EPS_DONTCARE : Nat := 0x0000

/-- Value of `EPS_DEFAULT_ON`. -/
def EPS_DEFAULT_ON : Nat := 0x0001

/-- Value of `EPS_DEFAULT_OFF`. -/
def EPS_DEFAULT_OFF : Nat := 0x0002

/-- Value of `EPS_FORCE`. -/
def EPS_FORCE : Nat := 0x00020000

/-- The struct `wxExplorerBrowser::FolderSettings`; the default view mode is
`FVM_AUTO = -1` as a `wxUint32`, the default flags are `FWF_NONE`. -/
structure FolderSettings where
  m_viewMode : Nat := 4294967295
  m_flags : Nat := 0
  deriving DecidableEq, Repr

/-- The class `wxExplorerBrowser::PaneSettings`: the array `m_data`, one
`wxUint32` for each `PaneID`; the default is what the constructor writes with
`memset(&m_data, EPS_DONTCARE, sizeof(m_data))`. -/
structure PaneSettings where
  m_data : PaneID → Nat := fun _ => 0
  deriving DecidableEq

namespace PaneSettings

/-- The method `SetFlags`: `m_data[pane] = flags`. -/
def SetFlags (s : PaneSettings) (pane : PaneID) (flags : Nat) : PaneSettings :=
  { m_data := fun p => if p = pane then flags else s.m_data p }

/-- The method `GetFlags`: `m_data[pane]`. -/
def GetFlags (s : PaneSettings) (pane : PaneID) : Nat := s.m_data pane

end PaneSettings

instance : Repr PaneSettings where
  reprPrec s _ := repr (PaneID.all.map s.m_data)

/-- The struct `wxExplorerBrowser::CreateStruct`; the default options are
`EBO_NOBORDER | EBO_SHOWFRAMES`. -/
structure CreateStruct where
  options : Nat := 0x00000040 ||| 0x00000002
  folderSettings : FolderSettings := {}
  paneSettings : PaneSettings := {}

/-! ## Events and the host window -/

/-- The seven event types defined with `wxDEFINE_EVENT`. -/
inductive wxEventType where
  | wxEVT_EXPLORER_BROWSER_DEFAULT_COMMAND
  | wxEVT_EXPLORER_BROWSER_SELECTION_CHANGED
  | wxEVT_EXPLORER_BROWSER_CONTEXTMENU_START
  | wxEVT_EXPLORER_BROWSER_NAVIGATING
  | wxEVT_EXPLORER_BROWSER_NAVIGATION_COMPLETE
  | wxEVT_EXPLORER_BROWSER_NAVIGATION_FAILED
  | wxEVT_EXPLORER_BROWSER_VIEW_CREATED
  deriving DecidableEq, Repr

/-- The class `wxExplorerBrowserEvent`, a `wxNotifyEvent` (allowed unless vetoed)
carrying an item. -/
structure wxExplorerBrowserEvent where
  m_eventType : wxEventType
  m_id : Int := 0
  m_item : wxExplorerBrowserItem := {}
  m_bAllow : Bool := true
  deriving DecidableEq, Repr

namespace wxExplorerBrowserEvent

def GetItem (e : wxExplorerBrowserEvent) : wxExplorerBrowserItem := e.m_item

def SetItem (e : wxExplorerBrowserEvent) (item : wxExplorerBrowserItem) :
    wxExplorerBrowserEvent :=
  { e with m_item := item }

/-- The method `wxNotifyEvent::Veto`. -/
def Veto (e : wxExplorerBrowserEvent) : wxExplorerBrowserEvent := { e with m_bAllow := false }

/-- The method `wxNotifyEvent::IsAllowed`. -/
def IsAllowed (e : wxExplorerBrowserEvent) : Bool := e.m_bAllow

end wxExplorerBrowserEvent

/-- The host window: its id, and what its handlers do with an event, namely
whether the event was handled and the event as the handlers left it. -/
structure wxWindow where
  GetId : Int
  ProcessWindowEvent : wxExplorerBrowserEvent → Bool × wxExplorerBrowserEvent

/-! ## wxExplorerBrowserImplHelper -/

namespace wxExplorerBrowserImplHelper

/-- The width of `ULONGLONG`: tick counts live in `[0, 2 ^ 64)`. -/
def ULONGLONG_MOD : Nat := 2 ^ 64

/-- The nested class `ChangeSelEventData`; `m_timeCreated` is the value of
`::GetTickCount64()` when the object is constructed. -/
structure ChangeSelEventData where
  m_timeCreated : Nat
  m_item : wxExplorerBrowserItem := {}
  deriving DecidableEq, Repr

namespace ChangeSelEventData

def SetItem (d : ChangeSelEventData) (item : wxExplorerBrowserItem) : ChangeSelEventData :=
  { d with m_item := item }

/-- The method `ChangeSelEventData::IsDoubled`; the subtraction is the unsigned
64-bit one. -/
def IsDoubled (d previous : ChangeSelEventData) : Bool :=
  -- in milliseconds
  let doubledTime : Nat := 50
  decide ((d.m_timeCreated + ULONGLONG_MOD - previous.m_timeCreated) % ULONGLONG_MOD
      ≤ doubledTime)
    && decide (d.m_item.GetSFGAO = previous.m_item.GetSFGAO)
    && decide (d.m_item.GetPath = previous.m_item.GetPath)
    && decide (d.m_item.GetDisplayName = previous.m_item.GetDisplayName)

end ChangeSelEventData

end wxExplorerBrowserImplHelper

/-- The data members of `wxExplorerBrowserImplHelper` that its methods read or
write. The host window and the explorer browser are outside objects whose
answers change over time, so the methods below receive them as arguments. -/
structure wxExplorerBrowserImplHelper where
  m_refCount : Int := 1
  /-- list of filter masks, such as *.JPG -/
  m_filterMasks : List String := []
  /-- flags for item types, such as File, Directory -/
  m_filterTypes : Nat := 0
  m_paneSettings : PaneSettings := {}
  m_prevChangeSelEventData : wxExplorerBrowserImplHelper.ChangeSelEventData
  deriving DecidableEq, Repr

namespace wxExplorerBrowserImplHelper

/-- The helper as its constructor leaves it, `tick` being the value of
`::GetTickCount64()` at that moment. -/
def construct (tick : Nat) : wxExplorerBrowserImplHelper :=
  { m_prevChangeSelEventData := { m_timeCreated := tick } }

/-- The method `_SetFilter`: the upper-cased masks are pushed onto `m_filterMasks`. -/
def _SetFilter (self : wxExplorerBrowserImplHelper) (fileMasks : List String)
    (itemTypes : Nat) : Bool × wxExplorerBrowserImplHelper :=
  -- we do not want case-sensitive filtering
  let m_filterMasks := fileMasks.foldl (fun acc mask => acc ++ [Upper mask]) self.m_filterMasks
  (true, { self with m_filterMasks := m_filterMasks, m_filterTypes := itemTypes })

/-- The method `_RemoveFilter`. -/
def _RemoveFilter (self : wxExplorerBrowserImplHelper) : Bool × wxExplorerBrowserImplHelper :=
  (true, { self with m_filterMasks := [] })

/-- The static method `_IShellItem2wxExplorerBrowserItem`; the second component
is `ebi` after the call. -/
def _IShellItem2wxExplorerBrowserItem (item : Option IShellItem)
    (ebi : wxExplorerBrowserItem) : Bool × wxExplorerBrowserItem :=
  match item with
  | none => (false, ebi)
  | some item =>
    let mask := SFGAO_FILESYSTEM ||| SFGAO_FOLDER ||| SFGAO_STREAM ||| SFGAO_LINK
    let (hr, attr) := item.GetAttributes mask
    if FAILED hr then (false, ebi)
    else
      -- will fail for non-filesystem items
      let fsPath := item.GetDisplayName SIGDN.SIGDN_FILESYSPATH
      let path := if SUCCEEDED fsPath.1 then fsPath.2 else ""
      let (hr, name) := item.GetDisplayName SIGDN.SIGDN_NORMALDISPLAY
      if FAILED hr then (false, ebi)
      else
        let displayName := name
        let ebi := ebi.SetType (_SFGAO2wxExplorerBrowserItemType attr)
        let ebi := ebi.SetPath path
        let ebi := ebi.SetDisplayName displayName
        let ebi := ebi.SetSFGAO attr
        (true, ebi)

/-- The method `ShouldShow` of the `IFolderFilter` role. -/
def ShouldShow (self : wxExplorerBrowserImplHelper) (psf : IShellFolder)
    (pidlItem : PCUITEMID_CHILD) : HRESULT :=
  if self.m_filterMasks.isEmpty then S_OK
  else
    let (hr, si) := SHCreateItemWithParent psf pidlItem
    if FAILED hr then E_FAIL
    else
      let (ok, ebi) := _IShellItem2wxExplorerBrowserItem si {}
      if !ok || ebi.GetType = wxExplorerBrowserItemType.Unknown then E_FAIL
      else if ebi.GetType.toNat &&& self.m_filterTypes = 0 then
        -- do not filter this item type
        S_OK
      else
        let name :=
          if ebi.GetType = wxExplorerBrowserItemType.Other then ebi.GetDisplayName
          else wxFileName_GetFullName ebi.GetPath
        -- wxMatchWild() is surprisingly case sensitive even on MSW
        let name := Upper name
        if self.m_filterMasks.any (fun mask => wxMatchWild mask name false) then S_OK
        else S_FALSE

/-- The method `_SendNotifyEvent(command, ebi)`: the answer, and the events
handed to the host window. -/
def _SendNotifyEvent (m_host : wxWindow) (command : wxEventType)
    (ebi : wxExplorerBrowserItem) : Bool × List wxExplorerBrowserEvent :=
  let evt : wxExplorerBrowserEvent := { m_eventType := command, m_id := m_host.GetId }
  let evt := evt.SetItem ebi
  let (handled, processed) := m_host.ProcessWindowEvent evt
  if handled then (processed.IsAllowed, [evt])
  else (true, [evt])

/-- The method `_GetSelectedItem`; the second component is `ebi` after the call. -/
def _GetSelectedItem (m_explorerBrowser : IExplorerBrowser) (ebi : wxExplorerBrowserItem) :
    Bool × wxExplorerBrowserItem :=
  let (hr, fv2) := m_explorerBrowser.GetCurrentView
  if FAILED hr then (false, ebi)
  else
    let (hr, selected) := fv2.GetSelectedItem (-1)
    if hr ≠ S_OK then
      -- no selected items
      (false, ebi)
    else
      let (hr, si) := fv2.GetItem selected
      if FAILED hr then (false, ebi)
      else _IShellItem2wxExplorerBrowserItem si ebi

/-- The method `OnDefaultCommand`: the status returned to the shell, and the
events handed to the host window. -/
def OnDefaultCommand (m_host : wxWindow) (m_explorerBrowser : IExplorerBrowser) :
    HRESULT × List wxExplorerBrowserEvent :=
  let (selected, ebi) := _GetSelectedItem m_explorerBrowser {}
  if selected then
    let (allowed, sent) := _SendNotifyEvent m_host wxEventType.wxEVT_EXPLORER_BROWSER_DEFAULT_COMMAND ebi
    if !allowed then
      -- event was vetoed, no default action will happen
      (S_OK, sent)
    else (S_FALSE, sent)
  else (S_FALSE, [])

/-- The method `OnStateChange`, with the workaround for doubled events compiled
in; `tick` is the value of `::GetTickCount64()` during the call. The result is
the status, the helper after the call and the events handed to the host. -/
def OnStateChange (self : wxExplorerBrowserImplHelper) (m_host : wxWindow)
    (m_explorerBrowser : IExplorerBrowser) (tick : Nat) (uChange : Nat) :
    HRESULT × wxExplorerBrowserImplHelper × List wxExplorerBrowserEvent :=
  if uChange = CDBOSC_SELCHANGE then
    let (_, ebi) := _GetSelectedItem m_explorerBrowser {}
    let csed : ChangeSelEventData := { m_timeCreated := tick }
    let csed := csed.SetItem ebi
    if csed.IsDoubled self.m_prevChangeSelEventData then
      -- do not send the same event
      (S_OK, self, [])
    else
      let self := { self with m_prevChangeSelEventData := csed }
      let (_, sent) := _SendNotifyEvent m_host wxEventType.wxEVT_EXPLORER_BROWSER_SELECTION_CHANGED ebi
      (S_OK, self, sent)
  else (S_OK, self, [])

/-- The base-class subobject of the helper an interface pointer refers to. -/
inductive Interface where
  | IServiceProvider
  | ICommDlgBrowser3
  | IExplorerBrowserEvents
  | IFolderFilter
  | IExplorerPaneVisibility
  deriving DecidableEq, Repr

/-- A value of type `LONG` after an arithmetic step: reduced to the signed
32-bit range. -/
def wrapLONG (x : Int) : Int := (x + 2 ^ 31) % 2 ^ 32 - 2 ^ 31

/-- The method `AddRef`: `::InterlockedIncrement(&m_refCount)`; the new count as
`ULONG`, and the helper after the call. -/
def AddRef (self : wxExplorerBrowserImplHelper) : Nat × wxExplorerBrowserImplHelper :=
  let refCount := wrapLONG (self.m_refCount + 1)
  ((refCount % 2 ^ 32).toNat, { self with m_refCount := refCount })

/-- The method `Release`: `::InterlockedDecrement(&m_refCount)`; the new count,
and the helper after the call, which is deleted when the count is 0. -/
def Release (self : wxExplorerBrowserImplHelper) : Nat × wxExplorerBrowserImplHelper :=
  let refCount := wrapLONG (self.m_refCount - 1)
  ((refCount % 2 ^ 32).toNat, { self with m_refCount := refCount })

/-- The method `QueryInterface`: the status, the pointer written to `*ppv`
(`none` is `nullptr`) and the helper after the call. -/
def QueryInterface (self : wxExplorerBrowserImplHelper) (riid : IID) :
    HRESULT × Option Interface × wxExplorerBrowserImplHelper :=
  if riid = IID.IID_IUnknown then
    (S_OK, some Interface.IServiceProvider, (AddRef self).2)
  else if riid = IID.IID_IServiceProvider then
    (S_OK, some Interface.IServiceProvider, (AddRef self).2)
  else if riid = IID.IID_ICommDlgBrowser ∨ riid = IID.IID_ICommDlgBrowser2
      ∨ riid = IID.IID_ICommDlgBrowser3 then
    (S_OK, some Interface.ICommDlgBrowser3, (AddRef self).2)
  else if riid = IID.IID_IExplorerBrowserEvents then
    (S_OK, some Interface.IExplorerBrowserEvents, (AddRef self).2)
  else if riid = IID.IID_IFolderFilter then
    (S_OK, some Interface.IFolderFilter, (AddRef self).2)
  else if riid = IID.IID_IExplorerPaneVisibility then
    (S_OK, some Interface.IExplorerPaneVisibility, (AddRef self).2)
  else
    (E_NOINTERFACE, none, self)

/-- The method `QueryService`: the status, the pointer written to `*ppv` and
the helper after the call. -/
def QueryService (self : wxExplorerBrowserImplHelper) (guidService : SID) (riid : IID) :
    HRESULT × Option Interface × wxExplorerBrowserImplHelper :=
  if guidService = SID.SID_SExplorerBrowserFrame
      ∨ guidService = SID.SID_ExplorerPaneVisibility then
    QueryInterface self riid
  else
    (E_NOINTERFACE, none, self)

/-- The method `GetViewFlags`: the status and the value written to `*pdwFlags`. -/
def GetViewFlags (self : wxExplorerBrowserImplHelper) : HRESULT × Nat :=
  let pdwFlags := CDB2GVF_NOSELECTVERB
  -- if this flag is not set, neither IncludeObject nor ShouldShow are called
  let pdwFlags :=
    if self.m_filterMasks.isEmpty then pdwFlags ||| CDB2GVF_NOINCLUDEITEM else pdwFlags
  (S_OK, pdwFlags)

/-- The static method `_PPIDL2wxExplorerBrowserItem`; the second component is
`ebi` after the call. -/
def _PPIDL2wxExplorerBrowserItem (pidl : PCIDLIST_ABSOLUTE) (ebi : wxExplorerBrowserItem) :
    Bool × wxExplorerBrowserItem :=
  match pidl with
  | none => (false, ebi)
  | some pidl =>
    let (hr, si) := SHCreateItemFromIDList pidl
    if FAILED hr then (false, ebi)
    else _IShellItem2wxExplorerBrowserItem si ebi

/-- The method `_SendNotifyEvent(command, list)`, the overload taking an item id
list: the answer, and the events handed to the host window. -/
def _SendNotifyEvent_pidl (m_host : wxWindow) (command : wxEventType)
    (list : PCIDLIST_ABSOLUTE) : Bool × List wxExplorerBrowserEvent :=
  let (ok, ebi) := _PPIDL2wxExplorerBrowserItem list {}
  if ok then _SendNotifyEvent m_host command ebi
  else (false, [])

/-- The method `OnNavigationPending`: the status returned to the shell, and the
events handed to the host window. -/
def OnNavigationPending (m_host : wxWindow) (pidlFolder : PCIDLIST_ABSOLUTE) :
    HRESULT × List wxExplorerBrowserEvent :=
  let (allowed, sent) :=
    _SendNotifyEvent_pidl m_host wxEventType.wxEVT_EXPLORER_BROWSER_NAVIGATING pidlFolder
  if allowed then (S_OK, sent)
  else (E_FAIL, sent)

/-- The method `GetPaneState`: the status and `*peps` after the call. -/
def GetPaneState (self : wxExplorerBrowserImplHelper) (ep : EXPLORERPANE) (peps : Nat) :
    HRESULT × Nat :=
  if ep = EXPLORERPANE.EP_NavPane then
    (S_OK, self.m_paneSettings.GetFlags PaneID.EP_NavPane)
  else if ep = EXPLORERPANE.EP_Commands then
    (S_OK, self.m_paneSettings.GetFlags PaneID.EP_Commands)
  else if ep = EXPLORERPANE.EP_Commands_Organize then
    (S_OK, self.m_paneSettings.GetFlags PaneID.EP_Commands_Organize)
  else if ep = EXPLORERPANE.EP_Commands_View then
    (S_OK, self.m_paneSettings.GetFlags PaneID.EP_Commands_View)
  else if ep = EXPLORERPANE.EP_DetailsPane then
    (S_OK, self.m_paneSettings.GetFlags PaneID.EP_DetailsPane)
  else if ep = EXPLORERPANE.EP_PreviewPane then
    (S_OK, self.m_paneSettings.GetFlags PaneID.EP_PreviewPane)
  else if ep = EXPLORERPANE.EP_QueryPane then
    (S_OK, self.m_paneSettings.GetFlags PaneID.EP_QueryPane)
  else if ep = EXPLORERPANE.EP_AdvQueryPane then
    (S_OK, self.m_paneSettings.GetFlags PaneID.EP_AdvQueryPane)
  else if ep = EXPLORERPANE.EP_StatusBar then
    (S_OK, self.m_paneSettings.GetFlags PaneID.EP_StatusBar)
  else if ep = EXPLORERPANE.EP_Ribbon then
    (S_OK, self.m_paneSettings.GetFlags PaneID.EP_Ribbon)
  else
    (E_INVALIDARG, peps)

/-- The method `_SetPaneSettings`. -/
def _SetPaneSettings (self : wxExplorerBrowserImplHelper) (settings : PaneSettings) :
    Bool × wxExplorerBrowserImplHelper :=
  (true, { self with m_paneSettings := settings })

/-! ## Vocabulary of the statements -/

/-- The item `ShouldShow` builds for a candidate: `SHCreateItemWithParent`
followed by `_IShellItem2wxExplorerBrowserItem` on a fresh item; `none` when
either step fails. -/
def candidateItem (psf : IShellFolder) (pidlItem : PCUITEMID_CHILD) :
    Option wxExplorerBrowserItem :=
  if FAILED (SHCreateItemWithParent psf pidlItem).1 then none
  else if (_IShellItem2wxExplorerBrowserItem (SHCreateItemWithParent psf pidlItem).2 {}).1 then
    some (_IShellItem2wxExplorerBrowserItem (SHCreateItemWithParent psf pidlItem).2 {}).2
  else none

/-- The name the masks are matched against: the display name of an `Other`
item, the last component of the path of a `File` or `Directory` item. -/
def filterName (ebi : wxExplorerBrowserItem) : String :=
  match ebi.GetType with
  | wxExplorerBrowserItemType.Other => ebi.GetDisplayName
  | wxExplorerBrowserItemType.File => wxFileName_GetFullName ebi.GetPath
  | wxExplorerBrowserItemType.Directory => wxFileName_GetFullName ebi.GetPath
  | wxExplorerBrowserItemType.Unknown => wxFileName_GetFullName ebi.GetPath

/-- A shell item that answers every call with success. -/
def shellItem (attr : Nat) (path displayName : String) : IShellItem :=
  { GetAttributes := fun mask => (S_OK, attr &&& mask)
    GetDisplayName := fun sigdn =>
      match sigdn with
      | SIGDN.SIGDN_FILESYSPATH => (S_OK, path)
      | SIGDN.SIGDN_NORMALDISPLAY => (S_OK, displayName) }

/-- A shell item outside the file system: asking for its path fails. -/
def virtualItem (attr : Nat) (displayName : String) : IShellItem :=
  { GetAttributes := fun mask => (S_OK, attr &&& mask)
    GetDisplayName := fun sigdn =>
      match sigdn with
      | SIGDN.SIGDN_FILESYSPATH => (E_FAIL, "")
      | SIGDN.SIGDN_NORMALDISPLAY => (S_OK, displayName) }

/-- A folder whose every child id resolves to `item`. -/
def folderOf (item : IShellItem) : IShellFolder :=
  { children := fun _ => (S_OK, some item) }

/-- A folder in which no child id can be resolved. -/
def brokenFolder : IShellFolder :=
  { children := fun _ => (E_FAIL, none) }

/-- An explorer browser whose view has `item` selected. -/
def browserWithSelection (item : IShellItem) : IExplorerBrowser :=
  { GetCurrentView := (S_OK,
      { GetSelectedItem := fun _ => (S_OK, 0)
        GetItem := fun _ => (S_OK, some item) }) }

/-- An explorer browser whose view has no selected item. -/
def browserWithoutSelection : IExplorerBrowser :=
  { GetCurrentView := (S_OK,
      { GetSelectedItem := fun _ => (S_FALSE, -1)
        GetItem := fun _ => (E_FAIL, none) }) }

/-- A host window without any handler: no event is handled. -/
def hostWithoutHandler : wxWindow :=
  { GetId := 1, ProcessWindowEvent := fun e => (false, e) }

/-- A host window whose handler vetoes every event and does not skip it. -/
def hostVetoing : wxWindow :=
  { GetId := 1, ProcessWindowEvent := fun e => (true, e.Veto) }

/-- A host window whose handler vetoes every event and then skips it, so that
the event counts as not handled. -/
def hostVetoingAndSkipping : wxWindow :=
  { GetId := 1, ProcessWindowEvent := fun e => (false, e.Veto) }

/-- A host window whose handler handles every event without vetoing. -/
def hostAllowing : wxWindow :=
  { GetId := 1, ProcessWindowEvent := fun e => (true, e) }

/-- The events of two consecutive selection-changed notifications arriving at
ticks `t1` and `t2`, the second one seeing the helper as the first left it. -/
def twoSelectionChanges (self : wxExplorerBrowserImplHelper) (m_host : wxWindow)
    (eb1 eb2 : IExplorerBrowser) (t1 t2 : Nat) : List wxExplorerBrowserEvent :=
  (OnStateChange self m_host eb1 t1 CDBOSC_SELCHANGE).2.2
    ++ (OnStateChange (OnStateChange self m_host eb1 t1 CDBOSC_SELCHANGE).2.1 m_host eb2 t2
          CDBOSC_SELCHANGE).2.2

/-- The event `_SendNotifyEvent` hands to the host for `command` and `ebi`. -/
def eventFor (m_host : wxWindow) (command : wxEventType) (ebi : wxExplorerBrowserItem) :
    wxExplorerBrowserEvent :=
  { m_eventType := command, m_id := m_host.GetId, m_item := ebi }

end wxExplorerBrowserImplHelper

/-! ## wxExplorerBrowserImpl -/

/-- The data members of `wxExplorerBrowser::wxExplorerBrowserImpl`:
`m_explorerBrowser` tells whether the pointer to the explorer browser is set
(the browser itself is an outside object and is passed to the methods),
`m_explorerBrowserHelper` is the helper the pointer of that name refers to. -/
structure wxExplorerBrowserImpl where
  /-- whether the pointer to the host window, given to the constructor, is set -/
  m_host : Bool := true
  m_explorerBrowser : Bool := false
  m_explorerBrowserHelper : Option wxExplorerBrowserImplHelper := none
  m_adviseCookie : Nat := 0
  deriving DecidableEq, Repr

namespace wxExplorerBrowserImpl

open wxExplorerBrowserImplHelper

/-- The loop of `ShellItemArrayToExplorerBrowserItemList` with `remaining`
rounds to go, `i` being the loop variable; `none` when the loop is left with
`return false`. -/
def ShellItemArrayLoop (shellItems : IShellItemArray) (itemTypes : Nat) :
    (remaining : Nat) → (i : Nat) → (tmpItems : List wxExplorerBrowserItem) →
      Option (List wxExplorerBrowserItem)
  | 0, _, tmpItems => some tmpItems
  | remaining + 1, i, tmpItems =>
    let (hr, si) := shellItems.GetItemAt i
    if FAILED hr then none
    else
      let (ok, ebi) := _IShellItem2wxExplorerBrowserItem si {}
      if !ok then none
      else if itemTypes &&& ebi.GetType.toNat ≠ 0 then
        ShellItemArrayLoop shellItems itemTypes remaining (i + 1) (tmpItems ++ [ebi])
      else
        ShellItemArrayLoop shellItems itemTypes remaining (i + 1) tmpItems

/-- The static method `ShellItemArrayToExplorerBrowserItemList`; the second
component is `items` after the call. -/
def ShellItemArrayToExplorerBrowserItemList (shellItems : IShellItemArray)
    (items : List wxExplorerBrowserItem) (itemTypes : Nat) :
    Bool × List wxExplorerBrowserItem :=
  let (hr, count) := shellItems.GetCount
  if FAILED hr then (false, items)
  else
    match ShellItemArrayLoop shellItems itemTypes count 0 [] with
    | none => (false, items)
    | some tmpItems => (true, tmpItems)

/-- The method `GetSelectedItems`; the second component is `items` after the call. -/
def GetSelectedItems (self : wxExplorerBrowserImpl) (eb : IExplorerBrowser)
    (items : List wxExplorerBrowserItem) (itemTypes : Nat) :
    Bool × List wxExplorerBrowserItem :=
  if !self.m_explorerBrowser then (false, items)
  else
    let (hr, fv2) := eb.GetCurrentView
    if FAILED hr then (false, items)
    else
      let (hr, sia) := fv2.GetSelection false
      if FAILED hr then
        -- no items selected
        (true, items)
      else ShellItemArrayToExplorerBrowserItemList sia items itemTypes

/-- The method `GetAllItems`; the second component is `items` after the call. -/
def GetAllItems (self : wxExplorerBrowserImpl) (eb : IExplorerBrowser)
    (items : List wxExplorerBrowserItem) (itemTypes : Nat) :
    Bool × List wxExplorerBrowserItem :=
  if !self.m_explorerBrowser then (false, items)
  else
    let (hr, fv2) := eb.GetCurrentView
    if FAILED hr then (false, items)
    else
      let (hr, sia) := fv2.Items (SVGIO_ALLVIEW ||| SVGIO_FLAG_VIEWORDER)
      if FAILED hr then
        -- no items
        (false, items)
      else ShellItemArrayToExplorerBrowserItemList sia items itemTypes

/-- The method `SetFilter`. -/
def SetFilter (self : wxExplorerBrowserImpl) (fileMasks : List String) (itemTypes : Nat) :
    Bool × wxExplorerBrowserImpl :=
  match self.m_explorerBrowserHelper with
  | none => (false, self)
  | some helper =>
    let (result, helper) := helper._SetFilter fileMasks itemTypes
    (result, { self with m_explorerBrowserHelper := some helper })

/-- The method `RemoveFilter`. -/
def RemoveFilter (self : wxExplorerBrowserImpl) : Bool × wxExplorerBrowserImpl :=
  match self.m_explorerBrowserHelper with
  | none => (false, self)
  | some helper =>
    let (result, helper) := helper._RemoveFilter
    (result, { self with m_explorerBrowserHelper := some helper })

/-- The method `SetPaneSettings`. -/
def SetPaneSettings (self : wxExplorerBrowserImpl) (settings : PaneSettings) :
    Bool × wxExplorerBrowserImpl :=
  match self.m_explorerBrowserHelper with
  | none => (false, self)
  | some helper =>
    let (result, helper) := helper._SetPaneSettings settings
    (result, { self with m_explorerBrowserHelper := some helper })

/-- The method `BrowseTo(item, keepWordWheelText)`: the result and the calls made. -/
def BrowseTo (self : wxExplorerBrowserImpl) (os : OperatingSystem) (eb : IExplorerBrowser)
    (item : String) (keepWordWheelText : Bool) : Bool × List EngineCall :=
  if !self.m_explorerBrowser then (false, [])
  else
    let (hr, pidl) := os.SHParseDisplayName item
    if FAILED hr then (false, [EngineCall.SHParseDisplayName item])
    else
      let flags := 0
      let flags := if keepWordWheelText then flags ||| SBSP_KEEPWORDWHEELTEXT else flags
      let hr := eb.BrowseToIDList (some pidl) flags
      if FAILED hr then
        (false, [EngineCall.SHParseDisplayName item, EngineCall.BrowseToIDList (some pidl) flags])
      else
        (true, [EngineCall.SHParseDisplayName item, EngineCall.BrowseToIDList (some pidl) flags])

/-- The method `Create(createStruct, path)`: the result, the object after the
call and the calls made. `tick` is the value of `::GetTickCount64()` when the
helper is constructed. The reference the explorer browser takes on the helper
while it is its site, filter and event sink is a matter of the explorer
browser and is not counted here. -/
def Create (self : wxExplorerBrowserImpl) (os : OperatingSystem) (eb : IExplorerBrowser)
    (tick : Nat) (createStruct : CreateStruct) (path : String) :
    Bool × wxExplorerBrowserImpl × List EngineCall :=
  -- the host window must be already created
  if !self.m_host then (false, self, [])
  -- prevent attempted multiple calls to Create()
  else if self.m_explorerBrowser then (false, self, [])
  else
    let hr := os.CoCreateInstance
    let calls := [EngineCall.CoCreateInstance]
    if FAILED hr then (false, self, calls)
    else
      let self := { self with m_explorerBrowser := true }
      -- new wxExplorerBrowserImplHelper() creates the object with refcount = 1,
      -- assigning it to the wxCOMPtr increases the count, Release() decreases it back
      let helper := wxExplorerBrowserImplHelper.construct tick
      let helper := (wxExplorerBrowserImplHelper.AddRef helper).2
      let helper := (wxExplorerBrowserImplHelper.Release helper).2
      let helper := (helper._SetPaneSettings createStruct.paneSettings).2
      let self := { self with m_explorerBrowserHelper := some helper }
      let hr := eb.SetOptions createStruct.options
      let calls := calls ++ [EngineCall.SetOptions createStruct.options]
      if FAILED hr then (false, self, calls)
      else
        let (hr, made) := Call_IUnknown_SetSite os true
        let calls := calls ++ made
        if FAILED hr then (false, self, calls)
        else
          let (hr, ffs) := eb.QueryInterface_IFolderFilterSite
          let calls := calls ++ [EngineCall.QueryInterface_IFolderFilterSite]
          if FAILED hr then (false, self, calls)
          else
            let hr := ffs.SetFilter true
            let calls := calls ++ [EngineCall.SetFilter true]
            if FAILED hr then (false, self, calls)
            else
              let hr := eb.Initialize createStruct.folderSettings.m_viewMode
                createStruct.folderSettings.m_flags
              let calls := calls ++ [EngineCall.Initialize
                createStruct.folderSettings.m_viewMode createStruct.folderSettings.m_flags]
              if FAILED hr then (false, self, calls)
              else
                let (hr, cookie) := eb.Advise
                let self := { self with m_adviseCookie := cookie }
                let calls := calls ++ [EngineCall.Advise]
                if FAILED hr then (false, self, calls)
                else
                  let (result, made) := self.BrowseTo os eb path false
                  (result, self, calls ++ made)

/-- The destructor `~wxExplorerBrowserImpl()`: the calls made; their statuses
are only logged. -/
def destructor (self : wxExplorerBrowserImpl) (os : OperatingSystem) (eb : IExplorerBrowser) :
    List EngineCall :=
  if self.m_explorerBrowser then
    let calls :=
      match self.m_explorerBrowserHelper with
      | some _ =>
        let calls := (Call_IUnknown_SetSite os false).2
        let calls := calls ++ [EngineCall.Unadvise self.m_adviseCookie]
        let (hr, ffs) := eb.QueryInterface_IFolderFilterSite
        let calls := calls ++ [EngineCall.QueryInterface_IFolderFilterSite]
        if SUCCEEDED hr then
          let _ := ffs.SetFilter false
          calls ++ [EngineCall.SetFilter false]
        else calls
      | none => []
    calls ++ [EngineCall.Destroy]
  else []

/-- The loop of `SelectItems` over the items still to be selected: the result
and the calls made. -/
def SelectItemsLoop (sf : IShellFolder) (sv : IShellView) (notTakeFocus : Bool) :
    List wxExplorerBrowserItem → Bool × List EngineCall
  | [] => (true, [])
  | item :: items =>
    let name := item.GetPath
    let name := if name.isEmpty then item.GetDisplayName else name
    let (hr, pidl) := sf.ParseDisplayName name
    if FAILED hr then (false, [EngineCall.ParseDisplayName name])
    else
      let flags := SVSI_SELECT
      let flags := if notTakeFocus then flags ||| SVSI_NOTAKEFOCUS else flags
      let hr := sv.SelectItem (some pidl) flags
      if FAILED hr then
        (false, [EngineCall.ParseDisplayName name, EngineCall.SelectItem (some pidl) flags])
      else
        let (result, made) := SelectItemsLoop sf sv notTakeFocus items
        (result,
          [EngineCall.ParseDisplayName name, EngineCall.SelectItem (some pidl) flags] ++ made)

/-- The method `SelectItems(items, notTakeFocus)`: the result and the calls made. -/
def SelectItems (self : wxExplorerBrowserImpl) (eb : IExplorerBrowser)
    (items : List wxExplorerBrowserItem) (notTakeFocus : Bool) : Bool × List EngineCall :=
  if !self.m_explorerBrowser then (false, [])
  else
    let (hr, sv) := eb.GetCurrentView_IShellView
    let calls := [EngineCall.GetCurrentView_IShellView]
    if FAILED hr then (false, calls)
    else
      let (hr, fv2) := eb.GetCurrentView
      let calls := calls ++ [EngineCall.GetCurrentView_IFolderView2]
      if FAILED hr then (false, calls)
      else
        let (hr, sf) := fv2.GetFolder
        let calls := calls ++ [EngineCall.GetFolder]
        if FAILED hr then (false, calls)
        else
          let (result, made) := SelectItemsLoop sf sv notTakeFocus items
          (result, calls ++ made)

end wxExplorerBrowserImpl

/-! ## wxExplorerBrowser, the control -/

set_option linter.dupNamespace false

/-- The data member `m_impl` of the class `wxExplorerBrowser`; `none` is the
null pointer. -/
structure wxExplorerBrowser where
  m_impl : Option wxExplorerBrowserImpl := none
  deriving DecidableEq, Repr

namespace wxExplorerBrowser

/-- The method `wxExplorerBrowser::GetSelectedItems`. -/
def GetSelectedItems (self : wxExplorerBrowser) (eb : IExplorerBrowser)
    (items : List wxExplorerBrowserItem) (itemTypes : Nat) :
    Bool × List wxExplorerBrowserItem :=
  match self.m_impl with
  | none => (false, items)
  | some m_impl =>
    if itemTypes = 0 then (false, items)
    else m_impl.GetSelectedItems eb items itemTypes

/-- The method `wxExplorerBrowser::GetAllItems`. -/
def GetAllItems (self : wxExplorerBrowser) (eb : IExplorerBrowser)
    (items : List wxExplorerBrowserItem) (itemTypes : Nat) :
    Bool × List wxExplorerBrowserItem :=
  match self.m_impl with
  | none => (false, items)
  | some m_impl =>
    if itemTypes = 0 then (false, items)
    else m_impl.GetAllItems eb items itemTypes

/-- The method `wxExplorerBrowser::SetFilter`. The call of `Refresh()` after a
successful change asks the shell view to reload; it changes no data member and
its result is ignored, so it does not appear here. -/
def SetFilter (self : wxExplorerBrowser) (fileMasks : List String) (itemTypes : Nat) :
    Bool × wxExplorerBrowser :=
  match self.m_impl with
  | none => (false, self)
  | some m_impl =>
    if itemTypes = 0 then (false, self)
    else
      let (ok, m_impl) := m_impl.SetFilter fileMasks itemTypes
      if ok then (true, { self with m_impl := some m_impl })
      else (false, { self with m_impl := some m_impl })

/-- The method `wxExplorerBrowser::RemoveFilter`; for `Refresh()` see `SetFilter`. -/
def RemoveFilter (self : wxExplorerBrowser) : Bool × wxExplorerBrowser :=
  match self.m_impl with
  | none => (false, self)
  | some m_impl =>
    let (ok, m_impl) := m_impl.RemoveFilter
    if ok then (true, { self with m_impl := some m_impl })
    else (false, { self with m_impl := some m_impl })

/-- The method `wxExplorerBrowser::SetPaneSettings`. -/
def SetPaneSettings (self : wxExplorerBrowser) (settings : PaneSettings) :
    Bool × wxExplorerBrowser :=
  match self.m_impl with
  | none => (false, self)
  | some m_impl =>
    let (ok, m_impl) := m_impl.SetPaneSettings settings
    (ok, { self with m_impl := some m_impl })

end wxExplorerBrowser

/-! ## Vocabulary of the statements about the control -/

/-- The shell's identifier of a pane of the control. -/
def paneGuid : PaneID → EXPLORERPANE
  | PaneID.EP_NavPane => EXPLORERPANE.EP_NavPane
  | PaneID.EP_Commands => EXPLORERPANE.EP_Commands
  | PaneID.EP_Commands_Organize => EXPLORERPANE.EP_Commands_Organize
  | PaneID.EP_Commands_View => EXPLORERPANE.EP_Commands_View
  | PaneID.EP_DetailsPane => EXPLORERPANE.EP_DetailsPane
  | PaneID.EP_PreviewPane => EXPLORERPANE.EP_PreviewPane
  | PaneID.EP_QueryPane => EXPLORERPANE.EP_QueryPane
  | PaneID.EP_AdvQueryPane => EXPLORERPANE.EP_AdvQueryPane
  | PaneID.EP_StatusBar => EXPLORERPANE.EP_StatusBar
  | PaneID.EP_Ribbon => EXPLORERPANE.EP_Ribbon

/-- The helper a control owns, if it has one. -/
def helperOf (self : wxExplorerBrowser) : Option wxExplorerBrowserImplHelper :=
  match self.m_impl with
  | none => none
  | some m_impl => m_impl.m_explorerBrowserHelper

/-- A control after a successful `Create`, whose helper was constructed at `tick`. -/
def createdBrowser (tick : Nat) : wxExplorerBrowser :=
  { m_impl := some { m_explorerBrowser := true,
                     m_explorerBrowserHelper := some (wxExplorerBrowserImplHelper.construct tick),
                     m_adviseCookie := 1 } }

/-- An item array holding `items`, every call of which succeeds. -/
def itemArray (items : List IShellItem) : IShellItemArray :=
  { GetCount := (S_OK, items.length)
    GetItemAt := fun i =>
      match items.get? i with
      | some item => (S_OK, some item)
      | none => (E_FAIL, none) }

/-- An explorer browser whose view holds the items `all`, of which `selected`
are selected. -/
def browserShowing (all selected : List IShellItem) : IExplorerBrowser :=
  { GetCurrentView := (S_OK,
      { GetSelectedItem := fun _ => (S_FALSE, -1)
        GetItem := fun _ => (E_FAIL, none)
        GetSelection := fun _ => (S_OK, itemArray selected)
        Items := fun _ => (S_OK, itemArray all) }) }

/-- The children of a folder that the item filter of `helper` lets the view
show: those `ShouldShow` answers with `S_OK`. -/
def shownItems (helper : wxExplorerBrowserImplHelper) (children : List IShellItem) :
    List IShellItem :=
  children.filter (fun item =>
    decide (wxExplorerBrowserImplHelper.ShouldShow helper
      (wxExplorerBrowserImplHelper.folderOf item) 0 = S_OK))

/-- The folder of the filter scenario: the files `a.doc`, `b.txt`, `c.rtf` and the
subfolder `d`. -/
def scenarioChildren : List IShellItem :=
  [wxExplorerBrowserImplHelper.shellItem (SFGAO_FILESYSTEM ||| SFGAO_STREAM)
      "C:\\work\\a.doc" "a.doc",
   wxExplorerBrowserImplHelper.shellItem (SFGAO_FILESYSTEM ||| SFGAO_STREAM)
      "C:\\work\\b.txt" "b.txt",
   wxExplorerBrowserImplHelper.shellItem (SFGAO_FILESYSTEM ||| SFGAO_STREAM)
      "C:\\work\\c.rtf" "c.rtf",
   wxExplorerBrowserImplHelper.shellItem (SFGAO_FILESYSTEM ||| SFGAO_FOLDER)
      "C:\\work\\d" "d"]

/-- The control of the filter scenario: created, then given the masks `*.DOC*`
and `*.RTF` for files. -/
def scenarioBrowser : wxExplorerBrowser :=
  ((createdBrowser 0).SetFilter ["*.DOC*", "*.RTF"] wxExplorerBrowserItemType.File.toNat).2

/-- The name `SelectItems` resolves an item by: its path, or its display name
when the path is empty. -/
def resolveName (item : wxExplorerBrowserItem) : String :=
  if item.GetPath = "" then item.GetDisplayName else item.GetPath

/-- The flags `SelectItems` selects with: the additive select flag, and the
no-take-focus flag when `notTakeFocus` is set. -/
def selectFlags (notTakeFocus : Bool) : Nat :=
  if notTakeFocus then SVSI_SELECT ||| SVSI_NOTAKEFOCUS else SVSI_SELECT

/-- Whether `item` can be resolved in the folder `sf` and then selected in the
view `sv`. -/
def selectable (sf : IShellFolder) (sv : IShellView) (notTakeFocus : Bool)
    (item : wxExplorerBrowserItem) : Bool :=
  !FAILED (sf.ParseDisplayName (resolveName item)).1
    && !FAILED (sv.SelectItem (some (sf.ParseDisplayName (resolveName item)).2)
        (selectFlags notTakeFocus))

/-- The calls that resolve and select each of `items`, in order. -/
def selectCalls (sf : IShellFolder) (notTakeFocus : Bool) :
    List wxExplorerBrowserItem → List EngineCall
  | [] => []
  | item :: items =>
    [EngineCall.ParseDisplayName (resolveName item),
     EngineCall.SelectItem (some (sf.ParseDisplayName (resolveName item)).2)
       (selectFlags notTakeFocus)] ++ selectCalls sf notTakeFocus items

/-- The three lookups `SelectItems` starts with. -/
def selectLookups : List EngineCall :=
  [EngineCall.GetCurrentView_IShellView, EngineCall.GetCurrentView_IFolderView2,
   EngineCall.GetFolder]

/-- Whether every step of `Create` after the two state checks succeeds. -/
def createSucceeds (os : OperatingSystem) (eb : IExplorerBrowser) (createStruct : CreateStruct)
    (path : String) : Bool :=
  SUCCEEDED os.CoCreateInstance
    && SUCCEEDED (eb.SetOptions createStruct.options)
    && SUCCEEDED (Call_IUnknown_SetSite os true).1
    && SUCCEEDED eb.QueryInterface_IFolderFilterSite.1
    && SUCCEEDED (eb.QueryInterface_IFolderFilterSite.2.SetFilter true)
    && SUCCEEDED (eb.Initialize createStruct.folderSettings.m_viewMode
        createStruct.folderSettings.m_flags)
    && SUCCEEDED eb.Advise.1
    && SUCCEEDED (os.SHParseDisplayName path).1
    && SUCCEEDED (eb.BrowseToIDList (some (os.SHParseDisplayName path).2) 0)

/-- An operating system every call of which succeeds. -/
def workingSystem : OperatingSystem :=
  { CoCreateInstance := S_OK
    IUnknown_SetSite := some (fun _ => S_OK)
    SHParseDisplayName := fun _ => (S_OK, 7) }

/-- An explorer browser that can be set up and torn down without failure and
shows the scenario folder, in which every name but `missing.txt` can be resolved
and selected. -/
def workingBrowser : IExplorerBrowser :=
  { GetCurrentView := (S_OK,
      { GetSelectedItem := fun _ => (S_FALSE, -1)
        GetItem := fun _ => (E_FAIL, none)
        GetSelection := fun _ => (S_OK, itemArray [])
        Items := fun _ => (S_OK, itemArray scenarioChildren)
        GetFolder := (S_OK,
          { children := fun _ => (E_FAIL, none)
            ParseDisplayName := fun name =>
              if name = "missing.txt" then (E_FAIL, 0) else (S_OK, name.length) }) })
    GetCurrentView_IShellView := (S_OK, { SelectItem := fun _ _ => S_OK })
    SetOptions := fun _ => S_OK
    QueryInterface_IFolderFilterSite := (S_OK, { SetFilter := fun _ => S_OK })
    Initialize := fun _ _ => S_OK
    Advise := (S_OK, 1)
    Unadvise := fun _ => S_OK
    BrowseToIDList := fun _ _ => S_OK
    Destroy := S_OK }

/-- An explorer browser like `workingBrowser` that does not give out its
`IFolderFilterSite` interface. -/
def browserWithoutFilterSite : IExplorerBrowser :=
  { workingBrowser with QueryInterface_IFolderFilterSite := (E_NOINTERFACE, {}) }

/-- An explorer browser like `workingBrowser` that refuses the options. -/
def browserRefusingOptions : IExplorerBrowser :=
  { workingBrowser with SetOptions := fun _ => E_INVALIDARG }

end wxExplorerBrowser

/-! # Theorems -/

namespace wxExplorerBrowser

open wxExplorerBrowserItemType

/-! ## Kind classification -/

theorem hasAttr_two_pow (attr k : Nat) : hasAttr attr (2 ^ k) = attr.testBit k := by
  unfold hasAttr
  rw [Nat.and_two_pow]
  cases attr.testBit k <;> simp

theorem and_trackedBits (attr : Nat) :
    attr &&& (SFGAO_FILESYSTEM ||| SFGAO_FOLDER ||| SFGAO_STREAM)
      = (attr.testBit 30).toNat * 2 ^ 30 ||| (attr.testBit 29).toNat * 2 ^ 29
          ||| (attr.testBit 22).toNat * 2 ^ 22 := by
  have h : SFGAO_FILESYSTEM ||| SFGAO_FOLDER ||| SFGAO_STREAM = 2 ^ 30 ||| 2 ^ 29 ||| 2 ^ 22 := by
    decide
  rw [h, Nat.and_or_distrib_left, Nat.and_or_distrib_left, Nat.and_two_pow, Nat.and_two_pow,
    Nat.and_two_pow]

/-- The kind as a function of the three tracked bits. -/
theorem classify_by_bits (attr : Nat) :
    _SFGAO2wxExplorerBrowserItemType attr =
      (match hasAttr attr SFGAO_FILESYSTEM, hasAttr attr SFGAO_FOLDER,
          hasAttr attr SFGAO_STREAM with
        | false, false, false => Unknown
        | false, false, true => Other
        | false, true, false => Other
        | false, true, true => Other
        | true, false, false => Other
        | true, false, true => File
        | true, true, false => Directory
        | true, true, true => File) := by
  have h1 : hasAttr attr SFGAO_FILESYSTEM = attr.testBit 30 := hasAttr_two_pow attr 30
  have h2 : hasAttr attr SFGAO_FOLDER = attr.testBit 29 := hasAttr_two_pow attr 29
  have h3 : hasAttr attr SFGAO_STREAM = attr.testBit 22 := hasAttr_two_pow attr 22
  rw [h1, h2, h3]
  unfold _SFGAO2wxExplorerBrowserItemType
  simp only [and_trackedBits]
  cases attr.testBit 30 <;> cases attr.testBit 29 <;> cases attr.testBit 22 <;> decide

theorem classify_congr (a b : Nat) (h : a &&& trackedBits = b &&& trackedBits) :
    _SFGAO2wxExplorerBrowserItemType a = _SFGAO2wxExplorerBrowserItemType b := by
  unfold trackedBits at h
  unfold _SFGAO2wxExplorerBrowserItemType
  simp only [h]

theorem classify_eq_Unknown_iff (attr : Nat) :
    _SFGAO2wxExplorerBrowserItemType attr = Unknown ↔
      (hasAttr attr SFGAO_FILESYSTEM = false ∧ hasAttr attr SFGAO_FOLDER = false
        ∧ hasAttr attr SFGAO_STREAM = false) := by
  rw [classify_by_bits]
  cases hasAttr attr SFGAO_FILESYSTEM <;> cases hasAttr attr SFGAO_FOLDER <;>
    cases hasAttr attr SFGAO_STREAM <;> simp

/-- C1, the claim as written fails: a mask whose only tracked bit is the stream
bit is classified `Other`, not `Unknown`. -/
theorem C1_stream_only_is_Other :
    SFGAO_STREAM &&& trackedBits = SFGAO_STREAM
      ∧ _SFGAO2wxExplorerBrowserItemType SFGAO_STREAM = Other
      ∧ ¬ (∀ attr : Nat, attr &&& trackedBits = SFGAO_STREAM →
            _SFGAO2wxExplorerBrowserItemType attr = Unknown) := by
  refine ⟨by decide, by decide, fun h => ?_⟩
  have h1 := h SFGAO_STREAM (by decide)
  revert h1
  decide

/-- C1, amended: the kind is determined by the three tracked bits alone. No
tracked bit gives `Unknown`; file-system and stream give `File`; file-system
and folder give `Directory`; all three give `File`; every other non-zero
combination, the stream bit alone included, gives `Other`. Two masks that
agree on the tracked bits get the same kind. -/
theorem C1_kind_classification (attr other : Nat)
    (h : other &&& trackedBits = attr &&& trackedBits) :
    _SFGAO2wxExplorerBrowserItemType attr =
      (match hasAttr attr SFGAO_FILESYSTEM, hasAttr attr SFGAO_FOLDER,
          hasAttr attr SFGAO_STREAM with
        | false, false, false => Unknown
        | false, false, true => Other
        | false, true, false => Other
        | false, true, true => Other
        | true, false, false => Other
        | true, false, true => File
        | true, true, false => Directory
        | true, true, true => File)
      ∧ _SFGAO2wxExplorerBrowserItemType other = _SFGAO2wxExplorerBrowserItemType attr :=
  ⟨classify_by_bits attr, classify_congr other attr h⟩

/-- C1, amended, at a file that is also a shortcut: the link bit does not
change the kind. -/
theorem C1_kind_classification_witness :
    (SFGAO_FILESYSTEM ||| SFGAO_STREAM ||| SFGAO_LINK) &&& trackedBits
        = (SFGAO_FILESYSTEM ||| SFGAO_STREAM) &&& trackedBits
      ∧ _SFGAO2wxExplorerBrowserItemType (SFGAO_FILESYSTEM ||| SFGAO_STREAM) = File
      ∧ _SFGAO2wxExplorerBrowserItemType (SFGAO_FILESYSTEM ||| SFGAO_STREAM ||| SFGAO_LINK)
          = File := by
  have h := C1_kind_classification (SFGAO_FILESYSTEM ||| SFGAO_STREAM)
    (SFGAO_FILESYSTEM ||| SFGAO_STREAM ||| SFGAO_LINK) (by decide)
  refine ⟨by decide, ?_, ?_⟩
  · rw [h.1]; decide
  · rw [h.2, h.1]; decide

/-! ## Item conversion -/

namespace wxExplorerBrowserImplHelper

/-- A successful conversion stores the attributes it was given and the kind
computed from them. -/
theorem conversion_type (item : Option IShellItem) (ebi0 ebi : wxExplorerBrowserItem)
    (h : _IShellItem2wxExplorerBrowserItem item ebi0 = (true, ebi)) :
    ebi.GetType = _SFGAO2wxExplorerBrowserItemType ebi.GetSFGAO := by
  unfold _IShellItem2wxExplorerBrowserItem at h
  cases item with
  | none => simp at h
  | some it =>
    simp only at h
    split at h
    · simp at h
    · split at h
      · simp at h
      · simp only [Prod.mk.injEq, true_and] at h
        subst h
        rfl

/-- C2: after a successful item conversion the kind is `Unknown` exactly when
the stored attribute mask has none of the file-system, folder and stream bits. -/
theorem C2_unknown_iff_no_tracked_bit (item : Option IShellItem)
    (ebi0 ebi : wxExplorerBrowserItem)
    (h : _IShellItem2wxExplorerBrowserItem item ebi0 = (true, ebi)) :
    ebi.GetType = Unknown ↔
      (hasAttr ebi.GetSFGAO SFGAO_FILESYSTEM = false ∧ hasAttr ebi.GetSFGAO SFGAO_FOLDER = false
        ∧ hasAttr ebi.GetSFGAO SFGAO_STREAM = false) := by
  rw [conversion_type item ebi0 ebi h]
  exact classify_eq_Unknown_iff ebi.GetSFGAO

/-- C2 at a shortcut outside the file system: only the link bit is stored and
the kind is `Unknown`. -/
theorem C2_unknown_iff_no_tracked_bit_witness :
    _IShellItem2wxExplorerBrowserItem (some (virtualItem SFGAO_LINK "Printers")) {}
        = (true, { m_type := Unknown, m_path := "", m_displayName := "Printers",
                   m_SFGAO := SFGAO_LINK })
      ∧ ((({ m_type := Unknown, m_path := "", m_displayName := "Printers",
             m_SFGAO := SFGAO_LINK } : wxExplorerBrowserItem).GetType = Unknown) ↔
          (hasAttr SFGAO_LINK SFGAO_FILESYSTEM = false ∧ hasAttr SFGAO_LINK SFGAO_FOLDER = false
            ∧ hasAttr SFGAO_LINK SFGAO_STREAM = false)) :=
  ⟨by decide,
    C2_unknown_iff_no_tracked_bit (some (virtualItem SFGAO_LINK "Printers")) {}
      { m_type := Unknown, m_path := "", m_displayName := "Printers", m_SFGAO := SFGAO_LINK }
      (by decide)⟩

/-! ## The item filter -/

/-- What `ShouldShow` answers, in terms of the item it builds. -/
theorem ShouldShow_eq (self : wxExplorerBrowserImplHelper) (psf : IShellFolder)
    (pidlItem : PCUITEMID_CHILD) :
    ShouldShow self psf pidlItem =
      if self.m_filterMasks = [] then S_OK
      else
        match candidateItem psf pidlItem with
        | none => E_FAIL
        | some ebi =>
          if ebi.GetType = Unknown then E_FAIL
          else if ebi.GetType.toNat &&& self.m_filterTypes = 0 then S_OK
          else if self.m_filterMasks.any
              (fun mask => wxMatchWild mask (Upper (filterName ebi)) false) then S_OK
          else S_FALSE := by
  unfold ShouldShow candidateItem
  by_cases hm : self.m_filterMasks = []
  · simp [hm]
  · have hm' : self.m_filterMasks.isEmpty = false := by
      cases hl : self.m_filterMasks with
      | nil => exact absurd hl hm
      | cons a l => rfl
    simp only [hm', hm, if_false, Bool.false_eq_true]
    cases hf : FAILED (SHCreateItemWithParent psf pidlItem).1
    · simp only [Bool.false_eq_true, if_false]
      cases hok : (_IShellItem2wxExplorerBrowserItem (SHCreateItemWithParent psf pidlItem).2 {}).1
      · simp
      · simp only [Bool.not_true, Bool.false_or, decide_eq_true_eq, if_true]
        by_cases hu : (_IShellItem2wxExplorerBrowserItem
            (SHCreateItemWithParent psf pidlItem).2 {}).2.GetType = Unknown
        · simp [hu]
        · simp only [hu, if_false]
          have hn : (if (_IShellItem2wxExplorerBrowserItem
                (SHCreateItemWithParent psf pidlItem).2 {}).2.GetType = Other
              then (_IShellItem2wxExplorerBrowserItem
                (SHCreateItemWithParent psf pidlItem).2 {}).2.GetDisplayName
              else wxFileName_GetFullName (_IShellItem2wxExplorerBrowserItem
                (SHCreateItemWithParent psf pidlItem).2 {}).2.GetPath)
              = filterName (_IShellItem2wxExplorerBrowserItem
                (SHCreateItemWithParent psf pidlItem).2 {}).2 := by
            unfold filterName
            cases (_IShellItem2wxExplorerBrowserItem
                (SHCreateItemWithParent psf pidlItem).2 {}).2.GetType <;> simp
          rw [hn]
    · simp

/-- C3, the claim as written fails: with a mask installed for files, an item
without any tracked attribute has kind `Unknown`, which is in no type mask, and
it is answered with `E_FAIL`. -/
theorem C3_unknown_kind_not_passed :
    candidateItem (folderOf (virtualItem 0 "Mouse")) 0
        = some { m_type := Unknown, m_path := "", m_displayName := "Mouse", m_SFGAO := 0 }
      ∧ Unknown.toNat &&& (_SetFilter (construct 0) ["*.doc"] File.toNat).2.m_filterTypes = 0
      ∧ ShouldShow (_SetFilter (construct 0) ["*.doc"] File.toNat).2
          (folderOf (virtualItem 0 "Mouse")) 0 = E_FAIL
      ∧ ¬ (∀ (self : wxExplorerBrowserImplHelper) (psf : IShellFolder)
            (pidlItem : PCUITEMID_CHILD) (ebi : wxExplorerBrowserItem),
            candidateItem psf pidlItem = some ebi →
            ebi.GetType.toNat &&& self.m_filterTypes = 0 →
            ShouldShow self psf pidlItem = S_OK) := by
  refine ⟨by decide, by decide, by decide, fun h => ?_⟩
  have h1 := h (_SetFilter (construct 0) ["*.doc"] File.toNat).2
    (folderOf (virtualItem 0 "Mouse")) 0
    { m_type := Unknown, m_path := "", m_displayName := "Mouse", m_SFGAO := 0 }
    (by decide) (by decide)
  revert h1
  decide

/-- C3, amended: an item whose kind is not in the type mask is accepted,
whatever the masks, provided its kind is not `Unknown` or the mask list is
empty. -/
theorem C3_filter_pass_through (self : wxExplorerBrowserImplHelper) (psf : IShellFolder)
    (pidlItem : PCUITEMID_CHILD) (ebi : wxExplorerBrowserItem)
    (hitem : candidateItem psf pidlItem = some ebi)
    (hkind : ebi.GetType.toNat &&& self.m_filterTypes = 0)
    (hknown : ebi.GetType ≠ Unknown ∨ self.m_filterMasks = []) :
    ShouldShow self psf pidlItem = S_OK := by
  rw [ShouldShow_eq, hitem]
  by_cases hm : self.m_filterMasks = []
  · simp [hm]
  · rcases hknown with hu | he
    · simp [hm, hu, hkind]
    · exact absurd he hm

/-- C3, amended, at a directory while the masks apply to files only. -/
theorem C3_filter_pass_through_witness :
    ShouldShow (_SetFilter (construct 0) ["*.doc"] File.toNat).2
      (folderOf (shellItem (SFGAO_FILESYSTEM ||| SFGAO_FOLDER) "C:\\work\\drafts" "drafts")) 0
      = S_OK :=
  C3_filter_pass_through (_SetFilter (construct 0) ["*.doc"] File.toNat).2
    (folderOf (shellItem (SFGAO_FILESYSTEM ||| SFGAO_FOLDER) "C:\\work\\drafts" "drafts")) 0
    { m_type := Directory, m_path := "C:\\work\\drafts", m_displayName := "drafts",
      m_SFGAO := SFGAO_FILESYSTEM ||| SFGAO_FOLDER }
    (by decide) (by decide) (Or.inl (by decide))

/-- C4: with an empty mask list `ShouldShow` accepts every candidate, whatever
the type mask and whether or not the candidate can be converted. -/
theorem C4_empty_filter_accepts_all (self : wxExplorerBrowserImplHelper) (psf : IShellFolder)
    (pidlItem : PCUITEMID_CHILD) (h : self.m_filterMasks = []) :
    ShouldShow self psf pidlItem = S_OK := by
  rw [ShouldShow_eq]
  simp [h]

/-- C4 at a candidate that cannot be built, with a type mask naming every kind. -/
theorem C4_empty_filter_accepts_all_witness :
    candidateItem brokenFolder 7 = none
      ∧ ShouldShow { m_filterMasks := [], m_filterTypes := 11,
                     m_prevChangeSelEventData := { m_timeCreated := 0 } } brokenFolder 7
          = S_OK :=
  ⟨by decide,
    C4_empty_filter_accepts_all
      { m_filterMasks := [], m_filterTypes := 11,
        m_prevChangeSelEventData := { m_timeCreated := 0 } } brokenFolder 7 rfl⟩

/-! ### Case-insensitive matching -/

theorem toNat_ofNat_of_lt (n : Nat) (h : n < 0xd800) : (Char.ofNat n).toNat = n := by
  have hv : n.isValidChar := Or.inl h
  unfold Char.ofNat
  rw [dif_pos hv]
  unfold Char.ofNatAux Char.toNat
  simp [UInt32.toNat]

theorem toUpper_toUpper (c : Char) : c.toUpper.toUpper = c.toUpper := by
  by_cases h : c.toNat ≥ 97 ∧ c.toNat ≤ 122
  · have h1 : c.toUpper = Char.ofNat (c.toNat - 32) := by
      unfold Char.toUpper
      simp only [h, ge_iff_le, and_self, if_true]
    have h2 : (Char.ofNat (c.toNat - 32)).toNat = c.toNat - 32 :=
      toNat_ofNat_of_lt _ (by omega)
    rw [h1]
    unfold Char.toUpper
    rw [h2]
    have : ¬ (c.toNat - 32 ≥ 97 ∧ c.toNat - 32 ≤ 122) := by omega
    simp only [this, if_false]
  · have h1 : c.toUpper = c := by
      unfold Char.toUpper
      simp only [h, if_false]
    rw [h1, h1]

/-- Upper-casing twice is upper-casing once. -/
theorem Upper_Upper (s : String) : Upper (Upper s) = Upper s := by
  unfold Upper
  simp only [List.map_map]
  congr 1
  apply List.map_congr_left
  intro c _
  exact toUpper_toUpper c

theorem foldl_push_Upper (fileMasks acc : List String) :
    fileMasks.foldl (fun acc mask => acc ++ [Upper mask]) acc = acc ++ fileMasks.map Upper := by
  induction fileMasks generalizing acc with
  | nil => simp
  | cons m ms ih => simp [List.foldl_cons, ih]

/-- The masks after `_SetFilter`: the earlier ones followed by the given ones in
upper case. -/
theorem _SetFilter_masks (self : wxExplorerBrowserImplHelper) (fileMasks : List String)
    (itemTypes : Nat) :
    (_SetFilter self fileMasks itemTypes).2.m_filterMasks
      = self.m_filterMasks ++ fileMasks.map Upper := by
  unfold _SetFilter
  exact foldl_push_Upper fileMasks self.m_filterMasks

/-- C5: matching is case-insensitive. Under a filter installed with
`_SetFilter`, two items of the same kind whose names are equal after
upper-casing get the same answer from `ShouldShow`; installing the masks in
upper case gives the same filter as installing them as written; and with the
mask `*.doc` or `*.DOC` for files, the files `report.doc`, `REPORT.DOC` and
`Report.Doc` are all accepted. -/
theorem C5_wildcard_case_insensitive (self : wxExplorerBrowserImplHelper)
    (fileMasks : List String) (itemTypes : Nat) (psf1 psf2 : IShellFolder)
    (pidl1 pidl2 : PCUITEMID_CHILD) (ebi1 ebi2 : wxExplorerBrowserItem)
    (h1 : candidateItem psf1 pidl1 = some ebi1) (h2 : candidateItem psf2 pidl2 = some ebi2)
    (hkind : ebi1.GetType = ebi2.GetType)
    (hname : Upper (filterName ebi1) = Upper (filterName ebi2)) :
    ShouldShow (_SetFilter self fileMasks itemTypes).2 psf1 pidl1
        = ShouldShow (_SetFilter self fileMasks itemTypes).2 psf2 pidl2
      ∧ _SetFilter self (fileMasks.map Upper) itemTypes = _SetFilter self fileMasks itemTypes
      ∧ (∀ mask ∈ ["*.doc", "*.DOC"], ∀ path ∈
            ["C:\\work\\report.doc", "C:\\work\\REPORT.DOC", "C:\\work\\Report.Doc"],
          ShouldShow (_SetFilter (construct 0) [mask] File.toNat).2
            (folderOf (shellItem (SFGAO_FILESYSTEM ||| SFGAO_STREAM) path "report")) 0
            = S_OK) := by
  refine ⟨?_, ?_, by decide⟩
  · rw [ShouldShow_eq, ShouldShow_eq, h1, h2]
    simp only [hkind, hname]
  · unfold _SetFilter
    simp only [foldl_push_Upper, List.map_map]
    have : (Upper ∘ Upper) = Upper := funext Upper_Upper
    rw [this]

/-- C5 at two text files whose names differ in case only, under a filter for
word-processor documents. -/
theorem C5_wildcard_case_insensitive_witness :
    ShouldShow (_SetFilter (construct 0) ["*.doc*", "*.rtf"] File.toNat).2
        (folderOf (shellItem (SFGAO_FILESYSTEM ||| SFGAO_STREAM) "C:\\work\\notes.txt" "notes"))
        0
      = ShouldShow (_SetFilter (construct 0) ["*.doc*", "*.rtf"] File.toNat).2
        (folderOf (shellItem (SFGAO_FILESYSTEM ||| SFGAO_STREAM) "D:\\old\\NOTES.TXT" "NOTES"))
        3
      ∧ ShouldShow (_SetFilter (construct 0) ["*.doc*", "*.rtf"] File.toNat).2
        (folderOf (shellItem (SFGAO_FILESYSTEM ||| SFGAO_STREAM) "C:\\work\\notes.txt" "notes"))
        0 = S_FALSE :=
  ⟨(C5_wildcard_case_insensitive (construct 0) ["*.doc*", "*.rtf"] File.toNat
      (folderOf (shellItem (SFGAO_FILESYSTEM ||| SFGAO_STREAM) "C:\\work\\notes.txt" "notes"))
      (folderOf (shellItem (SFGAO_FILESYSTEM ||| SFGAO_STREAM) "D:\\old\\NOTES.TXT" "NOTES"))
      0 3
      { m_type := File, m_path := "C:\\work\\notes.txt", m_displayName := "notes",
        m_SFGAO := SFGAO_FILESYSTEM ||| SFGAO_STREAM }
      { m_type := File, m_path := "D:\\old\\NOTES.TXT", m_displayName := "NOTES",
        m_SFGAO := SFGAO_FILESYSTEM ||| SFGAO_STREAM }
      (by decide) (by decide) (by decide) (by decide)).1,
    by decide⟩

/-! ### Items the masks apply to -/

/-- Without a separator in the text, `lastComponent` keeps all of it. -/
theorem lastComponent_no_separator (acc leaf : List Char)
    (hleaf : ∀ c ∈ leaf, c ≠ '\\' ∧ c ≠ '/') :
    lastComponent acc leaf = acc ++ leaf := by
  induction leaf generalizing acc with
  | nil => simp [lastComponent]
  | cons c cs ih =>
    have hc := hleaf c (List.mem_cons_self c cs)
    have hcs : ∀ d ∈ cs, d ≠ '\\' ∧ d ≠ '/' := fun d hd => hleaf d (List.mem_cons_of_mem c hd)
    have hno : ¬ (c = '\\' ∨ c = '/') := fun h => h.elim hc.1 hc.2
    simp only [lastComponent, hno, if_false]
    rw [ih _ hcs]
    simp

/-- What follows the last separator is the result of `lastComponent`. -/
theorem lastComponent_append_separator (acc pre leaf : List Char) (sep : Char)
    (hsep : sep = '\\' ∨ sep = '/')
    (hleaf : ∀ c ∈ leaf, c ≠ '\\' ∧ c ≠ '/') :
    lastComponent acc (pre ++ sep :: leaf) = leaf := by
  induction pre generalizing acc with
  | nil =>
    simp only [List.nil_append, lastComponent, hsep, if_true]
    rw [lastComponent_no_separator [] leaf hleaf]
    simp
  | cons c cs ih =>
    simp only [List.cons_append, lastComponent]
    split
    · exact ih []
    · exact ih _

/-- A text without a colon has no volume to look for. -/
theorem dropWhile_no_colon (leaf : List Char) (hleaf : ∀ c ∈ leaf, c ≠ ':') :
    leaf.dropWhile (fun c => c != ':') = [] := by
  rw [List.dropWhile_eq_nil_iff]
  intro c hc
  simp [hleaf c hc]

/-- Stripping the volume keeps a separator and the colon-free text after it. -/
theorem stripVolume_append_separator (pre leaf : List Char) (sep : Char)
    (hsep : sep ≠ ':') (hleaf : ∀ c ∈ leaf, c ≠ ':') :
    ∃ rest, stripVolume (pre ++ sep :: leaf) = rest ++ sep :: leaf := by
  have hdrop : (pre ++ sep :: leaf).dropWhile (fun c => c != ':') = []
      ∨ ∃ rest, (pre ++ sep :: leaf).dropWhile (fun c => c != ':')
          = ':' :: (rest ++ sep :: leaf) := by
    induction pre with
    | nil =>
      left
      apply dropWhile_no_colon
      intro c hc
      rcases List.mem_cons.1 hc with h | h
      · rw [h]; exact hsep
      · exact hleaf c h
    | cons c cs ih =>
      by_cases hc : c = ':'
      · right
        refine ⟨cs, ?_⟩
        rw [hc]
        rfl
      · have hstep : ((c :: cs) ++ sep :: leaf).dropWhile (fun c => c != ':')
            = (cs ++ sep :: leaf).dropWhile (fun c => c != ':') := by
          simp [List.dropWhile_cons, hc]
        rw [hstep]
        exact ih
  unfold stripVolume
  split
  · exact ⟨pre, rfl⟩
  · rcases hdrop with h | ⟨rest, h⟩
    · rw [h]
      exact ⟨pre, rfl⟩
    · rw [h]
      exact ⟨rest, rfl⟩

/-- The full name of a path is what follows its last separator. -/
theorem wxFileName_GetFullName_leaf (dir leaf : String) (sep : Char)
    (hsep : sep = '\\' ∨ sep = '/')
    (hleaf : ∀ c ∈ leaf.data, c ≠ '\\' ∧ c ≠ '/' ∧ c ≠ ':') :
    wxFileName_GetFullName (dir ++ String.singleton sep ++ leaf) = leaf := by
  have hsep' : sep ≠ ':' := by
    rcases hsep with h | h <;> rw [h] <;> decide
  obtain ⟨rest, hrest⟩ := stripVolume_append_separator dir.data leaf.data sep hsep'
    (fun c hc => (hleaf c hc).2.2)
  have hdata : (dir ++ String.singleton sep ++ leaf).data = dir.data ++ sep :: leaf.data := by
    simp [String.data_append, String.singleton]
  unfold wxFileName_GetFullName
  rw [hdata, hrest, lastComponent_append_separator [] rest leaf.data sep hsep
    (fun c hc => ⟨(hleaf c hc).1, (hleaf c hc).2.1⟩)]

/-- A name without separator or colon is its own full name. -/
theorem wxFileName_GetFullName_bare (leaf : String)
    (hleaf : ∀ c ∈ leaf.data, c ≠ '\\' ∧ c ≠ '/' ∧ c ≠ ':') :
    wxFileName_GetFullName leaf = leaf := by
  have hstrip : stripVolume leaf.data = leaf.data := by
    unfold stripVolume
    split
    · rfl
    · rw [dropWhile_no_colon leaf.data (fun c hc => (hleaf c hc).2.2)]
  unfold wxFileName_GetFullName
  rw [hstrip,
    lastComponent_no_separator [] leaf.data (fun c hc => ⟨(hleaf c hc).1, (hleaf c hc).2.1⟩)]
  simp

/-- The full name of a path made of a volume and a name is the name. -/
theorem wxFileName_GetFullName_volume (vol leaf : String)
    (hne : vol ≠ "")
    (hvol : ∀ c ∈ vol.data, c ≠ ':')
    (hleaf : ∀ c ∈ leaf.data, c ≠ '\\' ∧ c ≠ '/' ∧ c ≠ ':') :
    wxFileName_GetFullName (vol ++ ":" ++ leaf) = leaf := by
  have hdata : (vol ++ ":" ++ leaf).data = vol.data ++ ':' :: leaf.data := by
    simp [String.data_append]
  have hdrop : (vol.data ++ ':' :: leaf.data).dropWhile (fun c => c != ':')
      = ':' :: leaf.data := by
    rw [List.dropWhile_append_of_pos (fun c hc => by simp [hvol c hc])]
    rfl
  have hhead : (vol.data ++ ':' :: leaf.data).head? ≠ some ':' := by
    cases hv : vol.data with
    | nil =>
      exfalso
      apply hne
      cases vol
      simp only at hv
      rw [hv]
    | cons c cs =>
      have hc : c ≠ ':' := hvol c (by rw [hv]; exact List.mem_cons_self c cs)
      simp [hc]
  have hstrip : stripVolume (vol.data ++ ':' :: leaf.data) = leaf.data := by
    unfold stripVolume
    rw [if_neg hhead, hdrop]
  unfold wxFileName_GetFullName
  rw [hdata, hstrip,
    lastComponent_no_separator [] leaf.data (fun c hc => ⟨(hleaf c hc).1, (hleaf c hc).2.1⟩)]
  simp

/-- C6: with a non-empty mask list, a converted item of known kind whose kind is
in the type mask is accepted exactly when some mask matches its upper-cased
name; otherwise the answer is `S_FALSE`, which is not a failure. The name of a
`File` or `Directory` item is the last component of its path: whenever the path
is a directory part, a separator and a text `leaf` free of separators and
colons (or is such a text alone), the masks are matched against the upper-cased
`leaf` and nothing else of the path; the same holds when the path is a volume
name, a colon and such a text. The name of an `Other` item is its display
name, whatever its path. So under the mask `a*` the file `C:\work\a.doc` is
accepted and under `c*` or `*work*` it is hidden, the file `C:a.doc` is
accepted under `a*` and hidden under `c*`, the directory `C:\work\sub`
is accepted under `s*` and hidden under `w*`, and an `Other` item with the path
`C:\x\y` and the display name `Mouse` is accepted under `m*` and hidden
under `y*`. -/
theorem C6_masks_decide (self : wxExplorerBrowserImplHelper) (psf : IShellFolder)
    (pidlItem : PCUITEMID_CHILD) (ebi : wxExplorerBrowserItem)
    (hmasks : self.m_filterMasks ≠ [])
    (hitem : candidateItem psf pidlItem = some ebi)
    (hknown : ebi.GetType ≠ Unknown)
    (hkind : ebi.GetType.toNat &&& self.m_filterTypes ≠ 0) :
    (ShouldShow self psf pidlItem = S_OK ↔
        ∃ mask ∈ self.m_filterMasks, wxMatchWild mask (Upper (filterName ebi)) false = true)
      ∧ ((¬ ∃ mask ∈ self.m_filterMasks,
            wxMatchWild mask (Upper (filterName ebi)) false = true) →
          ShouldShow self psf pidlItem = S_FALSE)
      ∧ FAILED (ShouldShow self psf pidlItem) = false
      ∧ (ebi.GetType = File ∨ ebi.GetType = Directory →
          filterName ebi = wxFileName_GetFullName ebi.GetPath)
      ∧ (ebi.GetType = Other → filterName ebi = ebi.GetDisplayName)
      ∧ (∀ (dir leaf : String) (sep : Char),
          (ebi.GetType = File ∨ ebi.GetType = Directory) →
          (sep = '\\' ∨ sep = '/') →
          (∀ c ∈ leaf.data, c ≠ '\\' ∧ c ≠ '/' ∧ c ≠ ':') →
          ebi.GetPath = dir ++ String.singleton sep ++ leaf →
          (ShouldShow self psf pidlItem = S_OK ↔
              ∃ mask ∈ self.m_filterMasks, wxMatchWild mask (Upper leaf) false = true)
            ∧ (ShouldShow self psf pidlItem = S_FALSE ↔
              ¬ ∃ mask ∈ self.m_filterMasks, wxMatchWild mask (Upper leaf) false = true))
      ∧ ((ebi.GetType = File ∨ ebi.GetType = Directory) →
          (∀ c ∈ ebi.GetPath.data, c ≠ '\\' ∧ c ≠ '/' ∧ c ≠ ':') →
          (ShouldShow self psf pidlItem = S_OK ↔
              ∃ mask ∈ self.m_filterMasks,
                wxMatchWild mask (Upper ebi.GetPath) false = true))
      ∧ (∀ (vol leaf : String),
          (ebi.GetType = File ∨ ebi.GetType = Directory) →
          vol ≠ "" →
          (∀ c ∈ vol.data, c ≠ '\\' ∧ c ≠ '/' ∧ c ≠ ':') →
          (∀ c ∈ leaf.data, c ≠ '\\' ∧ c ≠ '/' ∧ c ≠ ':') →
          ebi.GetPath = vol ++ ":" ++ leaf →
          (ShouldShow self psf pidlItem = S_OK ↔
              ∃ mask ∈ self.m_filterMasks, wxMatchWild mask (Upper leaf) false = true))
      ∧ (ebi.GetType = Other →
          (ShouldShow self psf pidlItem = S_OK ↔
              ∃ mask ∈ self.m_filterMasks,
                wxMatchWild mask (Upper ebi.GetDisplayName) false = true)
            ∧ (ShouldShow self psf pidlItem = S_FALSE ↔
              ¬ ∃ mask ∈ self.m_filterMasks,
                wxMatchWild mask (Upper ebi.GetDisplayName) false = true))
      ∧ ShouldShow (_SetFilter (construct 0) ["a*"] File.toNat).2
          (folderOf (shellItem (SFGAO_FILESYSTEM ||| SFGAO_STREAM) "C:\\work\\a.doc" "a")) 0
          = S_OK
      ∧ ShouldShow (_SetFilter (construct 0) ["c*"] File.toNat).2
          (folderOf (shellItem (SFGAO_FILESYSTEM ||| SFGAO_STREAM) "C:\\work\\a.doc" "a")) 0
          = S_FALSE
      ∧ ShouldShow (_SetFilter (construct 0) ["*work*"] File.toNat).2
          (folderOf (shellItem (SFGAO_FILESYSTEM ||| SFGAO_STREAM) "C:\\work\\a.doc" "a")) 0
          = S_FALSE
      ∧ ShouldShow (_SetFilter (construct 0) ["a*"] File.toNat).2
          (folderOf (shellItem (SFGAO_FILESYSTEM ||| SFGAO_STREAM) "C:a.doc" "a")) 0
          = S_OK
      ∧ ShouldShow (_SetFilter (construct 0) ["c*"] File.toNat).2
          (folderOf (shellItem (SFGAO_FILESYSTEM ||| SFGAO_STREAM) "C:a.doc" "a")) 0
          = S_FALSE
      ∧ ShouldShow (_SetFilter (construct 0) ["s*"] Directory.toNat).2
          (folderOf (shellItem (SFGAO_FILESYSTEM ||| SFGAO_FOLDER) "C:\\work\\sub" "sub")) 0
          = S_OK
      ∧ ShouldShow (_SetFilter (construct 0) ["w*"] Directory.toNat).2
          (folderOf (shellItem (SFGAO_FILESYSTEM ||| SFGAO_FOLDER) "C:\\work\\sub" "sub")) 0
          = S_FALSE
      ∧ ShouldShow (_SetFilter (construct 0) ["m*"] Other.toNat).2
          (folderOf (shellItem SFGAO_FILESYSTEM "C:\\x\\y" "Mouse")) 0
          = S_OK
      ∧ ShouldShow (_SetFilter (construct 0) ["y*"] Other.toNat).2
          (folderOf (shellItem SFGAO_FILESYSTEM "C:\\x\\y" "Mouse")) 0
          = S_FALSE := by
  have hs : ShouldShow self psf pidlItem =
      if self.m_filterMasks.any (fun mask => wxMatchWild mask (Upper (filterName ebi)) false)
      then S_OK else S_FALSE := by
    rw [ShouldShow_eq, hitem]
    simp only [hmasks, hknown, hkind, if_false]
  have hany : (self.m_filterMasks.any
        (fun mask => wxMatchWild mask (Upper (filterName ebi)) false) = true) ↔
      ∃ mask ∈ self.m_filterMasks, wxMatchWild mask (Upper (filterName ebi)) false = true := by
    simp [List.any_eq_true]
  have hok : ShouldShow self psf pidlItem = S_OK ↔
      ∃ mask ∈ self.m_filterMasks, wxMatchWild mask (Upper (filterName ebi)) false = true := by
    rw [hs, ← hany]
    cases self.m_filterMasks.any (fun mask => wxMatchWild mask (Upper (filterName ebi)) false)
    · simp only [Bool.false_eq_true, if_false, iff_false]
      decide
    · simp
  have hhide : ShouldShow self psf pidlItem = S_FALSE ↔
      ¬ ∃ mask ∈ self.m_filterMasks, wxMatchWild mask (Upper (filterName ebi)) false = true := by
    rw [hs, ← hany]
    cases self.m_filterMasks.any (fun mask => wxMatchWild mask (Upper (filterName ebi)) false)
    · simp
    · simp only [if_true, not_true_eq_false, iff_false]
      decide
  have hpath : ebi.GetType = File ∨ ebi.GetType = Directory →
      filterName ebi = wxFileName_GetFullName ebi.GetPath := by
    intro h
    unfold filterName
    rcases h with h | h <;> rw [h]
  have hdisplay : ebi.GetType = Other → filterName ebi = ebi.GetDisplayName := by
    intro h
    unfold filterName
    rw [h]
  refine ⟨hok, ?_, ?_, hpath, hdisplay, ?_, ?_, ?_, ?_,
    by decide, by decide, by decide, by decide, by decide, by decide, by decide,
    by decide, by decide⟩
  · intro hno
    exact hhide.2 hno
  · rw [hs]
    split <;> decide
  · intro dir leaf sep hfs hsep hleaf hp
    have hname : filterName ebi = leaf := by
      rw [hpath hfs, hp, wxFileName_GetFullName_leaf dir leaf sep hsep hleaf]
    rw [← hname]
    exact ⟨hok, hhide⟩
  · intro hfs hleaf
    have hname : filterName ebi = ebi.GetPath := by
      rw [hpath hfs, wxFileName_GetFullName_bare ebi.GetPath hleaf]
    rw [← hname]
    exact hok
  · intro vol leaf hfs hne hvol hleaf hp
    have hname : filterName ebi = leaf := by
      rw [hpath hfs, hp,
        wxFileName_GetFullName_volume vol leaf hne (fun c hc => (hvol c hc).2.2) hleaf]
    rw [← hname]
    exact hok
  · intro ho
    rw [← hdisplay ho]
    exact ⟨hok, hhide⟩

/-- C6 at a document reached through two directories, under a filter for files
and other items whose first mask starts with the first letter of the name: the
theorem gives that the document is accepted exactly when a mask matches
`A.DOCX`, its last path component in upper case. The document is accepted,
a text file beside it is hidden, a control-panel item is matched by its display
name, and a mask that matches the directory part only hides the document. -/
theorem C6_masks_decide_witness :
    (ShouldShow (_SetFilter (construct 0) ["a*.doc*", "m*"] (File.toNat ||| Other.toNat)).2
        (folderOf (shellItem (SFGAO_FILESYSTEM ||| SFGAO_STREAM) "C:\\work\\a.docx" "a")) 0
        = S_OK ↔
      ∃ mask ∈ (_SetFilter (construct 0) ["a*.doc*", "m*"]
          (File.toNat ||| Other.toNat)).2.m_filterMasks,
        wxMatchWild mask (Upper "a.docx") false = true)
      ∧ Upper "a.docx" = "A.DOCX"
      ∧ (_SetFilter (construct 0) ["a*.doc*", "m*"]
          (File.toNat ||| Other.toNat)).2.m_filterMasks = ["A*.DOC*", "M*"]
      ∧ ShouldShow (_SetFilter (construct 0) ["a*.doc*", "m*"] (File.toNat ||| Other.toNat)).2
        (folderOf (shellItem (SFGAO_FILESYSTEM ||| SFGAO_STREAM) "C:\\work\\a.docx" "a")) 0
        = S_OK
      ∧ ShouldShow (_SetFilter (construct 0) ["a*.doc*", "m*"] (File.toNat ||| Other.toNat)).2
        (folderOf (shellItem (SFGAO_FILESYSTEM ||| SFGAO_STREAM) "C:\\work\\b.txt" "b")) 0
        = S_FALSE
      ∧ ShouldShow (_SetFilter (construct 0) ["a*.doc*", "m*"] (File.toNat ||| Other.toNat)).2
        (folderOf (virtualItem SFGAO_FOLDER "Mouse")) 0
        = S_OK
      ∧ ShouldShow (_SetFilter (construct 0) ["c*", "*work*"] (File.toNat ||| Other.toNat)).2
        (folderOf (shellItem (SFGAO_FILESYSTEM ||| SFGAO_STREAM) "C:\\work\\a.docx" "a")) 0
        = S_FALSE :=
  ⟨((C6_masks_decide
      (_SetFilter (construct 0) ["a*.doc*", "m*"] (File.toNat ||| Other.toNat)).2
      (folderOf (shellItem (SFGAO_FILESYSTEM ||| SFGAO_STREAM) "C:\\work\\a.docx" "a")) 0
      { m_type := File, m_path := "C:\\work\\a.docx", m_displayName := "a",
        m_SFGAO := SFGAO_FILESYSTEM ||| SFGAO_STREAM }
      (by decide) (by decide) (by decide) (by decide)).2.2.2.2.2.1
        "C:\\work" "a.docx" '\\' (Or.inl rfl) (Or.inl rfl) (by decide) (by decide)).1,
    by decide, by decide, by decide, by decide, by decide, by decide⟩

/-- C7, the claim as written fails: the empty-masks check comes first, so with
no mask installed a candidate that cannot be built, and one of kind `Unknown`,
are both accepted. -/
theorem C7_empty_masks_checked_first :
    candidateItem brokenFolder 0 = none
      ∧ ShouldShow (construct 0) brokenFolder 0 = S_OK
      ∧ (candidateItem (folderOf (virtualItem 0 "Mouse")) 0).map wxExplorerBrowserItem.GetType
          = some Unknown
      ∧ ShouldShow (construct 0) (folderOf (virtualItem 0 "Mouse")) 0 = S_OK
      ∧ ¬ (∀ (self : wxExplorerBrowserImplHelper) (psf : IShellFolder)
            (pidlItem : PCUITEMID_CHILD),
            (candidateItem psf pidlItem = none ∨
              ∃ ebi, candidateItem psf pidlItem = some ebi ∧ ebi.GetType = Unknown) →
            ShouldShow self psf pidlItem = E_FAIL) := by
  refine ⟨by decide, by decide, by decide, by decide, fun h => ?_⟩
  have h1 := h (construct 0) brokenFolder 0 (Or.inl (by decide))
  revert h1
  decide

/-- C7, amended: when the mask list is not empty, a candidate that cannot be
built or whose kind is `Unknown` is answered with `E_FAIL`, which is neither
accept nor hide; when the mask list is empty the same candidate is accepted,
because the empty-masks check is made before the item is built. -/
theorem C7_unclassifiable_rejected (self : wxExplorerBrowserImplHelper) (psf : IShellFolder)
    (pidlItem : PCUITEMID_CHILD)
    (hitem : candidateItem psf pidlItem = none ∨
      ∃ ebi, candidateItem psf pidlItem = some ebi ∧ ebi.GetType = Unknown) :
    (self.m_filterMasks ≠ [] → ShouldShow self psf pidlItem = E_FAIL)
      ∧ (self.m_filterMasks = [] → ShouldShow self psf pidlItem = S_OK)
      ∧ E_FAIL ≠ S_OK ∧ E_FAIL ≠ S_FALSE := by
  refine ⟨fun hm => ?_, fun hm => ?_, by decide, by decide⟩
  · rw [ShouldShow_eq]
    rcases hitem with hn | ⟨ebi, he, hu⟩
    · simp [hm, hn]
    · simp [hm, he, hu]
  · rw [ShouldShow_eq]
    simp [hm]

/-- C7, amended, at a candidate that cannot be built, with and without a mask. -/
theorem C7_unclassifiable_rejected_witness :
    ShouldShow (_SetFilter (construct 0) ["*.doc"] File.toNat).2 brokenFolder 0 = E_FAIL
      ∧ ShouldShow (construct 0) brokenFolder 0 = S_OK :=
  ⟨(C7_unclassifiable_rejected (_SetFilter (construct 0) ["*.doc"] File.toNat).2
      brokenFolder 0 (Or.inl (by decide))).1 (by decide),
    (C7_unclassifiable_rejected (construct 0) brokenFolder 0 (Or.inl (by decide))).2.1
      (by decide)⟩

/-! ## Doubled selection events -/

/-- The unsigned 64-bit difference of two ticks in order is their difference. -/
theorem tick_sub (t prev : Nat) (ht : t < 2 ^ 64) (hle : prev ≤ t) :
    (t + ULONGLONG_MOD - prev) % ULONGLONG_MOD = t - prev := by
  unfold ULONGLONG_MOD
  omega

theorem IsDoubled_iff (d previous : ChangeSelEventData) (ht : d.m_timeCreated < 2 ^ 64)
    (hle : previous.m_timeCreated ≤ d.m_timeCreated) :
    d.IsDoubled previous = true ↔
      (d.m_timeCreated - previous.m_timeCreated ≤ 50
        ∧ d.m_item.GetSFGAO = previous.m_item.GetSFGAO
        ∧ d.m_item.GetPath = previous.m_item.GetPath
        ∧ d.m_item.GetDisplayName = previous.m_item.GetDisplayName) := by
  unfold ChangeSelEventData.IsDoubled
  simp only [tick_sub _ _ ht hle, Bool.and_eq_true, decide_eq_true_eq, and_assoc]

/-- C8: of two selection notifications in time order, the later one is doubled
exactly when the two creation instants are at most 50 ms apart and attribute
mask, path and display name agree; a distance of exactly 50 ms counts. -/
theorem C8_doubled_iff (d previous : ChangeSelEventData) (ht : d.m_timeCreated < 2 ^ 64)
    (hle : previous.m_timeCreated ≤ d.m_timeCreated) :
    (d.IsDoubled previous = true ↔
      (d.m_timeCreated - previous.m_timeCreated ≤ 50
        ∧ d.m_item.GetSFGAO = previous.m_item.GetSFGAO
        ∧ d.m_item.GetPath = previous.m_item.GetPath
        ∧ d.m_item.GetDisplayName = previous.m_item.GetDisplayName))
      ∧ (d.m_timeCreated = previous.m_timeCreated + 50 →
          d.m_item.GetSFGAO = previous.m_item.GetSFGAO →
          d.m_item.GetPath = previous.m_item.GetPath →
          d.m_item.GetDisplayName = previous.m_item.GetDisplayName →
          d.IsDoubled previous = true) := by
  refine ⟨IsDoubled_iff d previous ht hle, fun h50 ha hp hn => ?_⟩
  rw [IsDoubled_iff d previous ht hle]
  exact ⟨by omega, ha, hp, hn⟩

/-- C8 at the same file reported at ticks 1000 and 1050, and again at 1051. -/
theorem C8_doubled_iff_witness :
    ChangeSelEventData.IsDoubled
        { m_timeCreated := 1050,
          m_item := { m_type := File, m_path := "C:\\a.txt", m_displayName := "a.txt",
                      m_SFGAO := SFGAO_FILESYSTEM ||| SFGAO_STREAM } }
        { m_timeCreated := 1000,
          m_item := { m_type := File, m_path := "C:\\a.txt", m_displayName := "a.txt",
                      m_SFGAO := SFGAO_FILESYSTEM ||| SFGAO_STREAM } } = true
      ∧ ChangeSelEventData.IsDoubled
        { m_timeCreated := 1051,
          m_item := { m_type := File, m_path := "C:\\a.txt", m_displayName := "a.txt",
                      m_SFGAO := SFGAO_FILESYSTEM ||| SFGAO_STREAM } }
        { m_timeCreated := 1000,
          m_item := { m_type := File, m_path := "C:\\a.txt", m_displayName := "a.txt",
                      m_SFGAO := SFGAO_FILESYSTEM ||| SFGAO_STREAM } } = false :=
  ⟨(C8_doubled_iff
      { m_timeCreated := 1050,
        m_item := { m_type := File, m_path := "C:\\a.txt", m_displayName := "a.txt",
                    m_SFGAO := SFGAO_FILESYSTEM ||| SFGAO_STREAM } }
      { m_timeCreated := 1000,
        m_item := { m_type := File, m_path := "C:\\a.txt", m_displayName := "a.txt",
                    m_SFGAO := SFGAO_FILESYSTEM ||| SFGAO_STREAM } }
      (by decide) (by decide)).2 rfl rfl rfl rfl,
    by decide⟩

/-- The events handed to the host by `_SendNotifyEvent`: always exactly one. -/
theorem _SendNotifyEvent_sent (m_host : wxWindow) (command : wxEventType)
    (ebi : wxExplorerBrowserItem) :
    (_SendNotifyEvent m_host command ebi).2 = [eventFor m_host command ebi] := by
  unfold _SendNotifyEvent eventFor wxExplorerBrowserEvent.SetItem
  simp only
  split <;> rfl

/-- The answer of `_SendNotifyEvent`: not allowed exactly when the host handled
the event and left it vetoed. -/
theorem _SendNotifyEvent_answer (m_host : wxWindow) (command : wxEventType)
    (ebi : wxExplorerBrowserItem) :
    (_SendNotifyEvent m_host command ebi).1 =
      !((m_host.ProcessWindowEvent (eventFor m_host command ebi)).1
        && !(m_host.ProcessWindowEvent (eventFor m_host command ebi)).2.IsAllowed) := by
  unfold _SendNotifyEvent eventFor wxExplorerBrowserEvent.SetItem
  simp only
  split <;> simp_all

/-- A selection-changed notification that is doubled: nothing is sent and the
helper keeps its state. -/
theorem OnStateChange_doubled (self : wxExplorerBrowserImplHelper) (m_host : wxWindow)
    (eb : IExplorerBrowser) (tick : Nat)
    (h : ChangeSelEventData.IsDoubled
      { m_timeCreated := tick, m_item := (_GetSelectedItem eb {}).2 }
      self.m_prevChangeSelEventData = true) :
    OnStateChange self m_host eb tick CDBOSC_SELCHANGE = (S_OK, self, []) := by
  unfold OnStateChange ChangeSelEventData.SetItem
  simp only [if_true, h]

/-- A selection-changed notification that is not doubled: one event is sent and
the helper remembers the notification. -/
theorem OnStateChange_fresh (self : wxExplorerBrowserImplHelper) (m_host : wxWindow)
    (eb : IExplorerBrowser) (tick : Nat)
    (h : ChangeSelEventData.IsDoubled
      { m_timeCreated := tick, m_item := (_GetSelectedItem eb {}).2 }
      self.m_prevChangeSelEventData = false) :
    OnStateChange self m_host eb tick CDBOSC_SELCHANGE =
      (S_OK,
        { self with m_prevChangeSelEventData :=
            { m_timeCreated := tick, m_item := (_GetSelectedItem eb {}).2 } },
        [eventFor m_host wxEventType.wxEVT_EXPLORER_BROWSER_SELECTION_CHANGED
          (_GetSelectedItem eb {}).2]) := by
  unfold OnStateChange ChangeSelEventData.SetItem
  simp only [if_true, h, Bool.false_eq_true, if_false, _SendNotifyEvent_sent]

/-- C9, the claim as written fails: a helper constructed at tick 1000 holds an
empty item stamped 1000, so two notifications without selection at ticks 1010
and 1020 produce no event at all, and at ticks 1010 and 2010 they produce one
event, not two. -/
theorem C9_first_notification_may_be_doubled :
    twoSelectionChanges (construct 1000) hostWithoutHandler browserWithoutSelection
        browserWithoutSelection 1010 1020 = []
      ∧ (twoSelectionChanges (construct 1000) hostWithoutHandler browserWithoutSelection
          browserWithoutSelection 1010 2010).length = 1
      ∧ ¬ (∀ (self : wxExplorerBrowserImplHelper) (m_host : wxWindow)
            (eb1 eb2 : IExplorerBrowser) (t1 t2 : Nat),
            (_GetSelectedItem eb1 {}).2 = (_GetSelectedItem eb2 {}).2 →
            t1 ≤ t2 → t2 < 2 ^ 64 →
            (t2 - t1 ≤ 50 → (twoSelectionChanges self m_host eb1 eb2 t1 t2).length = 1)
              ∧ (50 < t2 - t1 → (twoSelectionChanges self m_host eb1 eb2 t1 t2).length = 2)) := by
  refine ⟨by decide, by decide, fun h => ?_⟩
  have h1 := (h (construct 1000) hostWithoutHandler browserWithoutSelection
    browserWithoutSelection 1010 1020 rfl (by decide) (by decide)).1 (by decide)
  revert h1
  decide

/-- C9, amended: when the first of two consecutive selection-changed
notifications carrying identical items is itself not doubled against the
remembered notification, the two produce exactly one `SelectionChanged` event
if they arrive at most 50 ms apart and exactly two if they arrive more than
50 ms apart; every event carries the item. -/
theorem C9_dedup_window (self : wxExplorerBrowserImplHelper) (m_host : wxWindow)
    (eb1 eb2 : IExplorerBrowser) (t1 t2 : Nat)
    (hsame : (_GetSelectedItem eb1 {}).2 = (_GetSelectedItem eb2 {}).2)
    (hle : t1 ≤ t2) (ht : t2 < 2 ^ 64)
    (hfirst : ChangeSelEventData.IsDoubled
      { m_timeCreated := t1, m_item := (_GetSelectedItem eb1 {}).2 }
      self.m_prevChangeSelEventData = false) :
    (t2 - t1 ≤ 50 →
        twoSelectionChanges self m_host eb1 eb2 t1 t2 =
          [eventFor m_host wxEventType.wxEVT_EXPLORER_BROWSER_SELECTION_CHANGED
            (_GetSelectedItem eb1 {}).2])
      ∧ (50 < t2 - t1 →
        twoSelectionChanges self m_host eb1 eb2 t1 t2 =
          [eventFor m_host wxEventType.wxEVT_EXPLORER_BROWSER_SELECTION_CHANGED
            (_GetSelectedItem eb1 {}).2,
           eventFor m_host wxEventType.wxEVT_EXPLORER_BROWSER_SELECTION_CHANGED
            (_GetSelectedItem eb1 {}).2]) := by
  have hiff : ChangeSelEventData.IsDoubled
        { m_timeCreated := t2, m_item := (_GetSelectedItem eb2 {}).2 }
        { m_timeCreated := t1, m_item := (_GetSelectedItem eb1 {}).2 } = true
      ↔ t2 - t1 ≤ 50 := by
    rw [IsDoubled_iff _ _ ht hle]
    simp [hsame]
  unfold twoSelectionChanges
  rw [OnStateChange_fresh self m_host eb1 t1 hfirst]
  refine ⟨fun hnear => ?_, fun hfar => ?_⟩
  · rw [OnStateChange_doubled _ m_host eb2 t2 (hiff.2 hnear)]
    simp
  · have hnot : ChangeSelEventData.IsDoubled
        { m_timeCreated := t2, m_item := (_GetSelectedItem eb2 {}).2 }
        { m_timeCreated := t1, m_item := (_GetSelectedItem eb1 {}).2 } = false := by
      cases hd : ChangeSelEventData.IsDoubled
        { m_timeCreated := t2, m_item := (_GetSelectedItem eb2 {}).2 }
        { m_timeCreated := t1, m_item := (_GetSelectedItem eb1 {}).2 }
      · rfl
      · have := hiff.1 hd
        omega
    rw [OnStateChange_fresh _ m_host eb2 t2 hnot]
    simp [hsame]

/-- C9, amended, at a selected file reported at ticks 1000 and 1010, and at
ticks 1000 and 2000, to a helper constructed at tick 0. -/
theorem C9_dedup_window_witness :
    twoSelectionChanges (construct 0) hostAllowing
        (browserWithSelection (shellItem (SFGAO_FILESYSTEM ||| SFGAO_STREAM) "C:\\a.txt" "a"))
        (browserWithSelection (shellItem (SFGAO_FILESYSTEM ||| SFGAO_STREAM) "C:\\a.txt" "a"))
        1000 1010
        = [{ m_eventType := wxEventType.wxEVT_EXPLORER_BROWSER_SELECTION_CHANGED, m_id := 1,
             m_item := { m_type := File, m_path := "C:\\a.txt", m_displayName := "a",
                         m_SFGAO := SFGAO_FILESYSTEM ||| SFGAO_STREAM } }]
      ∧ (twoSelectionChanges (construct 0) hostAllowing
        (browserWithSelection (shellItem (SFGAO_FILESYSTEM ||| SFGAO_STREAM) "C:\\a.txt" "a"))
        (browserWithSelection (shellItem (SFGAO_FILESYSTEM ||| SFGAO_STREAM) "C:\\a.txt" "a"))
        1000 2000).length = 2 :=
  ⟨(C9_dedup_window (construct 0) hostAllowing
      (browserWithSelection (shellItem (SFGAO_FILESYSTEM ||| SFGAO_STREAM) "C:\\a.txt" "a"))
      (browserWithSelection (shellItem (SFGAO_FILESYSTEM ||| SFGAO_STREAM) "C:\\a.txt" "a"))
      1000 1010 rfl (by decide) (by decide) (by decide)).1 (by decide),
    by
      rw [(C9_dedup_window (construct 0) hostAllowing
        (browserWithSelection (shellItem (SFGAO_FILESYSTEM ||| SFGAO_STREAM) "C:\\a.txt" "a"))
        (browserWithSelection (shellItem (SFGAO_FILESYSTEM ||| SFGAO_STREAM) "C:\\a.txt" "a"))
        1000 2000 rfl (by decide) (by decide) (by decide)).2 (by decide)]
      rfl⟩

/-! ## Default command -/

/-- C10, the claim as written fails: a handler that vetoes the event and then
skips it leaves the event unhandled, and `OnDefaultCommand` answers `S_FALSE`
although the event was vetoed. -/
theorem C10_veto_of_unhandled_event_ignored :
    (hostVetoingAndSkipping.ProcessWindowEvent
        (eventFor hostVetoingAndSkipping wxEventType.wxEVT_EXPLORER_BROWSER_DEFAULT_COMMAND
          { m_type := File, m_path := "C:\\a.txt", m_displayName := "a",
            m_SFGAO := SFGAO_FILESYSTEM ||| SFGAO_STREAM })).2.IsAllowed = false
      ∧ OnDefaultCommand hostVetoingAndSkipping
          (browserWithSelection (shellItem (SFGAO_FILESYSTEM ||| SFGAO_STREAM) "C:\\a.txt" "a"))
        = (S_FALSE,
            [eventFor hostVetoingAndSkipping wxEventType.wxEVT_EXPLORER_BROWSER_DEFAULT_COMMAND
              { m_type := File, m_path := "C:\\a.txt", m_displayName := "a",
                m_SFGAO := SFGAO_FILESYSTEM ||| SFGAO_STREAM }])
      ∧ ¬ (∀ (m_host : wxWindow) (eb : IExplorerBrowser) (ebi : wxExplorerBrowserItem),
            _GetSelectedItem eb {} = (true, ebi) →
            (m_host.ProcessWindowEvent
              (eventFor m_host wxEventType.wxEVT_EXPLORER_BROWSER_DEFAULT_COMMAND ebi)).2.IsAllowed
              = false →
            (OnDefaultCommand m_host eb).1 = S_OK) := by
  refine ⟨by decide, by decide, fun h => ?_⟩
  have h1 := h hostVetoingAndSkipping
    (browserWithSelection (shellItem (SFGAO_FILESYSTEM ||| SFGAO_STREAM) "C:\\a.txt" "a"))
    { m_type := File, m_path := "C:\\a.txt", m_displayName := "a",
      m_SFGAO := SFGAO_FILESYSTEM ||| SFGAO_STREAM }
    (by decide) (by decide)
  revert h1
  decide

/-- C10, amended: when an item is selected, `OnDefaultCommand` hands the host
exactly one `DefaultCommand` event carrying that item; it answers `S_OK` if the
host reports the event as handled and leaves it vetoed, and `S_FALSE` in every
other case, in particular whenever the event is left allowed. -/
theorem C10_veto_suppresses_default (m_host : wxWindow) (eb : IExplorerBrowser)
    (ebi : wxExplorerBrowserItem) (hsel : _GetSelectedItem eb {} = (true, ebi)) :
    (OnDefaultCommand m_host eb).2
        = [eventFor m_host wxEventType.wxEVT_EXPLORER_BROWSER_DEFAULT_COMMAND ebi]
      ∧ (((m_host.ProcessWindowEvent
              (eventFor m_host wxEventType.wxEVT_EXPLORER_BROWSER_DEFAULT_COMMAND ebi)).1 = true
            ∧ (m_host.ProcessWindowEvent
              (eventFor m_host wxEventType.wxEVT_EXPLORER_BROWSER_DEFAULT_COMMAND ebi)).2.IsAllowed
              = false) →
          (OnDefaultCommand m_host eb).1 = S_OK)
      ∧ (¬ ((m_host.ProcessWindowEvent
              (eventFor m_host wxEventType.wxEVT_EXPLORER_BROWSER_DEFAULT_COMMAND ebi)).1 = true
            ∧ (m_host.ProcessWindowEvent
              (eventFor m_host wxEventType.wxEVT_EXPLORER_BROWSER_DEFAULT_COMMAND ebi)).2.IsAllowed
              = false) →
          (OnDefaultCommand m_host eb).1 = S_FALSE)
      ∧ ((m_host.ProcessWindowEvent
              (eventFor m_host wxEventType.wxEVT_EXPLORER_BROWSER_DEFAULT_COMMAND ebi)).2.IsAllowed
              = true →
          (OnDefaultCommand m_host eb).1 = S_FALSE) := by
  have hres : OnDefaultCommand m_host eb =
      (if (_SendNotifyEvent m_host wxEventType.wxEVT_EXPLORER_BROWSER_DEFAULT_COMMAND ebi).1
        then S_FALSE else S_OK,
       (_SendNotifyEvent m_host wxEventType.wxEVT_EXPLORER_BROWSER_DEFAULT_COMMAND ebi).2) := by
    unfold OnDefaultCommand
    rw [hsel]
    simp only [if_true]
    cases (_SendNotifyEvent m_host wxEventType.wxEVT_EXPLORER_BROWSER_DEFAULT_COMMAND ebi).1
      <;> simp
  rw [hres, _SendNotifyEvent_sent, _SendNotifyEvent_answer]
  refine ⟨rfl, ?_, ?_, ?_⟩
  · rintro ⟨hh, ha⟩
    simp [hh, ha]
  · intro hn
    cases hh : (m_host.ProcessWindowEvent
        (eventFor m_host wxEventType.wxEVT_EXPLORER_BROWSER_DEFAULT_COMMAND ebi)).1 <;>
      cases ha : (m_host.ProcessWindowEvent
        (eventFor m_host wxEventType.wxEVT_EXPLORER_BROWSER_DEFAULT_COMMAND ebi)).2.IsAllowed <;>
      simp_all
  · intro ha
    simp [ha]

/-- C10, amended, at a selected file with a handler that vetoes and with one
that does not. -/
theorem C10_veto_suppresses_default_witness :
    (OnDefaultCommand hostVetoing
        (browserWithSelection (shellItem (SFGAO_FILESYSTEM ||| SFGAO_STREAM) "C:\\a.txt" "a"))).1
        = S_OK
      ∧ (OnDefaultCommand hostAllowing
        (browserWithSelection (shellItem (SFGAO_FILESYSTEM ||| SFGAO_STREAM) "C:\\a.txt" "a"))).1
        = S_FALSE :=
  ⟨(C10_veto_suppresses_default hostVetoing
      (browserWithSelection (shellItem (SFGAO_FILESYSTEM ||| SFGAO_STREAM) "C:\\a.txt" "a"))
      { m_type := File, m_path := "C:\\a.txt", m_displayName := "a",
        m_SFGAO := SFGAO_FILESYSTEM ||| SFGAO_STREAM }
      (by decide)).2.1 ⟨by decide, by decide⟩,
    (C10_veto_suppresses_default hostAllowing
      (browserWithSelection (shellItem (SFGAO_FILESYSTEM ||| SFGAO_STREAM) "C:\\a.txt" "a"))
      { m_type := File, m_path := "C:\\a.txt", m_displayName := "a",
        m_SFGAO := SFGAO_FILESYSTEM ||| SFGAO_STREAM }
      (by decide)).2.2.2 (by decide)⟩

/-! ## Navigation pending -/

/-- What `OnNavigationPending` does when the target converts to `ebi`. -/
theorem OnNavigationPending_converted (m_host : wxWindow) (pidlFolder : PCIDLIST_ABSOLUTE)
    (ebi : wxExplorerBrowserItem)
    (h : _PPIDL2wxExplorerBrowserItem pidlFolder {} = (true, ebi)) :
    OnNavigationPending m_host pidlFolder =
      (if (_SendNotifyEvent m_host wxEventType.wxEVT_EXPLORER_BROWSER_NAVIGATING ebi).1
        then S_OK else E_FAIL,
       [eventFor m_host wxEventType.wxEVT_EXPLORER_BROWSER_NAVIGATING ebi]) := by
  unfold OnNavigationPending _SendNotifyEvent_pidl
  rw [h]
  simp only [if_true]
  rw [← _SendNotifyEvent_sent]
  cases (_SendNotifyEvent m_host wxEventType.wxEVT_EXPLORER_BROWSER_NAVIGATING ebi).1 <;> simp

/-- What `OnNavigationPending` does when the target does not convert. -/
theorem OnNavigationPending_unconverted (m_host : wxWindow) (pidlFolder : PCIDLIST_ABSOLUTE)
    (h : (_PPIDL2wxExplorerBrowserItem pidlFolder {}).1 = false) :
    OnNavigationPending m_host pidlFolder = (E_FAIL, []) := by
  unfold OnNavigationPending _SendNotifyEvent_pidl
  simp [h]

/-- C11, the claim as written fails: when the target cannot be converted to an
item, `OnNavigationPending` answers `E_FAIL` without sending any event, so no
handler vetoed; and a handler that vetoes and skips gets `S_OK`. -/
theorem C11_fails_without_veto :
    OnNavigationPending hostAllowing (some { item := (E_FAIL, none) }) = (E_FAIL, [])
      ∧ OnNavigationPending hostAllowing none = (E_FAIL, [])
      ∧ (OnNavigationPending hostVetoingAndSkipping
          (some { item := (S_OK, some (shellItem (SFGAO_FILESYSTEM ||| SFGAO_FOLDER)
            "C:\\work" "work")) })).1 = S_OK
      ∧ ¬ (∀ (m_host : wxWindow) (pidlFolder : PCIDLIST_ABSOLUTE),
            (OnNavigationPending m_host pidlFolder).1 = E_FAIL ↔
              ∃ evt ∈ (OnNavigationPending m_host pidlFolder).2,
                (m_host.ProcessWindowEvent evt).2.IsAllowed = false) := by
  refine ⟨by decide, by decide, by decide, fun h => ?_⟩
  have h1 := (h hostAllowing none).1 (by decide)
  obtain ⟨evt, hmem, _⟩ := h1
  have h2 : (OnNavigationPending hostAllowing none).2 = [] := by decide
  rw [h2] at hmem
  exact absurd hmem (List.not_mem_nil evt)

/-- C11, amended: when the target converts to an item, `OnNavigationPending`
hands the host one `Navigating` event carrying it and answers `E_FAIL` exactly
when the host reports the event as handled and leaves it vetoed, `S_OK`
otherwise; when the target does not convert, it answers `E_FAIL` and sends no
event. -/
theorem C11_navigation_pending (m_host : wxWindow) (pidlFolder : PCIDLIST_ABSOLUTE)
    (ebi : wxExplorerBrowserItem)
    (h : _PPIDL2wxExplorerBrowserItem pidlFolder {} = (true, ebi)) :
    (OnNavigationPending m_host pidlFolder).2
        = [eventFor m_host wxEventType.wxEVT_EXPLORER_BROWSER_NAVIGATING ebi]
      ∧ ((OnNavigationPending m_host pidlFolder).1 = E_FAIL ↔
          ((m_host.ProcessWindowEvent
              (eventFor m_host wxEventType.wxEVT_EXPLORER_BROWSER_NAVIGATING ebi)).1 = true
            ∧ (m_host.ProcessWindowEvent
              (eventFor m_host wxEventType.wxEVT_EXPLORER_BROWSER_NAVIGATING ebi)).2.IsAllowed
              = false))
      ∧ ((OnNavigationPending m_host pidlFolder).1 = S_OK ↔
          ¬ ((m_host.ProcessWindowEvent
              (eventFor m_host wxEventType.wxEVT_EXPLORER_BROWSER_NAVIGATING ebi)).1 = true
            ∧ (m_host.ProcessWindowEvent
              (eventFor m_host wxEventType.wxEVT_EXPLORER_BROWSER_NAVIGATING ebi)).2.IsAllowed
              = false))
      ∧ (∀ other : PCIDLIST_ABSOLUTE, (_PPIDL2wxExplorerBrowserItem other {}).1 = false →
          OnNavigationPending m_host other = (E_FAIL, [])) := by
  rw [OnNavigationPending_converted m_host pidlFolder ebi h, _SendNotifyEvent_answer]
  refine ⟨rfl, ?_, ?_, fun other ho => OnNavigationPending_unconverted m_host other ho⟩
  · cases (m_host.ProcessWindowEvent
        (eventFor m_host wxEventType.wxEVT_EXPLORER_BROWSER_NAVIGATING ebi)).1 <;>
      cases (m_host.ProcessWindowEvent
        (eventFor m_host wxEventType.wxEVT_EXPLORER_BROWSER_NAVIGATING ebi)).2.IsAllowed <;>
      simp [S_OK, E_FAIL]
  · cases (m_host.ProcessWindowEvent
        (eventFor m_host wxEventType.wxEVT_EXPLORER_BROWSER_NAVIGATING ebi)).1 <;>
      cases (m_host.ProcessWindowEvent
        (eventFor m_host wxEventType.wxEVT_EXPLORER_BROWSER_NAVIGATING ebi)).2.IsAllowed <;>
      simp [S_OK, E_FAIL]

/-- C11, amended, at a folder the host vetoes, the host allows, and at a target
that cannot be resolved. -/
theorem C11_navigation_pending_witness :
    (OnNavigationPending hostVetoing
        (some { item := (S_OK, some (shellItem (SFGAO_FILESYSTEM ||| SFGAO_FOLDER)
          "C:\\work" "work")) })).1 = E_FAIL
      ∧ (OnNavigationPending hostAllowing
        (some { item := (S_OK, some (shellItem (SFGAO_FILESYSTEM ||| SFGAO_FOLDER)
          "C:\\work" "work")) })).1 = S_OK
      ∧ OnNavigationPending hostAllowing (some { item := (E_FAIL, none) }) = (E_FAIL, []) :=
  ⟨(C11_navigation_pending hostVetoing
      (some { item := (S_OK, some (shellItem (SFGAO_FILESYSTEM ||| SFGAO_FOLDER)
        "C:\\work" "work")) })
      { m_type := Directory, m_path := "C:\\work", m_displayName := "work",
        m_SFGAO := SFGAO_FILESYSTEM ||| SFGAO_FOLDER }
      (by decide)).2.1.2 ⟨by decide, by decide⟩,
    (C11_navigation_pending hostAllowing
      (some { item := (S_OK, some (shellItem (SFGAO_FILESYSTEM ||| SFGAO_FOLDER)
        "C:\\work" "work")) })
      { m_type := Directory, m_path := "C:\\work", m_displayName := "work",
        m_SFGAO := SFGAO_FILESYSTEM ||| SFGAO_FOLDER }
      (by decide)).2.2.1.2 (by decide),
    (C11_navigation_pending hostAllowing
      (some { item := (S_OK, some (shellItem (SFGAO_FILESYSTEM ||| SFGAO_FOLDER)
        "C:\\work" "work")) })
      { m_type := Directory, m_path := "C:\\work", m_displayName := "work",
        m_SFGAO := SFGAO_FILESYSTEM ||| SFGAO_FOLDER }
      (by decide)).2.2.2 (some { item := (E_FAIL, none) }) (by decide)⟩

/-! ## Context menu -/

/-- C13: `GetViewFlags` succeeds in every filter state; the flags contain
`CDB2GVF_NOSELECTVERB`, they contain `CDB2GVF_NOINCLUDEITEM` exactly when the
mask list is empty, and they contain no other flag. -/
theorem C13_view_flags (self : wxExplorerBrowserImplHelper) :
    (GetViewFlags self).1 = S_OK
      ∧ hasAttr (GetViewFlags self).2 CDB2GVF_NOSELECTVERB = true
      ∧ (hasAttr (GetViewFlags self).2 CDB2GVF_NOINCLUDEITEM = true ↔ self.m_filterMasks = [])
      ∧ (GetViewFlags self).2 &&& (CDB2GVF_NOSELECTVERB ||| CDB2GVF_NOINCLUDEITEM)
          = (GetViewFlags self).2
      ∧ ((GetViewFlags self).2 = CDB2GVF_NOSELECTVERB
          ∨ (GetViewFlags self).2 = CDB2GVF_NOSELECTVERB ||| CDB2GVF_NOINCLUDEITEM) := by
  unfold GetViewFlags
  cases hm : self.m_filterMasks with
  | nil => simp only [List.isEmpty_nil, if_true]; decide
  | cons a l =>
    simp only [List.isEmpty_cons, Bool.false_eq_true, if_false]
    refine ⟨trivial, by decide, ?_, by decide, Or.inl trivial⟩
    simp only [reduceCtorEq, iff_false]
    decide

/-! ## Service lookup -/

/-- `QueryInterface` for an interface the helper implements: success, a pointer
to the helper, one more reference. -/
theorem QueryInterface_implemented (self : wxExplorerBrowserImplHelper) (riid : IID)
    (h : ∀ guid, riid ≠ IID.other guid) :
    ∃ itf, QueryInterface self riid = (S_OK, some itf, (AddRef self).2) := by
  unfold QueryInterface
  cases riid with
  | other guid => exact absurd rfl (h guid)
  | _ => simp

/-- C14: for the browser-frame service and the pane-visibility service
`QueryService` is `QueryInterface`, which for an interface the helper
implements succeeds with a pointer to the helper; for every other service
identifier it answers `E_NOINTERFACE`, writes a null pointer and leaves the
helper, its reference count included, as it was. -/
theorem C14_query_service (self : wxExplorerBrowserImplHelper) (guidService : SID)
    (riid : IID)
    (hother : guidService ≠ SID.SID_SExplorerBrowserFrame
      ∧ guidService ≠ SID.SID_ExplorerPaneVisibility) :
    QueryService self guidService riid = (E_NOINTERFACE, none, self)
      ∧ (QueryService self guidService riid).2.2.m_refCount = self.m_refCount
      ∧ (∀ known ∈ [SID.SID_SExplorerBrowserFrame, SID.SID_ExplorerPaneVisibility],
          QueryService self known riid = QueryInterface self riid
            ∧ ((∀ guid, riid ≠ IID.other guid) →
                ∃ itf, QueryService self known riid = (S_OK, some itf, (AddRef self).2))) := by
  have h1 : QueryService self guidService riid = (E_NOINTERFACE, none, self) := by
    unfold QueryService
    simp [hother.1, hother.2]
  refine ⟨h1, by rw [h1], ?_⟩
  intro known hk
  have hq : QueryService self known riid = QueryInterface self riid := by
    unfold QueryService
    simp only [List.mem_cons, List.mem_singleton, List.not_mem_nil, or_false] at hk
    simp [hk]
  exact ⟨hq, fun himpl => by rw [hq]; exact QueryInterface_implemented self riid himpl⟩

/-- C14 at an unknown service, and at the pane-visibility service asked for the
pane-visibility interface. -/
theorem C14_query_service_witness :
    QueryService (construct 0) (SID.other 42) IID.IID_IExplorerPaneVisibility
        = (E_NOINTERFACE, none, construct 0)
      ∧ QueryService (construct 0) SID.SID_ExplorerPaneVisibility
          IID.IID_IExplorerPaneVisibility
        = (S_OK, some Interface.IExplorerPaneVisibility,
            { construct 0 with m_refCount := 2 }) :=
  ⟨(C14_query_service (construct 0) (SID.other 42) IID.IID_IExplorerPaneVisibility
      ⟨by decide, by decide⟩).1,
    by decide⟩

/-! ## Pane settings -/

/-- What `GetPaneState` answers for the shell's identifier of a pane. -/
theorem GetPaneState_paneGuid (self : wxExplorerBrowserImplHelper) (pane : PaneID)
    (peps : Nat) :
    GetPaneState self (paneGuid pane) peps = (S_OK, self.m_paneSettings.GetFlags pane) := by
  cases pane <;> rfl

end wxExplorerBrowserImplHelper

/-! ## The control -/

open wxExplorerBrowserImplHelper

/-- C16: after `SetPaneSettings(s)` on a control that owns a helper,
`GetPaneState` succeeds for each of the ten pane identifiers and returns the
entry of `s` for that pane; and in `PaneSettings` itself, `GetFlags(pane)`
after `SetFlags(pane, flags)` is `flags` while the entry of any other pane is
unchanged. -/
theorem C16_pane_round_trip (self : wxExplorerBrowser) (impl : wxExplorerBrowserImpl)
    (helper : wxExplorerBrowserImplHelper) (s : PaneSettings) (pane other : PaneID)
    (flags : Nat)
    (himpl : self.m_impl = some impl) (hhelper : impl.m_explorerBrowserHelper = some helper)
    (hne : other ≠ pane) :
    (self.SetPaneSettings s).1 = true
      ∧ helperOf (self.SetPaneSettings s).2 = some { helper with m_paneSettings := s }
      ∧ (∀ (p : PaneID) (peps : Nat),
          GetPaneState { helper with m_paneSettings := s } (paneGuid p) peps
            = (S_OK, s.GetFlags p))
      ∧ (s.SetFlags pane flags).GetFlags pane = flags
      ∧ (s.SetFlags pane flags).GetFlags other = s.GetFlags other := by
  refine ⟨?_, ?_, fun p peps => GetPaneState_paneGuid _ p peps, ?_, ?_⟩
  · unfold wxExplorerBrowser.SetPaneSettings wxExplorerBrowserImpl.SetPaneSettings
      _SetPaneSettings
    simp [himpl, hhelper]
  · unfold wxExplorerBrowser.SetPaneSettings wxExplorerBrowserImpl.SetPaneSettings
      _SetPaneSettings helperOf
    simp [himpl, hhelper]
  · unfold PaneSettings.SetFlags PaneSettings.GetFlags
    simp
  · unfold PaneSettings.SetFlags PaneSettings.GetFlags
    simp [hne]

/-- C16 at a created control: the navigation pane forced off, the status bar
left alone. -/
theorem C16_pane_round_trip_witness :
    (∀ (p : PaneID) (peps : Nat),
        GetPaneState
          { construct 0 with
            m_paneSettings :=
              ({} : PaneSettings).SetFlags PaneID.EP_NavPane (EPS_DEFAULT_OFF ||| EPS_FORCE) }
          (paneGuid p) peps
          = (S_OK, (({} : PaneSettings).SetFlags PaneID.EP_NavPane
              (EPS_DEFAULT_OFF ||| EPS_FORCE)).GetFlags p))
      ∧ (({} : PaneSettings).SetFlags PaneID.EP_NavPane
          (EPS_DEFAULT_OFF ||| EPS_FORCE)).GetFlags PaneID.EP_NavPane
          = EPS_DEFAULT_OFF ||| EPS_FORCE
      ∧ (({} : PaneSettings).SetFlags PaneID.EP_NavPane
          (EPS_DEFAULT_OFF ||| EPS_FORCE)).GetFlags PaneID.EP_StatusBar = EPS_DONTCARE :=
  ⟨(C16_pane_round_trip (createdBrowser 0)
      { m_explorerBrowser := true, m_explorerBrowserHelper := some (construct 0),
        m_adviseCookie := 1 }
      (construct 0)
      (({} : PaneSettings).SetFlags PaneID.EP_NavPane (EPS_DEFAULT_OFF ||| EPS_FORCE))
      PaneID.EP_NavPane PaneID.EP_StatusBar (EPS_DEFAULT_OFF ||| EPS_FORCE)
      rfl rfl (by decide)).2.2.1,
    (C16_pane_round_trip (createdBrowser 0)
      { m_explorerBrowser := true, m_explorerBrowserHelper := some (construct 0),
        m_adviseCookie := 1 }
      (construct 0) {} PaneID.EP_NavPane PaneID.EP_StatusBar (EPS_DEFAULT_OFF ||| EPS_FORCE)
      rfl rfl (by decide)).2.2.2.1,
    (C16_pane_round_trip (createdBrowser 0)
      { m_explorerBrowser := true, m_explorerBrowserHelper := some (construct 0),
        m_adviseCookie := 1 }
      (construct 0) {} PaneID.EP_NavPane PaneID.EP_StatusBar (EPS_DEFAULT_OFF ||| EPS_FORCE)
      rfl rfl (by decide)).2.2.2.2⟩

/-! ### Setting and removing the filter -/

/-- What `SetFilter` does to a control that owns a helper, for a non-zero type
mask: the upper-cased masks are added behind the masks already there. -/
theorem SetFilter_helper (self : wxExplorerBrowser) (impl : wxExplorerBrowserImpl)
    (helper : wxExplorerBrowserImplHelper) (fileMasks : List String) (itemTypes : Nat)
    (himpl : self.m_impl = some impl) (hhelper : impl.m_explorerBrowserHelper = some helper)
    (htypes : itemTypes ≠ 0) :
    (self.SetFilter fileMasks itemTypes).1 = true
      ∧ helperOf (self.SetFilter fileMasks itemTypes).2
          = some { helper with
                   m_filterMasks := helper.m_filterMasks ++ fileMasks.map Upper,
                   m_filterTypes := itemTypes } := by
  unfold wxExplorerBrowser.SetFilter wxExplorerBrowserImpl.SetFilter _SetFilter helperOf
  simp [himpl, hhelper, htypes, foldl_push_Upper]

/-- C17, the code at the failing input: on a created control, `SetFilter` with
`*.doc` followed by `SetFilter` with `*.txt` leaves both masks active, so the
file `a.doc` is still accepted; only the type mask is replaced. -/
theorem C17_earlier_masks_remain :
    helperOf (((createdBrowser 0).SetFilter ["*.doc"] File.toNat).2.SetFilter ["*.txt"]
        Directory.toNat).2
      = some { construct 0 with
               m_filterMasks := ["*.DOC", "*.TXT"], m_filterTypes := Directory.toNat }
      ∧ helperOf (((createdBrowser 0).SetFilter ["*.doc"] File.toNat).2.SetFilter ["*.txt"]
          File.toNat).2
        = some { construct 0 with
                 m_filterMasks := ["*.DOC", "*.TXT"], m_filterTypes := File.toNat }
      ∧ ShouldShow
          { construct 0 with m_filterMasks := ["*.DOC", "*.TXT"], m_filterTypes := File.toNat }
          (folderOf (shellItem (SFGAO_FILESYSTEM ||| SFGAO_STREAM) "C:\\work\\a.doc" "a.doc")) 0
        = S_OK
      ∧ ShouldShow
          { construct 0 with m_filterMasks := ["*.TXT"], m_filterTypes := File.toNat }
          (folderOf (shellItem (SFGAO_FILESYSTEM ||| SFGAO_STREAM) "C:\\work\\a.doc" "a.doc")) 0
        = S_FALSE := by
  refine ⟨by decide, by decide, by decide, by decide⟩

/-- C18: after `RemoveFilter` on a control that owns a helper, whatever its
filter was, the mask list is empty, `ShouldShow` accepts every candidate and
`GetViewFlags` advertises `CDB2GVF_NOINCLUDEITEM`. -/
theorem C18_remove_filter (self : wxExplorerBrowser) (impl : wxExplorerBrowserImpl)
    (helper : wxExplorerBrowserImplHelper) (psf : IShellFolder) (pidlItem : PCUITEMID_CHILD)
    (himpl : self.m_impl = some impl) (hhelper : impl.m_explorerBrowserHelper = some helper) :
    self.RemoveFilter.1 = true
      ∧ helperOf self.RemoveFilter.2 = some { helper with m_filterMasks := [] }
      ∧ ShouldShow { helper with m_filterMasks := [] } psf pidlItem = S_OK
      ∧ hasAttr (GetViewFlags { helper with m_filterMasks := [] }).2 CDB2GVF_NOINCLUDEITEM
          = true := by
  refine ⟨?_, ?_, ?_, ?_⟩
  · unfold wxExplorerBrowser.RemoveFilter wxExplorerBrowserImpl.RemoveFilter _RemoveFilter
    simp [himpl, hhelper]
  · unfold wxExplorerBrowser.RemoveFilter wxExplorerBrowserImpl.RemoveFilter _RemoveFilter
      helperOf
    simp [himpl, hhelper]
  · rw [ShouldShow_eq]
    simp
  · unfold GetViewFlags
    simp only [List.isEmpty_nil, if_true]
    decide

/-- C18 at a control filtering word-processor documents, asked afterwards about
a text file. -/
theorem C18_remove_filter_witness :
    helperOf scenarioBrowser.RemoveFilter.2 = some { construct 0 with m_filterTypes := 1 }
      ∧ ShouldShow { construct 0 with m_filterTypes := 1 }
          (folderOf (shellItem (SFGAO_FILESYSTEM ||| SFGAO_STREAM) "C:\\work\\b.txt" "b.txt")) 0
        = S_OK
      ∧ (GetViewFlags { construct 0 with m_filterTypes := 1 }).2
          = CDB2GVF_NOSELECTVERB ||| CDB2GVF_NOINCLUDEITEM :=
  ⟨by decide,
    (C18_remove_filter scenarioBrowser
      { m_explorerBrowser := true,
        m_explorerBrowserHelper := some
          { construct 0 with m_filterMasks := ["*.DOC*", "*.RTF"], m_filterTypes := 1 },
        m_adviseCookie := 1 }
      { construct 0 with m_filterMasks := ["*.DOC*", "*.RTF"], m_filterTypes := 1 }
      (folderOf (shellItem (SFGAO_FILESYSTEM ||| SFGAO_STREAM) "C:\\work\\b.txt" "b.txt")) 0
      (by decide) rfl).2.2.1,
    by decide⟩

/-! ### Item lists -/

/-- C20: in the scenario (masks `*.DOC*` and `*.RTF` for files; folder with
`a.doc`, `b.txt`, `c.rtf` and subfolder `d`) the item filter accepts `a.doc`,
`c.rtf` and `d` and hides `b.txt`, and `GetAllItems` for files and directories
over the items shown returns `a.doc`, `c.rtf` and `d`, without `b.txt`. -/
theorem C20_filter_scenario :
    helperOf scenarioBrowser
        = some { construct 0 with
                 m_filterMasks := ["*.DOC*", "*.RTF"], m_filterTypes := File.toNat }
      ∧ scenarioChildren.map (fun item =>
          ShouldShow
            { construct 0 with m_filterMasks := ["*.DOC*", "*.RTF"], m_filterTypes := File.toNat }
            (folderOf item) 0)
        = [S_OK, S_FALSE, S_OK, S_OK]
      ∧ scenarioBrowser.GetAllItems
          (browserShowing
            (shownItems
              { construct 0 with
                m_filterMasks := ["*.DOC*", "*.RTF"], m_filterTypes := File.toNat }
              scenarioChildren) [])
          [] (File.toNat ||| Directory.toNat)
        = (true, [{ m_type := File, m_path := "C:\\work\\a.doc", m_displayName := "a.doc",
                    m_SFGAO := SFGAO_FILESYSTEM ||| SFGAO_STREAM },
                  { m_type := File, m_path := "C:\\work\\c.rtf", m_displayName := "c.rtf",
                    m_SFGAO := SFGAO_FILESYSTEM ||| SFGAO_STREAM },
                  { m_type := Directory, m_path := "C:\\work\\d", m_displayName := "d",
                    m_SFGAO := SFGAO_FILESYSTEM ||| SFGAO_FOLDER }]) := by
  refine ⟨by decide, by decide, by decide⟩

/-! ## Selection changes, continued -/

/-- A conversion that fails leaves the output item as it was. -/
theorem conversion_failed_unchanged (item : Option IShellItem) (ebi : wxExplorerBrowserItem)
    (h : (_IShellItem2wxExplorerBrowserItem item ebi).1 = false) :
    (_IShellItem2wxExplorerBrowserItem item ebi).2 = ebi := by
  unfold _IShellItem2wxExplorerBrowserItem at h ⊢
  cases item with
  | none => rfl
  | some it =>
    simp only at h ⊢
    split
    · rfl
    · rename_i hattr
      simp only [hattr, if_false] at h
      split
      · rfl
      · rename_i hname
        simp [hname] at h

/-- When `_GetSelectedItem` succeeds or fails, in terms of its four steps. -/
theorem _GetSelectedItem_failed_iff (eb : IExplorerBrowser) (ebi : wxExplorerBrowserItem) :
    (_GetSelectedItem eb ebi).1 = false ↔
      (FAILED eb.GetCurrentView.1 = true
        ∨ (eb.GetCurrentView.2.GetSelectedItem (-1)).1 ≠ S_OK
        ∨ FAILED (eb.GetCurrentView.2.GetItem
            (eb.GetCurrentView.2.GetSelectedItem (-1)).2).1 = true
        ∨ (_IShellItem2wxExplorerBrowserItem
            (eb.GetCurrentView.2.GetItem
              (eb.GetCurrentView.2.GetSelectedItem (-1)).2).2 ebi).1 = false) := by
  unfold _GetSelectedItem
  simp only
  by_cases h1 : FAILED eb.GetCurrentView.1 = true
  · simp [h1]
  · by_cases h2 : (eb.GetCurrentView.2.GetSelectedItem (-1)).1 = S_OK
    · by_cases h3 : FAILED (eb.GetCurrentView.2.GetItem
          (eb.GetCurrentView.2.GetSelectedItem (-1)).2).1 = true
      · simp [h1, h2, h3]
      · simp [h1, h2, h3]
    · simp [h1, h2]

/-- A failed lookup of the selected item leaves the output item as it was. -/
theorem _GetSelectedItem_failed_unchanged (eb : IExplorerBrowser)
    (ebi : wxExplorerBrowserItem) (h : (_GetSelectedItem eb ebi).1 = false) :
    (_GetSelectedItem eb ebi).2 = ebi := by
  unfold _GetSelectedItem at h ⊢
  simp only at h ⊢
  split
  · rfl
  · split
    · rfl
    · split
      · rfl
      · rename_i h1 h2 h3
        simp only [h1, h2, h3, if_false] at h
        exact conversion_failed_unchanged _ ebi h

/-- C21: whenever the selected item cannot be looked up, be it that the view
cannot be obtained, nothing is selected, the item cannot be fetched or its
conversion fails, the item `OnStateChange` works with is the freshly
constructed one: kind `Unknown`, empty path, empty display name, attribute mask
0; an event that is sent carries this item and the guard remembers it. A failed
conversion leaves every field of its output item as it was. -/
theorem C21_empty_selection_item (self : wxExplorerBrowserImplHelper) (m_host : wxWindow)
    (eb : IExplorerBrowser) (tick : Nat)
    (hfail : FAILED eb.GetCurrentView.1 = true
        ∨ (eb.GetCurrentView.2.GetSelectedItem (-1)).1 ≠ S_OK
        ∨ FAILED (eb.GetCurrentView.2.GetItem
            (eb.GetCurrentView.2.GetSelectedItem (-1)).2).1 = true
        ∨ (_IShellItem2wxExplorerBrowserItem
            (eb.GetCurrentView.2.GetItem
              (eb.GetCurrentView.2.GetSelectedItem (-1)).2).2 {}).1 = false) :
    (_GetSelectedItem eb {}).2
        = { m_type := Unknown, m_path := "", m_displayName := "", m_SFGAO := 0 }
      ∧ (OnStateChange self m_host eb tick CDBOSC_SELCHANGE = (S_OK, self, [])
          ∨ OnStateChange self m_host eb tick CDBOSC_SELCHANGE =
              (S_OK,
               { self with m_prevChangeSelEventData :=
                   { m_timeCreated := tick,
                     m_item := { m_type := Unknown, m_path := "", m_displayName := "",
                                 m_SFGAO := 0 } } },
               [eventFor m_host wxEventType.wxEVT_EXPLORER_BROWSER_SELECTION_CHANGED
                 { m_type := Unknown, m_path := "", m_displayName := "", m_SFGAO := 0 }]))
      ∧ (∀ (item : Option IShellItem) (ebi : wxExplorerBrowserItem),
          (_IShellItem2wxExplorerBrowserItem item ebi).1 = false →
          (_IShellItem2wxExplorerBrowserItem item ebi).2 = ebi) := by
  have hitem : (_GetSelectedItem eb {}).2 = {} :=
    _GetSelectedItem_failed_unchanged eb {} ((_GetSelectedItem_failed_iff eb {}).2 hfail)
  refine ⟨hitem, ?_, fun item ebi h => conversion_failed_unchanged item ebi h⟩
  cases hd : ChangeSelEventData.IsDoubled
      { m_timeCreated := tick, m_item := (_GetSelectedItem eb {}).2 }
      self.m_prevChangeSelEventData
  · right
    rw [OnStateChange_fresh self m_host eb tick hd, hitem]
  · left
    exact OnStateChange_doubled self m_host eb tick hd

/-- C21 at a view without selection, reported to a helper whose guard holds a
file. -/
theorem C21_empty_selection_item_witness :
    (OnStateChange
        { m_prevChangeSelEventData :=
            { m_timeCreated := 0,
              m_item := { m_type := File, m_path := "C:\\a.txt", m_displayName := "a",
                          m_SFGAO := SFGAO_FILESYSTEM ||| SFGAO_STREAM } } }
        hostAllowing browserWithoutSelection 10 CDBOSC_SELCHANGE).2.2
      = [{ m_eventType := wxEventType.wxEVT_EXPLORER_BROWSER_SELECTION_CHANGED, m_id := 1,
           m_item := { m_type := Unknown, m_path := "", m_displayName := "", m_SFGAO := 0 } }]
      ∧ (_GetSelectedItem browserWithoutSelection {}).2
          = { m_type := Unknown, m_path := "", m_displayName := "", m_SFGAO := 0 } :=
  ⟨by decide,
    (C21_empty_selection_item (construct 0) hostAllowing browserWithoutSelection 10
      (Or.inr (Or.inl (by decide)))).1⟩

/-- C25, the code at the failing input: an item for which the shell reports the
file-system bit alone and a file-system path converts to kind `Other` with the
path stored, and one with the stream bit alone likewise; the path is stored
whenever the shell answers the path query, whatever the kind. -/
theorem C25_path_stored_for_other_kind :
    _IShellItem2wxExplorerBrowserItem
        (some (shellItem SFGAO_FILESYSTEM "C:\\pagefile.sys" "pagefile.sys")) {}
      = (true, { m_type := Other, m_path := "C:\\pagefile.sys",
                 m_displayName := "pagefile.sys", m_SFGAO := SFGAO_FILESYSTEM })
      ∧ _IShellItem2wxExplorerBrowserItem
        (some (shellItem SFGAO_STREAM "C:\\work\\a.zip\\b.txt" "b.txt")) {}
      = (true, { m_type := Other, m_path := "C:\\work\\a.zip\\b.txt",
                 m_displayName := "b.txt", m_SFGAO := SFGAO_STREAM })
      ∧ _IShellItem2wxExplorerBrowserItem
        (some (shellItem 0 "C:\\Users\\Public" "Public")) {}
      = (true, { m_type := Unknown, m_path := "C:\\Users\\Public",
                 m_displayName := "Public", m_SFGAO := 0 }) := by
  refine ⟨by decide, by decide, by decide⟩

/-- C26: the guard holds the last notification that was sent. A suppressed
notification leaves the helper as it was and a sent one replaces the guard by
itself; so of three notifications of the same item at ticks `t`, `t + 40` and
`t + 80`, the first of which is sent, the second is suppressed and the third
is sent. -/
theorem C26_guard_is_last_emitted (self : wxExplorerBrowserImplHelper) (m_host : wxWindow)
    (eb : IExplorerBrowser) (t : Nat) (ht : t + 80 < 2 ^ 64)
    (hfirst : ChangeSelEventData.IsDoubled
      { m_timeCreated := t, m_item := (_GetSelectedItem eb {}).2 }
      self.m_prevChangeSelEventData = false) :
    (OnStateChange self m_host eb t CDBOSC_SELCHANGE).2.2
        = [eventFor m_host wxEventType.wxEVT_EXPLORER_BROWSER_SELECTION_CHANGED (_GetSelectedItem eb {}).2]
      ∧ (OnStateChange self m_host eb t CDBOSC_SELCHANGE).2.1.m_prevChangeSelEventData
        = { m_timeCreated := t, m_item := (_GetSelectedItem eb {}).2 }
      ∧ OnStateChange (OnStateChange self m_host eb t CDBOSC_SELCHANGE).2.1 m_host eb (t + 40)
          CDBOSC_SELCHANGE
        = (S_OK, (OnStateChange self m_host eb t CDBOSC_SELCHANGE).2.1, [])
      ∧ (OnStateChange (OnStateChange self m_host eb t CDBOSC_SELCHANGE).2.1 m_host eb (t + 80)
          CDBOSC_SELCHANGE).2.2
        = [eventFor m_host wxEventType.wxEVT_EXPLORER_BROWSER_SELECTION_CHANGED (_GetSelectedItem eb {}).2]
      ∧ (OnStateChange (OnStateChange self m_host eb t CDBOSC_SELCHANGE).2.1 m_host eb (t + 80)
          CDBOSC_SELCHANGE).2.1.m_prevChangeSelEventData
        = { m_timeCreated := t + 80, m_item := (_GetSelectedItem eb {}).2 }
      ∧ (∀ (other : wxExplorerBrowserImplHelper) (tick : Nat),
          (OnStateChange other m_host eb tick CDBOSC_SELCHANGE).2.2 = [] →
          (OnStateChange other m_host eb tick CDBOSC_SELCHANGE).2.1 = other)
      ∧ (∀ (other : wxExplorerBrowserImplHelper) (tick : Nat),
          (OnStateChange other m_host eb tick CDBOSC_SELCHANGE).2.2 ≠ [] →
          (OnStateChange other m_host eb tick CDBOSC_SELCHANGE).2.1.m_prevChangeSelEventData
            = { m_timeCreated := tick, m_item := (_GetSelectedItem eb {}).2 }) := by
  have h1 := OnStateChange_fresh self m_host eb t hfirst
  have hd40 : ChangeSelEventData.IsDoubled
      { m_timeCreated := t + 40, m_item := (_GetSelectedItem eb {}).2 }
      { m_timeCreated := t, m_item := (_GetSelectedItem eb {}).2 } = true := by
    rw [IsDoubled_iff _ _ (by simp only; omega) (by simp only; omega)]
    exact ⟨by simp only; omega, rfl, rfl, rfl⟩
  have hd80 : ChangeSelEventData.IsDoubled
      { m_timeCreated := t + 80, m_item := (_GetSelectedItem eb {}).2 }
      { m_timeCreated := t, m_item := (_GetSelectedItem eb {}).2 } = false := by
    cases hd : ChangeSelEventData.IsDoubled
      { m_timeCreated := t + 80, m_item := (_GetSelectedItem eb {}).2 }
      { m_timeCreated := t, m_item := (_GetSelectedItem eb {}).2 }
    · rfl
    · have := ((IsDoubled_iff _ _ (by simp only; omega) (by simp only; omega)).1 hd).1
      simp only at this
      omega
  have hcases : ∀ (other : wxExplorerBrowserImplHelper) (tick : Nat),
      OnStateChange other m_host eb tick CDBOSC_SELCHANGE = (S_OK, other, [])
        ∨ OnStateChange other m_host eb tick CDBOSC_SELCHANGE =
          (S_OK,
            { other with m_prevChangeSelEventData :=
                { m_timeCreated := tick, m_item := (_GetSelectedItem eb {}).2 } },
            [eventFor m_host wxEventType.wxEVT_EXPLORER_BROWSER_SELECTION_CHANGED (_GetSelectedItem eb {}).2]) := by
    intro other tick
    cases hd : ChangeSelEventData.IsDoubled
      { m_timeCreated := tick, m_item := (_GetSelectedItem eb {}).2 }
      other.m_prevChangeSelEventData
    · exact Or.inr (OnStateChange_fresh other m_host eb tick hd)
    · exact Or.inl (OnStateChange_doubled other m_host eb tick hd)
  rw [h1]
  refine ⟨rfl, rfl, ?_, ?_, ?_, ?_, ?_⟩
  · exact OnStateChange_doubled _ m_host eb (t + 40) hd40
  · rw [OnStateChange_fresh _ m_host eb (t + 80) hd80]
  · rw [OnStateChange_fresh _ m_host eb (t + 80) hd80]
  · intro other tick hnil
    rcases hcases other tick with h | h
    · rw [h]
    · rw [h] at hnil
      simp at hnil
  · intro other tick hne
    rcases hcases other tick with h | h
    · rw [h] at hne
      simp at hne
    · rw [h]

/-- C26 at a file selected while the helper, constructed at tick 0, is notified
at ticks 1000, 1040 and 1080. -/
theorem C26_guard_is_last_emitted_witness :
    (OnStateChange (construct 0) hostAllowing
        (browserWithSelection (shellItem (SFGAO_FILESYSTEM ||| SFGAO_STREAM) "C:\\a.txt" "a"))
        1000 CDBOSC_SELCHANGE).2.2.length = 1
      ∧ OnStateChange
          (OnStateChange (construct 0) hostAllowing
            (browserWithSelection
              (shellItem (SFGAO_FILESYSTEM ||| SFGAO_STREAM) "C:\\a.txt" "a"))
            1000 CDBOSC_SELCHANGE).2.1
          hostAllowing
          (browserWithSelection (shellItem (SFGAO_FILESYSTEM ||| SFGAO_STREAM) "C:\\a.txt" "a"))
          (1000 + 40) CDBOSC_SELCHANGE
        = (S_OK,
           (OnStateChange (construct 0) hostAllowing
            (browserWithSelection
              (shellItem (SFGAO_FILESYSTEM ||| SFGAO_STREAM) "C:\\a.txt" "a"))
            1000 CDBOSC_SELCHANGE).2.1, []) := by
  have h := C26_guard_is_last_emitted (construct 0) hostAllowing
    (browserWithSelection (shellItem (SFGAO_FILESYSTEM ||| SFGAO_STREAM) "C:\\a.txt" "a"))
    1000 (by decide) (by decide)
  refine ⟨?_, h.2.2.1⟩
  rw [h.1]
  rfl

/-- C27: a newly constructed helper remembers an empty `Unknown` item stamped
with the tick of its construction. The first selection-changed notification,
arriving at or after that tick, is suppressed exactly when it arrives at most
50 ms later and its item has attribute mask 0, empty path and empty display
name; a first notification whose item has a non-empty display name, a
non-empty path or a non-zero attribute mask is sent. -/
theorem C27_initial_guard (t0 tick : Nat) (m_host : wxWindow) (eb : IExplorerBrowser)
    (hle : t0 ≤ tick) (ht : tick < 2 ^ 64) :
    (construct t0).m_prevChangeSelEventData
        = { m_timeCreated := t0,
            m_item := { m_type := Unknown, m_path := "", m_displayName := "", m_SFGAO := 0 } }
      ∧ ((OnStateChange (construct t0) m_host eb tick CDBOSC_SELCHANGE).2.2 = [] ↔
          (tick - t0 ≤ 50
            ∧ (_GetSelectedItem eb {}).2.GetSFGAO = 0
            ∧ (_GetSelectedItem eb {}).2.GetPath = ""
            ∧ (_GetSelectedItem eb {}).2.GetDisplayName = ""))
      ∧ (((_GetSelectedItem eb {}).2.GetDisplayName ≠ ""
            ∨ (_GetSelectedItem eb {}).2.GetPath ≠ ""
            ∨ (_GetSelectedItem eb {}).2.GetSFGAO ≠ 0) →
          (OnStateChange (construct t0) m_host eb tick CDBOSC_SELCHANGE).2.2
            = [eventFor m_host wxEventType.wxEVT_EXPLORER_BROWSER_SELECTION_CHANGED (_GetSelectedItem eb {}).2])
      ∧ ((_GetSelectedItem eb {}).1 = false → tick - t0 ≤ 50 →
          OnStateChange (construct t0) m_host eb tick CDBOSC_SELCHANGE
            = (S_OK, construct t0, [])) := by
  have hiff := IsDoubled_iff
    { m_timeCreated := tick, m_item := (_GetSelectedItem eb {}).2 }
    (construct t0).m_prevChangeSelEventData ht hle
  have hiff' : ChangeSelEventData.IsDoubled
        { m_timeCreated := tick, m_item := (_GetSelectedItem eb {}).2 }
        (construct t0).m_prevChangeSelEventData = true ↔
      (tick - t0 ≤ 50
        ∧ (_GetSelectedItem eb {}).2.GetSFGAO = 0
        ∧ (_GetSelectedItem eb {}).2.GetPath = ""
        ∧ (_GetSelectedItem eb {}).2.GetDisplayName = "") := hiff
  refine ⟨rfl, ?_, ?_, ?_⟩
  · cases hd : ChangeSelEventData.IsDoubled
        { m_timeCreated := tick, m_item := (_GetSelectedItem eb {}).2 }
        (construct t0).m_prevChangeSelEventData
    · rw [OnStateChange_fresh _ m_host eb tick hd]
      rw [hd] at hiff'
      simp only [Bool.false_eq_true, false_iff] at hiff'
      simp only [List.cons_ne_self, reduceCtorEq, false_iff]
      exact hiff'
    · rw [OnStateChange_doubled _ m_host eb tick hd]
      rw [hd] at hiff'
      simp only [true_iff] at hiff' ⊢
      exact hiff'
  · intro hne
    have hd : ChangeSelEventData.IsDoubled
        { m_timeCreated := tick, m_item := (_GetSelectedItem eb {}).2 }
        (construct t0).m_prevChangeSelEventData = false := by
      cases hd : ChangeSelEventData.IsDoubled
        { m_timeCreated := tick, m_item := (_GetSelectedItem eb {}).2 }
        (construct t0).m_prevChangeSelEventData
      · rfl
      · obtain ⟨_, ha, hp, hn⟩ := hiff'.1 hd
        rcases hne with h | h | h
        · exact absurd hn h
        · exact absurd hp h
        · exact absurd ha h
    rw [OnStateChange_fresh _ m_host eb tick hd]
  · intro hfail hnear
    have hitem : (_GetSelectedItem eb {}).2 = {} :=
      _GetSelectedItem_failed_unchanged eb {} hfail
    have hd : ChangeSelEventData.IsDoubled
        { m_timeCreated := tick, m_item := (_GetSelectedItem eb {}).2 }
        (construct t0).m_prevChangeSelEventData = true := by
      rw [hiff', hitem]
      exact ⟨hnear, rfl, rfl, rfl⟩
    exact OnStateChange_doubled _ m_host eb tick hd

/-- C27 at a helper constructed at tick 1000: without selection the first
notification is suppressed at tick 1050 and sent at tick 1051; with a file
selected it is sent at tick 1001. -/
theorem C27_initial_guard_witness :
    (OnStateChange (construct 1000) hostAllowing browserWithoutSelection 1050
        CDBOSC_SELCHANGE).2.2 = []
      ∧ (OnStateChange (construct 1000) hostAllowing browserWithoutSelection 1051
        CDBOSC_SELCHANGE).2.2.length = 1
      ∧ (OnStateChange (construct 1000) hostAllowing
        (browserWithSelection (shellItem (SFGAO_FILESYSTEM ||| SFGAO_STREAM) "C:\\a.txt" "a"))
        1001 CDBOSC_SELCHANGE).2.2.length = 1 := by
  refine ⟨?_, by decide, ?_⟩
  · exact (C27_initial_guard 1000 1050 hostAllowing browserWithoutSelection (by decide)
      (by decide)).2.1.2 (by decide)
  · rw [(C27_initial_guard 1000 1001 hostAllowing
      (browserWithSelection (shellItem (SFGAO_FILESYSTEM ||| SFGAO_STREAM) "C:\\a.txt" "a"))
      (by decide) (by decide)).2.2.1 (Or.inl (by decide))]
    rfl

/-! ## Event dispatch -/

/-- C28: `_SendNotifyEvent` answers `false` exactly when the host reports the
event as handled and the event is left vetoed; its answer is `true` whenever
the event is reported as not handled, also when a handler vetoed it, as with a
handler that vetoes and skips. -/
theorem C28_dispatch_result (m_host : wxWindow) (command : wxEventType)
    (ebi : wxExplorerBrowserItem) :
    ((_SendNotifyEvent m_host command ebi).1 = false ↔
        ((m_host.ProcessWindowEvent (eventFor m_host command ebi)).1 = true
          ∧ (m_host.ProcessWindowEvent (eventFor m_host command ebi)).2.IsAllowed = false))
      ∧ (_SendNotifyEvent m_host command ebi).1 =
          (!(m_host.ProcessWindowEvent (eventFor m_host command ebi)).1
            || (m_host.ProcessWindowEvent (eventFor m_host command ebi)).2.IsAllowed)
      ∧ (hostVetoingAndSkipping.ProcessWindowEvent
            (eventFor hostVetoingAndSkipping command ebi)).2.IsAllowed = false
      ∧ (_SendNotifyEvent hostVetoingAndSkipping command ebi).1 = true
      ∧ (_SendNotifyEvent hostWithoutHandler command ebi).1 = true
      ∧ (_SendNotifyEvent hostVetoing command ebi).1 = false := by
  refine ⟨?_, ?_, rfl, rfl, rfl, rfl⟩
  · rw [_SendNotifyEvent_answer]
    cases (m_host.ProcessWindowEvent (eventFor m_host command ebi)).1 <;>
      cases (m_host.ProcessWindowEvent (eventFor m_host command ebi)).2.IsAllowed <;> simp
  · rw [_SendNotifyEvent_answer]
    cases (m_host.ProcessWindowEvent (eventFor m_host command ebi)).1 <;>
      cases (m_host.ProcessWindowEvent (eventFor m_host command ebi)).2.IsAllowed <;> rfl

/-! ## Item lists, continued -/

/-- The loop is left with `return false` as soon as one of the remaining elements
cannot be fetched or converted. -/
theorem ShellItemArrayLoop_none (shellItems : IShellItemArray) (itemTypes : Nat)
    (remaining i : Nat) (tmpItems : List wxExplorerBrowserItem)
    (h : ∃ j, i ≤ j ∧ j < i + remaining ∧
      (FAILED (shellItems.GetItemAt j).1 = true
        ∨ (_IShellItem2wxExplorerBrowserItem (shellItems.GetItemAt j).2 {}).1 = false)) :
    wxExplorerBrowserImpl.ShellItemArrayLoop shellItems itemTypes remaining i tmpItems
      = none := by
  induction remaining generalizing i tmpItems with
  | zero =>
    obtain ⟨j, h1, h2, _⟩ := h
    omega
  | succ n ih =>
    obtain ⟨j, h1, h2, hj⟩ := h
    by_cases hf : FAILED (shellItems.GetItemAt i).1 = true
    · simp only [wxExplorerBrowserImpl.ShellItemArrayLoop, hf, if_true]
    · by_cases hc : (_IShellItem2wxExplorerBrowserItem (shellItems.GetItemAt i).2 {}).1 = true
      · have hji : j ≠ i := by
          intro hji
          subst hji
          rcases hj with hj | hj
          · exact hf hj
          · rw [hc] at hj
            exact Bool.noConfusion hj
        have hrest : ∃ j, i + 1 ≤ j ∧ j < i + 1 + n ∧
            (FAILED (shellItems.GetItemAt j).1 = true
              ∨ (_IShellItem2wxExplorerBrowserItem (shellItems.GetItemAt j).2 {}).1 = false) :=
          ⟨j, by omega, by omega, hj⟩
        simp only [wxExplorerBrowserImpl.ShellItemArrayLoop, hf, hc, if_false, Bool.not_true,
          Bool.false_eq_true]
        split
        · exact ih (i + 1) _ hrest
        · exact ih (i + 1) _ hrest
      · simp [wxExplorerBrowserImpl.ShellItemArrayLoop, hf, hc]

/-- The three ways `ShellItemArrayToExplorerBrowserItemList` can end. -/
theorem ShellItemArrayToExplorerBrowserItemList_cases (shellItems : IShellItemArray)
    (items : List wxExplorerBrowserItem) (itemTypes : Nat) :
    wxExplorerBrowserImpl.ShellItemArrayToExplorerBrowserItemList shellItems items itemTypes =
      if FAILED shellItems.GetCount.1 = true then (false, items)
      else
        match wxExplorerBrowserImpl.ShellItemArrayLoop shellItems itemTypes
            shellItems.GetCount.2 0 [] with
        | none => (false, items)
        | some tmpItems => (true, tmpItems) := by
  rfl

/-- C29: when reading the count fails, or some element cannot be fetched or
converted, `ShellItemArrayToExplorerBrowserItemList` returns `false` and the
list of the caller is what it was; whenever it returns `false` the list is
untouched; and when it returns `true`, the list it returns is the same whatever
list the caller passed in. -/
theorem C29_item_list_atomic (shellItems : IShellItemArray)
    (items : List wxExplorerBrowserItem) (itemTypes : Nat)
    (hfail : FAILED shellItems.GetCount.1 = true
      ∨ ∃ j, j < shellItems.GetCount.2 ∧
          (FAILED (shellItems.GetItemAt j).1 = true
            ∨ (_IShellItem2wxExplorerBrowserItem (shellItems.GetItemAt j).2 {}).1 = false)) :
    wxExplorerBrowserImpl.ShellItemArrayToExplorerBrowserItemList shellItems items itemTypes
        = (false, items)
      ∧ (∀ (other : IShellItemArray) (before : List wxExplorerBrowserItem),
          (wxExplorerBrowserImpl.ShellItemArrayToExplorerBrowserItemList other before
            itemTypes).1 = false →
          (wxExplorerBrowserImpl.ShellItemArrayToExplorerBrowserItemList other before
            itemTypes).2 = before)
      ∧ (∀ (other : IShellItemArray) (before before2 : List wxExplorerBrowserItem),
          (wxExplorerBrowserImpl.ShellItemArrayToExplorerBrowserItemList other before
            itemTypes).1 = true →
          wxExplorerBrowserImpl.ShellItemArrayToExplorerBrowserItemList other before2 itemTypes
            = wxExplorerBrowserImpl.ShellItemArrayToExplorerBrowserItemList other before
                itemTypes) := by
  refine ⟨?_, ?_, ?_⟩
  · unfold wxExplorerBrowserImpl.ShellItemArrayToExplorerBrowserItemList
    rcases hfail with hc | ⟨j, hj, hbad⟩
    · simp [hc]
    · have hloop := ShellItemArrayLoop_none shellItems itemTypes shellItems.GetCount.2 0 []
        ⟨j, Nat.zero_le j, by omega, hbad⟩
      simp only [hloop]
      split <;> rfl
  · intro other before h
    rw [ShellItemArrayToExplorerBrowserItemList_cases] at h ⊢
    by_cases hc : FAILED other.GetCount.1 = true
    · simp [hc]
    · cases hl : wxExplorerBrowserImpl.ShellItemArrayLoop other itemTypes other.GetCount.2 0 []
      · simp [hc]
      · simp [hc, hl] at h
  · intro other before before2 h
    rw [ShellItemArrayToExplorerBrowserItemList_cases] at h
    rw [ShellItemArrayToExplorerBrowserItemList_cases,
      ShellItemArrayToExplorerBrowserItemList_cases]
    by_cases hc : FAILED other.GetCount.1 = true
    · simp [hc] at h
    · cases hl : wxExplorerBrowserImpl.ShellItemArrayLoop other itemTypes other.GetCount.2 0 []
      · simp [hc, hl] at h
      · simp [hc]

/-- C29 at an array whose second element cannot be fetched, and at one that
converts: the stale entry of the caller stays in the first case and is gone in
the second. -/
theorem C29_item_list_atomic_witness :
    wxExplorerBrowserImpl.ShellItemArrayToExplorerBrowserItemList
        { GetCount := (S_OK, 2)
          GetItemAt := fun i =>
            if i = 0 then
              (S_OK, some (shellItem (SFGAO_FILESYSTEM ||| SFGAO_STREAM) "C:\\a.txt" "a"))
            else (E_FAIL, none) }
        [{ m_displayName := "stale" }] File.toNat
      = (false, [{ m_displayName := "stale" }])
      ∧ wxExplorerBrowserImpl.ShellItemArrayToExplorerBrowserItemList
        (itemArray [shellItem (SFGAO_FILESYSTEM ||| SFGAO_STREAM) "C:\\a.txt" "a"])
        [{ m_displayName := "stale" }] File.toNat
      = (true, [{ m_type := File, m_path := "C:\\a.txt", m_displayName := "a",
                  m_SFGAO := SFGAO_FILESYSTEM ||| SFGAO_STREAM }]) :=
  ⟨(C29_item_list_atomic
      { GetCount := (S_OK, 2)
        GetItemAt := fun i =>
          if i = 0 then
            (S_OK, some (shellItem (SFGAO_FILESYSTEM ||| SFGAO_STREAM) "C:\\a.txt" "a"))
          else (E_FAIL, none) }
      [{ m_displayName := "stale" }] File.toNat
      (Or.inr ⟨1, by decide, Or.inl (by decide)⟩)).1,
    by decide⟩

/-- C30: on a control that owns an explorer browser whose view can be obtained,
for a non-zero type mask, `GetSelectedItems` returns `true` and leaves the list
of the caller as it was when the selection query of the view fails, whereas
`GetAllItems` returns `false` when the item query of the view fails. -/
theorem C30_failed_queries (self : wxExplorerBrowser) (impl : wxExplorerBrowserImpl)
    (eb : IExplorerBrowser) (items : List wxExplorerBrowserItem) (itemTypes : Nat)
    (himpl : self.m_impl = some impl) (hbrowser : impl.m_explorerBrowser = true)
    (hview : FAILED eb.GetCurrentView.1 = false) (htypes : itemTypes ≠ 0) :
    (FAILED (eb.GetCurrentView.2.GetSelection false).1 = true →
        self.GetSelectedItems eb items itemTypes = (true, items))
      ∧ (FAILED (eb.GetCurrentView.2.Items (SVGIO_ALLVIEW ||| SVGIO_FLAG_VIEWORDER)).1 = true →
        self.GetAllItems eb items itemTypes = (false, items)) := by
  refine ⟨fun hsel => ?_, fun hall => ?_⟩
  · unfold wxExplorerBrowser.GetSelectedItems wxExplorerBrowserImpl.GetSelectedItems
    simp [himpl, htypes, hbrowser, hview, hsel]
  · unfold wxExplorerBrowser.GetAllItems wxExplorerBrowserImpl.GetAllItems
    simp [himpl, htypes, hbrowser, hview, hall]

/-- C30 at a created control whose view answers neither query, with a list of
one entry passed in. -/
theorem C30_failed_queries_witness :
    (createdBrowser 0).GetSelectedItems browserWithoutSelection
        [{ m_displayName := "stale" }] File.toNat
      = (true, [{ m_displayName := "stale" }])
      ∧ (createdBrowser 0).GetAllItems browserWithoutSelection
        [{ m_displayName := "stale" }] File.toNat
      = (false, [{ m_displayName := "stale" }]) :=
  ⟨(C30_failed_queries (createdBrowser 0)
      { m_explorerBrowser := true, m_explorerBrowserHelper := some (construct 0),
        m_adviseCookie := 1 }
      browserWithoutSelection [{ m_displayName := "stale" }] File.toNat rfl rfl (by decide)
      (by decide)).1 (by decide),
    (C30_failed_queries (createdBrowser 0)
      { m_explorerBrowser := true, m_explorerBrowserHelper := some (construct 0),
        m_adviseCookie := 1 }
      browserWithoutSelection [{ m_displayName := "stale" }] File.toNat rfl rfl (by decide)
      (by decide)).2 (by decide)⟩

/-! ## Selecting items -/

/-- The name the loop of `SelectItems` computes is `resolveName`. -/
theorem resolveName_eq (item : wxExplorerBrowserItem) :
    (if item.GetPath.isEmpty then item.GetDisplayName else item.GetPath) = resolveName item := by
  unfold resolveName
  by_cases h : item.GetPath = ""
  · have hb : item.GetPath.isEmpty = true := (String.isEmpty_iff _).2 h
    rw [if_pos hb, if_pos h]
  · have hb : ¬ item.GetPath.isEmpty = true := fun hb => h ((String.isEmpty_iff _).1 hb)
    rw [if_neg hb, if_neg h]

/-- One round of the loop of `SelectItems`. -/
theorem SelectItemsLoop_cons (sf : IShellFolder) (sv : IShellView) (notTakeFocus : Bool)
    (item : wxExplorerBrowserItem) (items : List wxExplorerBrowserItem) :
    wxExplorerBrowserImpl.SelectItemsLoop sf sv notTakeFocus (item :: items) =
      if FAILED (sf.ParseDisplayName (resolveName item)).1 = true then
        (false, [EngineCall.ParseDisplayName (resolveName item)])
      else if FAILED (sv.SelectItem (some (sf.ParseDisplayName (resolveName item)).2)
          (selectFlags notTakeFocus)) = true then
        (false, selectCalls sf notTakeFocus [item])
      else
        ((wxExplorerBrowserImpl.SelectItemsLoop sf sv notTakeFocus items).1,
          selectCalls sf notTakeFocus [item]
            ++ (wxExplorerBrowserImpl.SelectItemsLoop sf sv notTakeFocus items).2) := by
  have hflags : (if notTakeFocus = true then SVSI_SELECT ||| SVSI_NOTAKEFOCUS else SVSI_SELECT)
      = selectFlags notTakeFocus := rfl
  simp only [wxExplorerBrowserImpl.SelectItemsLoop, resolveName_eq, hflags, selectCalls,
    List.append_nil]

theorem selectable_iff (sf : IShellFolder) (sv : IShellView) (notTakeFocus : Bool)
    (item : wxExplorerBrowserItem) :
    selectable sf sv notTakeFocus item = true ↔
      (FAILED (sf.ParseDisplayName (resolveName item)).1 = false
        ∧ FAILED (sv.SelectItem (some (sf.ParseDisplayName (resolveName item)).2)
            (selectFlags notTakeFocus)) = false) := by
  unfold selectable
  simp

theorem selectCalls_append (sf : IShellFolder) (notTakeFocus : Bool)
    (pre post : List wxExplorerBrowserItem) :
    selectCalls sf notTakeFocus (pre ++ post)
      = selectCalls sf notTakeFocus pre ++ selectCalls sf notTakeFocus post := by
  induction pre with
  | nil => rfl
  | cons x xs ih => simp [selectCalls, ih]

/-- The loop over items that can all be resolved and selected. -/
theorem SelectItemsLoop_all (sf : IShellFolder) (sv : IShellView) (notTakeFocus : Bool)
    (items : List wxExplorerBrowserItem)
    (h : ∀ x ∈ items, selectable sf sv notTakeFocus x = true) :
    wxExplorerBrowserImpl.SelectItemsLoop sf sv notTakeFocus items
      = (true, selectCalls sf notTakeFocus items) := by
  induction items with
  | nil => rfl
  | cons x xs ih =>
    have hx := (selectable_iff sf sv notTakeFocus x).1 (h x (List.mem_cons_self x xs))
    have hxs := ih (fun y hy => h y (List.mem_cons_of_mem x hy))
    rw [SelectItemsLoop_cons, hxs]
    simp [hx.1, hx.2, selectCalls]

/-- The loop reports success only when every item was resolved and selected. -/
theorem SelectItemsLoop_true (sf : IShellFolder) (sv : IShellView) (notTakeFocus : Bool)
    (items : List wxExplorerBrowserItem)
    (h : (wxExplorerBrowserImpl.SelectItemsLoop sf sv notTakeFocus items).1 = true) :
    ∀ x ∈ items, selectable sf sv notTakeFocus x = true := by
  induction items with
  | nil => intro x hx; exact absurd hx (List.not_mem_nil x)
  | cons y ys ih =>
    rw [SelectItemsLoop_cons] at h
    by_cases h1 : FAILED (sf.ParseDisplayName (resolveName y)).1 = true
    · simp [h1] at h
    · by_cases h2 : FAILED (sv.SelectItem (some (sf.ParseDisplayName (resolveName y)).2)
          (selectFlags notTakeFocus)) = true
      · simp [h1, h2] at h
      · simp only [h1, h2, if_false] at h
        intro x hx
        rcases List.mem_cons.1 hx with hxy | hxys
        · rw [hxy, selectable_iff]
          exact ⟨by simpa using h1, by simpa using h2⟩
        · exact ih h x hxys

/-- The loop stops at the first item that cannot be resolved. -/
theorem SelectItemsLoop_unresolved (sf : IShellFolder) (sv : IShellView) (notTakeFocus : Bool)
    (pre post : List wxExplorerBrowserItem) (item : wxExplorerBrowserItem)
    (hpre : ∀ x ∈ pre, selectable sf sv notTakeFocus x = true)
    (hitem : FAILED (sf.ParseDisplayName (resolveName item)).1 = true) :
    wxExplorerBrowserImpl.SelectItemsLoop sf sv notTakeFocus (pre ++ item :: post)
      = (false, selectCalls sf notTakeFocus pre
          ++ [EngineCall.ParseDisplayName (resolveName item)]) := by
  induction pre with
  | nil =>
    rw [List.nil_append, SelectItemsLoop_cons]
    simp [hitem, selectCalls]
  | cons x xs ih =>
    have hx := (selectable_iff sf sv notTakeFocus x).1 (hpre x (List.mem_cons_self x xs))
    have hxs := ih (fun y hy => hpre y (List.mem_cons_of_mem x hy))
    rw [List.cons_append, SelectItemsLoop_cons, hxs]
    simp [hx.1, hx.2, selectCalls]

/-- What `SelectItems` does once the view and its folder have been obtained. -/
theorem SelectItems_eq (self : wxExplorerBrowserImpl) (eb : IExplorerBrowser)
    (items : List wxExplorerBrowserItem) (notTakeFocus : Bool)
    (hbrowser : self.m_explorerBrowser = true)
    (hsv : FAILED eb.GetCurrentView_IShellView.1 = false)
    (hfv : FAILED eb.GetCurrentView.1 = false)
    (hsf : FAILED eb.GetCurrentView.2.GetFolder.1 = false) :
    self.SelectItems eb items notTakeFocus =
      ((wxExplorerBrowserImpl.SelectItemsLoop eb.GetCurrentView.2.GetFolder.2
          eb.GetCurrentView_IShellView.2 notTakeFocus items).1,
        selectLookups ++ (wxExplorerBrowserImpl.SelectItemsLoop eb.GetCurrentView.2.GetFolder.2
          eb.GetCurrentView_IShellView.2 notTakeFocus items).2) := by
  unfold wxExplorerBrowserImpl.SelectItems selectLookups
  simp [hbrowser, hsv, hfv, hsf]

/-- C22: once the view and its folder have been obtained, `SelectItems` resolves each
item by its path, or by its display name when the path is empty, and selects
it with `SVSI_SELECT`, to which `SVSI_NOTAKEFOCUS` is added exactly when
`notTakeFocus` is set. When an item cannot be resolved while all items before
it were resolved and selected, the call returns `false` and its last call is
the attempt to resolve that item, so that no later item is resolved or
selected. The call returns `true` exactly when every item was resolved and
selected, and then the calls are those for the items, in order. -/
theorem C22_select_items (self : wxExplorerBrowserImpl) (eb : IExplorerBrowser)
    (items : List wxExplorerBrowserItem) (notTakeFocus : Bool)
    (hbrowser : self.m_explorerBrowser = true)
    (hsv : FAILED eb.GetCurrentView_IShellView.1 = false)
    (hfv : FAILED eb.GetCurrentView.1 = false)
    (hsf : FAILED eb.GetCurrentView.2.GetFolder.1 = false) :
    (∀ (pre post : List wxExplorerBrowserItem) (item : wxExplorerBrowserItem),
        items = pre ++ item :: post →
        (∀ x ∈ pre, selectable eb.GetCurrentView.2.GetFolder.2 eb.GetCurrentView_IShellView.2
          notTakeFocus x = true) →
        FAILED (eb.GetCurrentView.2.GetFolder.2.ParseDisplayName (resolveName item)).1 = true →
        self.SelectItems eb items notTakeFocus =
          (false, selectLookups ++ selectCalls eb.GetCurrentView.2.GetFolder.2 notTakeFocus pre
            ++ [EngineCall.ParseDisplayName (resolveName item)]))
      ∧ ((self.SelectItems eb items notTakeFocus).1 = true ↔
          ∀ x ∈ items, selectable eb.GetCurrentView.2.GetFolder.2
            eb.GetCurrentView_IShellView.2 notTakeFocus x = true)
      ∧ ((self.SelectItems eb items notTakeFocus).1 = true →
          (self.SelectItems eb items notTakeFocus).2 =
            selectLookups ++ selectCalls eb.GetCurrentView.2.GetFolder.2 notTakeFocus items)
      ∧ (∀ item : wxExplorerBrowserItem,
          (item.GetPath ≠ "" → resolveName item = item.GetPath)
            ∧ (item.GetPath = "" → resolveName item = item.GetDisplayName))
      ∧ selectFlags true = SVSI_SELECT ||| SVSI_NOTAKEFOCUS
      ∧ selectFlags false = SVSI_SELECT := by
  rw [SelectItems_eq self eb items notTakeFocus hbrowser hsv hfv hsf]
  refine ⟨?_, ?_, ?_, ?_, rfl, rfl⟩
  · intro pre post item hitems hpre hitem
    rw [hitems, SelectItemsLoop_unresolved _ _ _ pre post item hpre hitem, List.append_assoc]
  · constructor
    · intro h
      exact SelectItemsLoop_true _ _ _ items h
    · intro h
      rw [SelectItemsLoop_all _ _ _ items h]
  · intro h
    rw [SelectItemsLoop_all _ _ _ items (SelectItemsLoop_true _ _ _ items h)]
  · intro item
    unfold resolveName
    exact ⟨fun h => if_neg h, fun h => if_pos h⟩

/-- C22 at the scenario folder: `a.doc` by its path and `d` by its display name
are selected without taking the focus; with `missing.txt` in between, the call
fails after trying to resolve it and `d` is never looked at. -/
theorem C22_select_items_witness :
    wxExplorerBrowserImpl.SelectItems { m_explorerBrowser := true } workingBrowser
        [{ m_path := "C:\\work\\a.doc", m_displayName := "a.doc" }, { m_displayName := "d" }]
        true
      = (true, selectLookups ++
          [EngineCall.ParseDisplayName "C:\\work\\a.doc",
           EngineCall.SelectItem (some 13) (SVSI_SELECT ||| SVSI_NOTAKEFOCUS),
           EngineCall.ParseDisplayName "d",
           EngineCall.SelectItem (some 1) (SVSI_SELECT ||| SVSI_NOTAKEFOCUS)])
      ∧ wxExplorerBrowserImpl.SelectItems { m_explorerBrowser := true } workingBrowser
        [{ m_path := "C:\\work\\a.doc", m_displayName := "a.doc" },
         { m_displayName := "missing.txt" }, { m_displayName := "d" }]
        false
      = (false, selectLookups ++
          [EngineCall.ParseDisplayName "C:\\work\\a.doc",
           EngineCall.SelectItem (some 13) SVSI_SELECT,
           EngineCall.ParseDisplayName "missing.txt"]) :=
  ⟨by decide,
    (C22_select_items { m_explorerBrowser := true } workingBrowser
      [{ m_path := "C:\\work\\a.doc", m_displayName := "a.doc" },
       { m_displayName := "missing.txt" }, { m_displayName := "d" }]
      false rfl (by decide) (by decide) (by decide)).1
      [{ m_path := "C:\\work\\a.doc", m_displayName := "a.doc" }]
      [{ m_displayName := "d" }] { m_displayName := "missing.txt" } rfl (by decide)
      (by decide)⟩

/-! ## Creation and destruction -/

theorem SUCCEEDED_eq_not_FAILED (hr : HRESULT) : SUCCEEDED hr = !FAILED hr := by
  unfold SUCCEEDED FAILED
  by_cases h : hr < 0
  · have : ¬ (0 ≤ hr) := Int.not_le.2 h
    simp [h, this]
  · have : 0 ≤ hr := Int.not_lt.1 h
    simp [h, this]

/-- A second call of `Create` is turned down before anything is done. -/
theorem Create_again (self : wxExplorerBrowserImpl) (os : OperatingSystem)
    (eb : IExplorerBrowser) (tick : Nat) (createStruct : CreateStruct) (path : String)
    (h : self.m_explorerBrowser = true) :
    self.Create os eb tick createStruct path = (false, self, []) := by
  unfold wxExplorerBrowserImpl.Create
  cases self.m_host <;> simp [h]

/-- When the explorer browser cannot be instantiated, `Create` changes nothing. -/
theorem Create_no_instance (self : wxExplorerBrowserImpl) (os : OperatingSystem)
    (eb : IExplorerBrowser) (tick : Nat) (createStruct : CreateStruct) (path : String)
    (hhost : self.m_host = true) (hun : self.m_explorerBrowser = false)
    (hfail : FAILED os.CoCreateInstance = true) :
    self.Create os eb tick createStruct path = (false, self, [EngineCall.CoCreateInstance]) := by
  unfold wxExplorerBrowserImpl.Create
  simp [hhost, hun, hfail]

/-- Once the explorer browser is instantiated, `Create` keeps it and the helper,
however the call ends. -/
theorem Create_keeps_instance (self : wxExplorerBrowserImpl) (os : OperatingSystem)
    (eb : IExplorerBrowser) (tick : Nat) (createStruct : CreateStruct) (path : String)
    (hhost : self.m_host = true) (hun : self.m_explorerBrowser = false)
    (hok : FAILED os.CoCreateInstance = false) :
    (self.Create os eb tick createStruct path).2.1.m_explorerBrowser = true
      ∧ (self.Create os eb tick createStruct path).2.1.m_explorerBrowserHelper
          = some { wxExplorerBrowserImplHelper.construct tick with
                   m_paneSettings := createStruct.paneSettings } := by
  have hcount : wrapLONG (wrapLONG 2 - 1) = 1 := by decide
  unfold wxExplorerBrowserImpl.Create wxExplorerBrowserImpl.BrowseTo
  simp only [hhost, hun, hok, Bool.not_true, Bool.false_eq_true, if_false]
  split_ifs <;>
    simp [wxExplorerBrowserImplHelper._SetPaneSettings, wxExplorerBrowserImplHelper.AddRef,
      wxExplorerBrowserImplHelper.Release, wxExplorerBrowserImplHelper.construct, hcount]

/-- The result of `Create` on an object that has a host and no explorer browser
yet: whether all its steps succeed. -/
theorem Create_result (self : wxExplorerBrowserImpl) (os : OperatingSystem)
    (eb : IExplorerBrowser) (tick : Nat) (createStruct : CreateStruct) (path : String)
    (hhost : self.m_host = true) (hun : self.m_explorerBrowser = false) :
    (self.Create os eb tick createStruct path).1 = createSucceeds os eb createStruct path := by
  unfold wxExplorerBrowserImpl.Create wxExplorerBrowserImpl.BrowseTo createSucceeds
  simp only [hhost, hun, Bool.not_true, Bool.false_eq_true, if_false, SUCCEEDED_eq_not_FAILED]
  split_ifs <;> simp_all

/-- C23, the claim as written fails: when the explorer browser is instantiated
and then refuses the options, `Create` returns `false` but keeps the explorer
browser and the helper; a later `Create` is turned down as a second call even
if every step would now succeed, and the state check of `GetAllItems`
passes. -/
theorem C23_failed_create_keeps_engine :
    (wxExplorerBrowserImpl.Create {} workingSystem browserRefusingOptions 0 {} "C:\\work")
        = (false,
           { m_explorerBrowser := true,
             m_explorerBrowserHelper := some (wxExplorerBrowserImplHelper.construct 0) },
           [EngineCall.CoCreateInstance, EngineCall.SetOptions 66])
      ∧ wxExplorerBrowserImpl.Create
          { m_explorerBrowser := true,
            m_explorerBrowserHelper := some (wxExplorerBrowserImplHelper.construct 0) }
          workingSystem workingBrowser 5 {} "C:\\work"
        = (false,
           { m_explorerBrowser := true,
             m_explorerBrowserHelper := some (wxExplorerBrowserImplHelper.construct 0) },
           [])
      ∧ (wxExplorerBrowserImpl.Create {} workingSystem workingBrowser 5 {} "C:\\work").1 = true
      ∧ (wxExplorerBrowserImpl.GetAllItems
          { m_explorerBrowser := true,
            m_explorerBrowserHelper := some (wxExplorerBrowserImplHelper.construct 0) }
          workingBrowser [] File.toNat).1 = true
      ∧ ¬ (∀ (self : wxExplorerBrowserImpl) (os : OperatingSystem) (eb : IExplorerBrowser)
            (tick : Nat) (createStruct : CreateStruct) (path : String),
            self.m_host = true → self.m_explorerBrowser = false →
            (self.Create os eb tick createStruct path).1 = false →
            (self.Create os eb tick createStruct path).2.1.m_explorerBrowser = false) := by
  refine ⟨by decide, by decide, by decide, by decide, fun h => ?_⟩
  have h1 := h {} workingSystem browserRefusingOptions 0 {} "C:\\work" rfl rfl (by decide)
  revert h1
  decide

/-- C23, amended: on an object with a host and no explorer browser, `Create`
returns `true` exactly when all of its steps succeed, and then the object holds
the explorer browser and the helper. When the explorer browser cannot be
instantiated the object is left as it was, so that a later `Create` is carried
out. When it is instantiated and a later step fails (options, site, filter
registration, initialization, subscription, first navigation), `Create` returns
`false` but the object keeps the explorer browser and the helper, and every
later `Create` is turned down as a second call. -/
theorem C23_create_lifecycle (self : wxExplorerBrowserImpl) (os : OperatingSystem)
    (eb : IExplorerBrowser) (tick : Nat) (createStruct : CreateStruct) (path : String)
    (hhost : self.m_host = true) (hun : self.m_explorerBrowser = false) :
    ((self.Create os eb tick createStruct path).1 = true ↔
        createSucceeds os eb createStruct path = true)
      ∧ ((self.Create os eb tick createStruct path).1 = true →
          (self.Create os eb tick createStruct path).2.1.m_explorerBrowser = true
            ∧ (self.Create os eb tick createStruct path).2.1.m_explorerBrowserHelper
                = some { wxExplorerBrowserImplHelper.construct tick with
                         m_paneSettings := createStruct.paneSettings })
      ∧ (FAILED os.CoCreateInstance = true →
          self.Create os eb tick createStruct path
              = (false, self, [EngineCall.CoCreateInstance])
            ∧ ∀ (os2 : OperatingSystem) (eb2 : IExplorerBrowser) (tick2 : Nat)
                (createStruct2 : CreateStruct) (path2 : String),
                ((self.Create os eb tick createStruct path).2.1.Create os2 eb2 tick2
                  createStruct2 path2).1 = createSucceeds os2 eb2 createStruct2 path2)
      ∧ (FAILED os.CoCreateInstance = false →
          (self.Create os eb tick createStruct path).2.1.m_explorerBrowser = true
            ∧ (self.Create os eb tick createStruct path).2.1.m_explorerBrowserHelper
                = some { wxExplorerBrowserImplHelper.construct tick with
                         m_paneSettings := createStruct.paneSettings }
            ∧ ∀ (os2 : OperatingSystem) (eb2 : IExplorerBrowser) (tick2 : Nat)
                (createStruct2 : CreateStruct) (path2 : String),
                (self.Create os eb tick createStruct path).2.1.Create os2 eb2 tick2
                  createStruct2 path2
                  = (false, (self.Create os eb tick createStruct path).2.1, [])) := by
  have hres := Create_result self os eb tick createStruct path hhost hun
  have hinst : FAILED os.CoCreateInstance = false →
      (self.Create os eb tick createStruct path).2.1.m_explorerBrowser = true
        ∧ (self.Create os eb tick createStruct path).2.1.m_explorerBrowserHelper
            = some { wxExplorerBrowserImplHelper.construct tick with
                     m_paneSettings := createStruct.paneSettings } :=
    Create_keeps_instance self os eb tick createStruct path hhost hun
  refine ⟨by rw [hres], ?_, ?_, ?_⟩
  · intro htrue
    apply hinst
    rw [hres] at htrue
    cases hf : FAILED os.CoCreateInstance
    · rfl
    · unfold createSucceeds at htrue
      simp [SUCCEEDED_eq_not_FAILED, hf] at htrue
  · intro hfail
    have hsame := Create_no_instance self os eb tick createStruct path hhost hun hfail
    refine ⟨hsame, ?_⟩
    intro os2 eb2 tick2 createStruct2 path2
    rw [hsame]
    exact Create_result self os2 eb2 tick2 createStruct2 path2 hhost hun
  · intro hok
    refine ⟨(hinst hok).1, (hinst hok).2, ?_⟩
    intro os2 eb2 tick2 createStruct2 path2
    exact Create_again _ os2 eb2 tick2 createStruct2 path2 (hinst hok).1

/-- C23, amended, at a new object: with everything working `Create` succeeds;
when no explorer browser can be instantiated nothing changes; when the
subscription fails the explorer browser is kept. -/
theorem C23_create_lifecycle_witness :
    (wxExplorerBrowserImpl.Create {} workingSystem workingBrowser 0 {} "C:\\work").1 = true
      ∧ wxExplorerBrowserImpl.Create {} {} workingBrowser 0 {} "C:\\work"
        = (false, {}, [EngineCall.CoCreateInstance])
      ∧ (wxExplorerBrowserImpl.Create {} workingSystem
          { workingBrowser with Advise := (E_FAIL, 0) } 0 {} "C:\\work").2.1.m_explorerBrowser
        = true :=
  ⟨(C23_create_lifecycle {} workingSystem workingBrowser 0 {} "C:\\work" rfl rfl).1.2
      (by decide),
    ((C23_create_lifecycle {} {} workingBrowser 0 {} "C:\\work" rfl rfl).2.2.1 (by decide)).1,
    ((C23_create_lifecycle {} workingSystem { workingBrowser with Advise := (E_FAIL, 0) } 0 {}
      "C:\\work" rfl rfl).2.2.2 (by decide)).1⟩

/-- The calls the destructor makes for an object that holds an explorer browser
and a helper. -/
theorem destructor_calls (self : wxExplorerBrowserImpl) (os : OperatingSystem)
    (eb : IExplorerBrowser) (helper : wxExplorerBrowserImplHelper)
    (hbrowser : self.m_explorerBrowser = true)
    (hhelper : self.m_explorerBrowserHelper = some helper) :
    self.destructor os eb =
      (Call_IUnknown_SetSite os false).2
        ++ [EngineCall.Unadvise self.m_adviseCookie, EngineCall.QueryInterface_IFolderFilterSite]
        ++ (if SUCCEEDED eb.QueryInterface_IFolderFilterSite.1 = true
            then [EngineCall.SetFilter false] else [])
        ++ [EngineCall.Destroy] := by
  unfold wxExplorerBrowserImpl.destructor
  simp only [hbrowser, hhelper, if_true]
  split_ifs <;> simp

/-- C24, the claim as written fails: an explorer browser that does not give out
its filter-site interface makes `Create` fail with explorer browser and helper
in place, and the destructor then detaches the site, unsubscribes and destroys
the explorer browser without the call that clears the filter. -/
theorem C24_filter_not_cleared :
    (wxExplorerBrowserImpl.Create {} workingSystem browserWithoutFilterSite 0 {} "C:\\work").2.1
        = { m_explorerBrowser := true,
            m_explorerBrowserHelper := some (wxExplorerBrowserImplHelper.construct 0) }
      ∧ wxExplorerBrowserImpl.destructor
          { m_explorerBrowser := true,
            m_explorerBrowserHelper := some (wxExplorerBrowserImplHelper.construct 0) }
          workingSystem browserWithoutFilterSite
        = [EngineCall.IUnknown_SetSite false, EngineCall.Unadvise 0,
           EngineCall.QueryInterface_IFolderFilterSite, EngineCall.Destroy]
      ∧ ¬ (∀ (self : wxExplorerBrowserImpl) (os : OperatingSystem) (eb : IExplorerBrowser),
            self.m_explorerBrowser = true → self.m_explorerBrowserHelper.isSome = true →
            EngineCall.SetFilter false ∈ self.destructor os eb) := by
  refine ⟨by decide, by decide, fun h => ?_⟩
  have h1 := h
    { m_explorerBrowser := true,
      m_explorerBrowserHelper := some (wxExplorerBrowserImplHelper.construct 0) }
    workingSystem browserWithoutFilterSite rfl rfl
  revert h1
  decide

/-- C24, amended: destroying an object that holds an explorer browser and a
helper makes, in this order, the call that detaches the site (when the entry
point `IUnknown_SetSite` can be loaded), `Unadvise` with the cookie, the query
for the filter-site interface, `SetFilter(nullptr)` when that query succeeded,
and `Destroy`. No status of a call decides whether a later call is made, except
that of the query for `SetFilter(nullptr)`; `Destroy` is always the last
call. -/
theorem C24_teardown_order (self : wxExplorerBrowserImpl) (os : OperatingSystem)
    (eb : IExplorerBrowser) (helper : wxExplorerBrowserImplHelper)
    (hbrowser : self.m_explorerBrowser = true)
    (hhelper : self.m_explorerBrowserHelper = some helper) :
    self.destructor os eb =
        (match os.IUnknown_SetSite with
          | some _ => [EngineCall.IUnknown_SetSite false]
          | none => [])
        ++ [EngineCall.Unadvise self.m_adviseCookie, EngineCall.QueryInterface_IFolderFilterSite]
        ++ (if SUCCEEDED eb.QueryInterface_IFolderFilterSite.1 = true
            then [EngineCall.SetFilter false] else [])
        ++ [EngineCall.Destroy]
      ∧ (self.destructor os eb).getLast? = some EngineCall.Destroy
      ∧ (∀ setSite : Bool → HRESULT, os.IUnknown_SetSite = some setSite →
          SUCCEEDED eb.QueryInterface_IFolderFilterSite.1 = true →
          self.destructor os eb =
            [EngineCall.IUnknown_SetSite false, EngineCall.Unadvise self.m_adviseCookie,
             EngineCall.QueryInterface_IFolderFilterSite, EngineCall.SetFilter false,
             EngineCall.Destroy]) := by
  have hcalls := destructor_calls self os eb helper hbrowser hhelper
  have hsite : (Call_IUnknown_SetSite os false).2 =
      (match os.IUnknown_SetSite with
        | some _ => [EngineCall.IUnknown_SetSite false]
        | none => []) := by
    unfold Call_IUnknown_SetSite
    cases os.IUnknown_SetSite <;> rfl
  rw [hsite] at hcalls
  refine ⟨hcalls, ?_, ?_⟩
  · rw [hcalls]
    rw [List.getLast?_append]
    rfl
  · intro setSite hs hq
    rw [hcalls, hs]
    simp [hq]

/-- C24, amended, at a created object whose explorer browser answers every
teardown call with a failure status except the query for the filter site. -/
theorem C24_teardown_order_witness :
    wxExplorerBrowserImpl.destructor
        { m_explorerBrowser := true,
          m_explorerBrowserHelper := some (wxExplorerBrowserImplHelper.construct 0),
          m_adviseCookie := 1 }
        { workingSystem with IUnknown_SetSite := some (fun _ => E_FAIL) }
        { workingBrowser with
          Unadvise := fun _ => E_FAIL,
          QueryInterface_IFolderFilterSite := (S_OK, { SetFilter := fun _ => E_FAIL }),
          Destroy := E_FAIL }
      = [EngineCall.IUnknown_SetSite false, EngineCall.Unadvise 1,
         EngineCall.QueryInterface_IFolderFilterSite, EngineCall.SetFilter false,
         EngineCall.Destroy] :=
  (C24_teardown_order
    { m_explorerBrowser := true,
      m_explorerBrowserHelper := some (wxExplorerBrowserImplHelper.construct 0),
      m_adviseCookie := 1 }
    { workingSystem with IUnknown_SetSite := some (fun _ => E_FAIL) }
    { workingBrowser with
      Unadvise := fun _ => E_FAIL,
      QueryInterface_IFolderFilterSite := (S_OK, { SetFilter := fun _ => E_FAIL }),
      Destroy := E_FAIL }
    (wxExplorerBrowserImplHelper.construct 0) rfl rfl).2.2 (fun _ => E_FAIL) rfl (by decide)

end wxExplorerBrowser
